import Mathlib

/-!
# Untitled Relativity Game: kinematics and collision resolution

A shallow embedding of the physics core of the game (`body.cpp`, `entity.cpp`,
`surface.cpp`, `gamefuncs.cpp` and the collision part of the game loop in
`main.cpp`), with theorems about it.

Conventions of the embedding:

* C++ `float`/`double` values are exact rationals (`ℚ`); a conversion from a float
  to an `int` truncates toward zero (`truncToInt`). The functions that call `cos`,
  `sin` or `sqrt` are modelled over the reals (`ℝ`).
* Where the rounding of `float` decides a property (`lorentzFactor` near 1), the
  function is also modelled with every operation rounded to binary32 (`roundF32`).
* C++ `int` values are unbounded integers (`Int`); overflow is not modelled.
* Rendering, audio and textures are left out: they do not feed back into the physics.
-/

namespace URG

/-! ## Entities, bodies and surfaces -/

/-- An `Entity` (Entity.hpp): position, scale, flags and the frame rectangle's extent. -/
structure Entity where
  x : ℚ
  y : ℚ
  size : ℚ := 1
  vanished : Bool := false
  hitboxAdjust : Bool := false
  width : Int
  height : Int
  deriving DecidableEq

/-- A `Body` (Body.hpp): an entity with velocity and acceleration. -/
structure Body extends Entity where
  xPrime : ℚ := 0
  yPrime : ℚ := 0
  xPrimePrime : ℚ := 0
  yPrimePrime : ℚ := 0
  affectedByGravity : Bool := false
  bouncy : Bool := false
  deriving DecidableEq

/-- The gravitational acceleration `Body::g`. -/
def Body.g : ℚ := 980665 / 100000

/-- The integration step `dt` of `Body::move`. -/
def Body.dt : ℚ := 1 / 100

/-- `Body::move(reverseArg)`: one semi-implicit Euler step, forward when
`reverseArg >= 0` and backward otherwise. -/
def Body.move (b : Body) (reverseArg : Int := 0) : Body :=
  if reverseArg ≥ 0 then
    let xPrime := b.xPrime + b.xPrimePrime * Body.dt
    let yPrime := b.yPrime + b.yPrimePrime * Body.dt
    { b with
      xPrime := xPrime
      yPrime := yPrime
      x := b.x + xPrime * Body.dt
      y := b.y + yPrime * Body.dt }
  else
    let y := b.y + -1 * b.yPrime * Body.dt
    let x := b.x + -1 * b.xPrime * Body.dt
    { b with
      y := y
      x := x
      yPrime := b.yPrime - b.yPrimePrime * Body.dt
      xPrime := b.xPrime - b.xPrimePrime * Body.dt }

/-- `Body::stopX`. -/
def Body.stopX (b : Body) : Body :=
  { b with xPrime := 0, xPrimePrime := 0 }

/-- `Body::stopY`. -/
def Body.stopY (b : Body) : Body :=
  { b with yPrime := 0, yPrimePrime := 0 }

/-- `Body::jump(strength)`. -/
def Body.jump (b : Body) (strength : Int) : Body :=
  { b with yPrime := -1 * (strength : ℚ), yPrimePrime := Body.g }

/-- `Entity::setX` on a body. -/
def Body.setX (b : Body) (amount : ℚ) : Body :=
  { b with x := amount }

/-- `Entity::setY` on a body. -/
def Body.setY (b : Body) (amount : ℚ) : Body :=
  { b with y := amount }

/-- `Body::setXPrime`. -/
def Body.setXPrime (b : Body) (amount : ℚ) : Body :=
  { b with xPrime := amount }

/-- `Body::setYPrime`. -/
def Body.setYPrime (b : Body) (amount : ℚ) : Body :=
  { b with yPrime := amount }

/-- `Entity::setWidth` on a body. -/
def Body.setWidth (b : Body) (amount : Int) : Body :=
  { b with width := amount }

/-- `Entity::setHeight` on a body. -/
def Body.setHeight (b : Body) (amount : Int) : Body :=
  { b with height := amount }

/-- A `Surface` (Surface.hpp): a body with per-side solidity flags `solid[1..4]`
(`solid[0]` is always false) and a contact damage. -/
structure Surface extends Body where
  rSolid : Bool
  tSolid : Bool
  lSolid : Bool
  bSolid : Bool
  damage : Int := 0
  deriving DecidableEq

/-- `Surface::isSolid(i)`: reads `solid[i]`, where the constructor stored
`false, rSolid, tSolid, lSolid, bSolid` at the indices 0 to 4. -/
def Surface.isSolid (s : Surface) (i : Int) : Bool :=
  if i = 1 then s.rSolid
  else if i = 2 then s.tSolid
  else if i = 3 then s.lSolid
  else if i = 4 then s.bSolid
  else false

/-- `Surface::getDamage`. -/
def Surface.getDamage (s : Surface) : Int := s.damage

/-! ## Collision geometry (gamefuncs.cpp) -/

/-- Conversion of a float to an `int`: truncation toward zero. -/
def truncToInt (q : ℚ) : Int :=
  if 0 ≤ q then ⌊q⌋ else -⌊-q⌋

/-- An `SDL_Rect`: integer position and extent. -/
structure Rect where
  x : Int
  y : Int
  w : Int
  h : Int
  deriving DecidableEq

/-- The local `h` of `collisionDetected`: 1 when the right edge of `a` lies strictly
inside `b`, overwritten by 3 when the left edge of `a` does, 0 when neither. -/
def hCandidate (a b : Rect) : Int :=
  let leftA := a.x
  let rightA := a.x + a.w
  let leftB := b.x
  let rightB := b.x + b.w
  let h : Int := 0
  let h := if leftB < rightA ∧ rightA < rightB then 1 else h
  let h := if leftB < leftA ∧ leftA < rightB then 3 else h
  h

/-- The local `v` of `collisionDetected`: 4 when the bottom edge of `a` lies strictly
inside `b`, overwritten by 2 when the top edge of `a` does, 0 when neither. -/
def vCandidate (a b : Rect) : Int :=
  let topA := a.y
  let bottomA := a.y + a.h
  let topB := b.y
  let bottomB := b.y + b.h
  let v : Int := 0
  let v := if topB < bottomA ∧ bottomA < bottomB then 4 else v
  let v := if topB < topA ∧ topA < bottomB then 2 else v
  v

/-- The local `hOverlap` of `collisionDetected` (a float assigned from an integer
absolute value); it is only read when `h` is 1 or 3. -/
def hOverlap (a b : Rect) : ℚ :=
  let leftA := a.x
  let rightA := a.x + a.w
  let leftB := b.x
  let rightB := b.x + b.w
  let hOverlap : ℚ := 0
  let hOverlap := if hCandidate a b = 1 then ((|rightA - leftB| : Int) : ℚ) else hOverlap
  let hOverlap := if hCandidate a b = 3 then ((|leftA - rightB| : Int) : ℚ) else hOverlap
  hOverlap

/-- The local `vOverlap` of `collisionDetected`; it is only read when `v` is 2 or 4. -/
def vOverlap (a b : Rect) : ℚ :=
  let topA := a.y
  let bottomA := a.y + a.h
  let topB := b.y
  let bottomB := b.y + b.h
  let vOverlap : ℚ := 0
  let vOverlap := if vCandidate a b = 2 then ((|topA - bottomB| : Int) : ℚ) else vOverlap
  let vOverlap := if vCandidate a b = 4 then ((|bottomA - topB| : Int) : ℚ) else vOverlap
  vOverlap

/-- `gamefuncs::collisionDetected(a, b)`: which side of `a` has collided with `b`
(0 none, 1 right, 2 top, 3 left, 4 bottom). -/
def collisionDetected (a b : Rect) : Int :=
  let v := vCandidate a b
  let h := hCandidate a b
  if v = 0 ∨ h = 0 then
    0
  else
    if vOverlap a b < hOverlap a b then v else h

/-- The margin `epsilon` of `gamefuncs::collided`. -/
def epsilon : ℚ := 35 / 2

/-- The rectangle `collided` builds for one entity, given its contraction factor. -/
def collisionRect (e : Entity) (contraction : ℚ) : Rect :=
  let r : Rect :=
    { x := truncToInt e.x
      y := truncToInt e.y
      w := truncToInt (e.width * e.size * contraction)
      h := truncToInt (e.height * e.size) }
  if e.hitboxAdjust then
    { r with y := truncToInt (r.y + epsilon), h := truncToInt (r.h - epsilon) }
  else
    r

/-- `gamefuncs::collided(e, f, eContraction, fContraction)`. -/
def collided (e f : Entity) (eContraction : ℚ := 1) (fContraction : ℚ := 1) : Int :=
  collisionDetected (collisionRect e eContraction) (collisionRect f fContraction)

/-- `SDL_HasIntersection` of the SDL2 library (not part of the repository): false
when either rectangle is empty, otherwise whether the two intervals intersect in a
non-empty interval on both axes. -/
def SDL_HasIntersection (a b : Rect) : Bool :=
  if a.w ≤ 0 ∨ a.h ≤ 0 ∨ b.w ≤ 0 ∨ b.h ≤ 0 then false
  else
    let aMinX := max a.x b.x
    let aMaxX := min (a.x + a.w) (b.x + b.w)
    let aMinY := max a.y b.y
    let aMaxY := min (a.y + a.h) (b.y + b.h)
    if aMaxX ≤ aMinX then false
    else if aMaxY ≤ aMinY then false
    else true

/-- The rectangle `sdlCollided` builds for one entity. -/
def fullRect (e : Entity) : Rect :=
  { x := truncToInt e.x
    y := truncToInt e.y
    w := truncToInt (e.width * e.size)
    h := truncToInt (e.height * e.size) }

/-- `gamefuncs::sdlCollided(e, f)`. -/
def sdlCollided (e f : Entity) : Bool :=
  SDL_HasIntersection (fullRect e) (fullRect f)

/-! ## The game state and the collision part of the game loop (main.cpp) -/

/-- The variables of `main` that the collision part of a tick reads and writes. -/
structure Game where
  thePlayer : Body
  HP : Int := 3
  grounded : Bool := false
  iFrame : Bool := false
  platformBorderL : ℚ := -1000
  platformBorderR : ℚ := 3000
  platformBorderY : ℚ := -1000
  landedIndex : Int := -1
  landedType : Char := 'n'
  playerLengthContraction : ℚ := 1
  timer : Int := 0
  targetTime0 : Int := 0
  playerDied : Bool := false
  deriving DecidableEq

/-- What the collision part of a tick only reads: the render queues of bodies and
surfaces with their parallel queues, and the relativity settings. -/
structure World where
  bodyRenderQueue : List Body := []
  bodyHasHitbox : List Bool := []
  surfaceRenderQueue : List Surface := []
  surfaceRenderSize : List ℚ := []
  relativityOn : Bool := false
  gamma : ℚ := 5 / 4

/-- The entries `playerWidth[3]` and `playerHeight[3]` of the sprite tables. -/
def playerWidth3 : Int := 161

/-- See `playerWidth3`. -/
def playerHeight3 : Int := 340

/-- The player's contraction argument of `collided`:
`relativityOn ? playerLengthContraction : 1.0`. -/
def playerContraction (w : World) (g : Game) : ℚ :=
  if w.relativityOn then g.playerLengthContraction else 1

/-- The obstacle's contraction argument of `collided`:
`relativityOn ? 1/(1+abs(0.01*gamma*xPrime)) : 1.0`. -/
def obstacleContraction (w : World) (xPrime : ℚ) : ℚ :=
  if w.relativityOn then 1 / (1 + |1 / 100 * w.gamma * xPrime|) else 1

/-- One iteration of the loop over `bodyRenderQueue` (main.cpp 1865-1911). -/
def bodyStep (w : World) (i : Nat) (theBody : Body) (g : Game) : Game :=
  if !(w.bodyHasHitbox.getD i false) then g
  else
    let side := collided g.thePlayer.toEntity theBody.toEntity
      (playerContraction w g) (obstacleContraction w theBody.xPrime)
    if side = 1 then
      let p := g.thePlayer.move (-1)
      let p := p.stopX
      let p := p.setX (p.x - 5)
      { g with thePlayer := p }
    else if side = 3 then
      let p := g.thePlayer.move (-1)
      let p := p.stopX
      let p := p.setX (p.x + 5)
      { g with thePlayer := p }
    else if side = 2 then
      let p := g.thePlayer.move (-1)
      let p := p.stopY
      let p := p.setY (p.y + 5)
      let p := p.jump 0
      { g with thePlayer := p }
    else if side = 4 then
      let p := g.thePlayer.move (-1)
      let p := p.stopY
      let p := p.setY (p.y - 2)
      let p := p.setWidth playerWidth3
      let p := p.setHeight playerHeight3
      let moving : Bool := theBody.xPrime ≠ 0 ∨ theBody.yPrime ≠ 0
      { g with
        thePlayer := p
        grounded := true
        platformBorderL := theBody.x
        platformBorderR := theBody.x + theBody.width * theBody.size
        platformBorderY := theBody.y
        landedIndex := if moving then (i : Int) else -1
        landedType := if moving then 'b' else 'n' }
    else g

/-- The damage part of one iteration of the loop over `surfaceRenderQueue`
(main.cpp 1915-1924). -/
def surfaceDamage (theSurface : Surface) (g : Game) : Game :=
  if theSurface.getDamage > 0 ∧ sdlCollided g.thePlayer.toEntity theSurface.toEntity = true
      ∧ ¬ g.iFrame = true then
    { g with
      HP := g.HP - theSurface.getDamage
      iFrame := true
      targetTime0 := g.timer + 2500 }
  else g

/-- The directional part of one iteration of the loop over `surfaceRenderQueue`
(main.cpp 1926-1977): the switch on `collided(thePlayer, theSurface, ...)`. -/
def surfaceResolve (w : World) (i : Nat) (theSurface : Surface) (g : Game) : Game :=
  let side := collided g.thePlayer.toEntity theSurface.toEntity
    (playerContraction w g) (obstacleContraction w theSurface.xPrime)
  if side = 1 then
    if theSurface.isSolid 1 then
      let p := g.thePlayer.move (-1)
      let p := p.stopX
      let p := p.setX (p.x - 5)
      { g with thePlayer := p }
    else g
  else if side = 3 then
    if theSurface.isSolid 3 then
      let p := g.thePlayer.move (-1)
      let p := p.stopX
      let p := p.setX (p.x + 5)
      { g with thePlayer := p }
    else g
  else if side = 2 then
    if theSurface.isSolid 2 then
      let p := g.thePlayer.move (-1)
      let p := p.stopY
      let p := p.setY (p.y + 5)
      let p := p.jump 0
      { g with thePlayer := p }
    else g
  else if side = 4 then
    if theSurface.isSolid 4 then
      let p := g.thePlayer.move (-1)
      let p := p.stopY
      let p := p.setY (p.y - 2)
      let moving : Bool := theSurface.xPrime ≠ 0 ∨ theSurface.yPrime ≠ 0
      { g with
        thePlayer := p
        grounded := true
        platformBorderL := theSurface.x
        platformBorderR := theSurface.x + theSurface.width * w.surfaceRenderSize.getD i 1
        platformBorderY := theSurface.y
        landedIndex := if moving then (i : Int) else -1
        landedType := if moving then 's' else 'n' }
    else g
  else g

/-- One iteration of the loop over `surfaceRenderQueue` (main.cpp 1913-1981). -/
def surfaceStep (w : World) (i : Nat) (theSurface : Surface) (g : Game) : Game :=
  surfaceResolve w i theSurface (surfaceDamage theSurface g)

/-- The loop over the bodies from index `i` on. -/
def bodyLoopFrom (w : World) : Nat → List Body → Game → Game
  | _, [], g => g
  | i, theBody :: rest, g => bodyLoopFrom w (i + 1) rest (bodyStep w i theBody g)

/-- The loop over `bodyRenderQueue` (main.cpp 1865-1911). -/
def bodyLoop (w : World) (g : Game) : Game :=
  bodyLoopFrom w 0 w.bodyRenderQueue g

/-- The loop over the surfaces from index `i` on. -/
def surfaceLoopFrom (w : World) : Nat → List Surface → Game → Game
  | _, [], g => g
  | i, theSurface :: rest, g => surfaceLoopFrom w (i + 1) rest (surfaceStep w i theSurface g)

/-- The loop over `surfaceRenderQueue` (main.cpp 1913-1981). -/
def surfaceLoop (w : World) (g : Game) : Game :=
  surfaceLoopFrom w 0 w.surfaceRenderQueue g

/-- The assignments of `case 'b'` in the border refresh. -/
def bordersFromBody (w : World) (g : Game) : Game :=
  match w.bodyRenderQueue.get? g.landedIndex.toNat with
  | some b =>
    { g with
      platformBorderL := b.x
      platformBorderR := b.x + b.width * b.size
      platformBorderY := b.y }
  | none => g

/-- The assignments of `case 's'` in the border refresh. -/
def bordersFromSurface (w : World) (g : Game) : Game :=
  match w.surfaceRenderQueue.get? g.landedIndex.toNat with
  | some s =>
    { g with
      platformBorderL := s.x
      platformBorderR := s.x + s.width * s.size
      platformBorderY := s.y }
  | none => g

/-- The border refresh (main.cpp 1983-1995): a switch on `landedType` whose
`case 'b'` has no `break` and so runs on into `case 's'`. A read past the end of a
queue is undefined in the source; here it leaves the borders as they are. -/
def refreshBorders (w : World) (g : Game) : Game :=
  if g.landedIndex ≥ 0 then
    if g.landedType = 'b' then bordersFromSurface w (bordersFromBody w g)
    else if g.landedType = 's' then bordersFromSurface w g
    else g
  else g

/-- The horizontal grounded invalidation (main.cpp 1997-2002). -/
def invalidateHorizontal (g : Game) : Game :=
  if g.grounded = true ∧
      (g.thePlayer.x < g.platformBorderL ∨ g.thePlayer.x > g.platformBorderR) then
    { g with
      grounded := false
      thePlayer := g.thePlayer.jump 0
      landedIndex := -1
      landedType := 'n' }
  else g

/-- The vertical grounded invalidation (main.cpp 2004-2009). -/
def invalidateVertical (g : Game) : Game :=
  if g.grounded = true ∧
      g.thePlayer.y + g.thePlayer.height * g.thePlayer.size + 8 < g.platformBorderY then
    { g with
      grounded := false
      thePlayer := g.thePlayer.jump 0
      landedIndex := -1
      landedType := 'n' }
  else g

/-- Both grounded invalidations, in the order of the source (main.cpp 1997-2009). -/
def invalidateGrounded (g : Game) : Game :=
  invalidateVertical (invalidateHorizontal g)

/-- The void damage and the death test (main.cpp 2013-2016). -/
def playerDeath (g : Game) : Game :=
  let g := if g.thePlayer.y > 1000 then { g with HP := g.HP - 1 } else g
  if g.HP = 0 then { g with playerDied := true } else g

/-- The first timer test (main.cpp 2048-2057): the end of the invulnerability. -/
def timerHandling (g : Game) : Game :=
  if g.timer = g.targetTime0 then
    let p := g.thePlayer.setWidth playerWidth3
    let p := p.setHeight playerHeight3
    { g with thePlayer := p, iFrame := false }
  else g

/-- The velocity matching to the platform the player has landed on
(main.cpp 1325-1336); it reads `surfaceRenderQueue[landedIndex]` whatever
`landedType` is. A read past the end of the queue is undefined in the source; here
it leaves the state as it is. -/
def matchLandedVelocity (w : World) (leftPressed rightPressed : Bool) (g : Game) : Game :=
  if g.landedIndex ≥ 0 ∧
      ((leftPressed = true ∧ rightPressed = true) ∨ (¬ leftPressed = true ∧ ¬ rightPressed = true)) then
    match w.surfaceRenderQueue.get? g.landedIndex.toNat with
    | some s =>
      let p := g.thePlayer.setXPrime s.xPrime
      let p := if s.yPrime > 0 then p.setYPrime s.yPrime else p
      if p.xPrime = s.xPrime then
        let p := p.setWidth playerWidth3
        let p := p.setHeight playerHeight3
        { g with thePlayer := p, playerLengthContraction := 1 }
      else { g with thePlayer := p }
    | none => g
  else g

/-- The sprite table `playerWidth` (main.cpp 244). -/
def playerWidth : List Int := [198, 115, 109, 161, 223, 175, 107, 109, 199, 255]

/-- The sprite table `playerHeight` (main.cpp 245). -/
def playerHeight : List Int := [336, 343, 352, 340, 346, 336, 343, 352, 340, 346]

/-- The variable `maxSpeed` of `main`. -/
def maxSpeed : Int := 30

/-- `Body::addVelVector(direction, magnitude)` for a direction whose cosine and sine
are the rationals `cosDirection` and `sinDirection`: (1, 0) for `EAST` and, with `PI`
read as the real number pi, (-1, 0) for `WEST`. -/
def Body.addVelVector (b : Body) (cosDirection sinDirection magnitude : ℚ) : Body :=
  { b with
    xPrime := b.xPrime + magnitude * cosDirection
    yPrime := b.yPrime + magnitude * sinDirection }

/-- The block of one held direction key (main.cpp 1338-1352 for the left key alone,
`toEast = false`, and 1353-1367 for the right key alone): below the speed limit the
player gains a velocity of 1 in that direction (and contracts when relativity is
on); the sprite, and with it the width and the height, goes on to the frame of the
animation counter `c`, which is incremented first. -/
def walk (w : World) (toEast : Bool) (c : Nat) (g : Game) : Game :=
  let belowLimit : Bool :=
    if toEast then g.thePlayer.xPrime ≤ (maxSpeed : ℚ)
    else g.thePlayer.xPrime ≥ -1 * (maxSpeed : ℚ)
  let g :=
    if belowLimit then
      { g with
        thePlayer := g.thePlayer.addVelVector (if toEast then 1 else -1) 0 1
        playerLengthContraction :=
          if w.relativityOn then g.playerLengthContraction - 1 / 100 * w.gamma
          else g.playerLengthContraction }
    else g
  let j := ((c + 1) % 1000) / 100
  let p := g.thePlayer.setWidth (playerWidth.getD j 0)
  let p := p.setHeight (playerHeight.getD j 0)
  { g with thePlayer := p }

/-- The friction under neutral horizontal input (main.cpp 1368-1380): a non-zero vx
is scaled by 0.99 and, when that is below 1 in absolute value outside the
invulnerability window, set to 0. -/
def friction (w : World) (leftPressed rightPressed : Bool) (g : Game) : Game :=
  if ((leftPressed = true ∧ rightPressed = true) ∨ (¬ leftPressed = true ∧ ¬ rightPressed = true))
      ∧ g.thePlayer.xPrime ≠ 0 then
    let p := g.thePlayer.setXPrime (g.thePlayer.xPrime * (99 / 100))
    let contraction :=
      if w.relativityOn = true ∨ g.playerLengthContraction < 1 then
        g.playerLengthContraction * (105 / 100)
      else g.playerLengthContraction
    if |p.xPrime| < 1 ∧ ¬ g.iFrame = true then
      let p := p.stopX
      let p := p.setWidth playerWidth3
      let p := p.setHeight playerHeight3
      { g with thePlayer := p, playerLengthContraction := 1 }
    else { g with thePlayer := p, playerLengthContraction := contraction }
  else g

/-- The bounds on `playerLengthContraction` (main.cpp 1383-1386). -/
def clampContraction (g : Game) : Game :=
  let g := if g.playerLengthContraction > 1 then { g with playerLengthContraction := 1 } else g
  if g.playerLengthContraction < 1 / 2 then { g with playerLengthContraction := 1 / 2 } else g

/-- The block "Player movement and animation" (main.cpp 1319-1386) for the held keys
`leftPressed` and `rightPressed` and the animation counter `c`: the velocity
matching, the two blocks of a held direction key, the friction and the bounds on the
contraction, in that order. -/
def playerMovement (w : World) (leftPressed rightPressed : Bool) (c : Nat) (g : Game) : Game :=
  let g := matchLandedVelocity w leftPressed rightPressed g
  let g := if leftPressed = true ∧ ¬ rightPressed = true then walk w false c g else g
  let g := if ¬ leftPressed = true ∧ rightPressed = true then walk w true c g else g
  let g := friction w leftPressed rightPressed g
  clampContraction g

/-! ## Consecutive gameplay ticks -/

/-- What one tick brings besides the collision part: the queues and relativity
settings the collision part reads (`world`), and `pre`, standing for the rest of the
tick (input handling, animation, rendering and integration, main.cpp 1178-1862 and
2058-3089), which the model leaves open. -/
structure Frame where
  world : World := {}
  pre : Game → Game := id

/-- The state at the start of the collision part of a tick: the rest of the tick
may have changed anything but the health, the invulnerability flag, the timer, its
target and the death flag, which it does not write during uninterrupted play (no
level change and no health pickup). -/
def beginTick (f : Frame) (g : Game) : Game :=
  { f.pre g with
    HP := g.HP
    iFrame := g.iFrame
    timer := g.timer
    targetTime0 := g.targetTime0
    playerDied := g.playerDied }

/-- The state just before the block "Player death": the two loops, the border
refresh and the grounded invalidation have run (main.cpp 1865-2009). -/
def beforeDeath (f : Frame) (g : Game) : Game :=
  invalidateGrounded (refreshBorders f.world
    (surfaceLoop f.world (bodyLoop f.world (beginTick f g))))

/-- The collision part of a tick (main.cpp 1865-2057). When `HP == 0` the source
sets `playerDied` and jumps away, so the timer test is not reached. -/
def collisionPhase (f : Frame) (g : Game) : Game :=
  let g := playerDeath (beforeDeath f g)
  if g.HP = 0 then g else timerHandling g

/-- One gameplay tick: the collision part, then `timer++` (main.cpp 3090). After a
death the source runs the game-over sequence and regenerates the level, which is not
modelled: the state is returned as the death test left it. -/
def gameTick (f : Frame) (g : Game) : Game :=
  let g := collisionPhase f g
  if g.playerDied = true then g else { g with timer := g.timer + 1 }

/-- The state after `n` consecutive gameplay ticks, tick `k` running in frame
`frames k`; play stops at the tick in which the player dies. -/
def playTicks (frames : Nat → Frame) : Nat → Game → Game
  | 0, g => g
  | n + 1, g =>
    let g := playTicks frames n g
    if g.playerDied = true then g else gameTick (frames n) g

/-- What a gameplay tick in which no key event is handled takes from outside: the
held keys, the animation counter, the queues as the movement block finds them
(`before`) and as the collision part finds them after the obstacles have been
animated and integrated (`world`). -/
structure TickInput where
  leftPressed : Bool := false
  rightPressed : Bool := false
  c : Nat := 3
  before : World := {}
  world : World := {}

/-- The tick of a `TickInput`: before the collision part the player goes through
the movement block (main.cpp 1319-1386) and `thePlayer.move()` (main.cpp 1844);
nothing else in between writes the player or the landing variables. -/
def inputFrame (inp : TickInput) : Frame :=
  { world := inp.world
    pre := fun g =>
      let g := playerMovement inp.before inp.leftPressed inp.rightPressed inp.c g
      { g with thePlayer := g.thePlayer.move 0 } }

/-- The state after `n` consecutive ticks with the inputs `inputs`. -/
def runTicks (inputs : Nat → TickInput) (n : Nat) (g : Game) : Game :=
  playTicks (fun k => inputFrame (inputs k)) n g

/-- The state of a tick after the border refresh and before the grounded
invalidation (main.cpp 1865-1995). -/
def atRefresh (f : Frame) (g : Game) : Game :=
  refreshBorders f.world (surfaceLoop f.world (bodyLoop f.world (beginTick f g)))

/-- No obstacle of the queues reports a collision with the player: `collided` is 0
for every body with a hitbox and for every surface. -/
def NoCollision (w : World) (g : Game) : Prop :=
  (∀ (j : Nat) (b : Body), w.bodyRenderQueue.get? j = some b →
    w.bodyHasHitbox.getD j false = true →
    collided g.thePlayer.toEntity b.toEntity
      (playerContraction w g) (obstacleContraction w b.xPrime) = 0) ∧
  (∀ (j : Nat) (s : Surface), w.surfaceRenderQueue.get? j = some s →
    collided g.thePlayer.toEntity s.toEntity
      (playerContraction w g) (obstacleContraction w s.xPrime) = 0)

/-- The player is within the recorded platform borders, so that neither test of the
grounded invalidation holds: its x is between `platformBorderL` and
`platformBorderR`, and its bottom edge is not more than 8 px above
`platformBorderY`. -/
def WithinBorders (g : Game) : Prop :=
  g.platformBorderL ≤ g.thePlayer.x ∧ g.thePlayer.x ≤ g.platformBorderR ∧
  g.platformBorderY ≤ g.thePlayer.y + g.thePlayer.height * g.thePlayer.size + 8

instance (g : Game) : Decidable (WithinBorders g) := by
  unfold WithinBorders
  infer_instance

/-- The state of the surface loop of a tick when it has gone through the surfaces
`l1` at the front of the queue and reaches the next one. -/
def reachSurface (f : Frame) (l1 : List Surface) (g : Game) : Game :=
  surfaceLoopFrom f.world 0 l1 (bodyLoop f.world (beginTick f g))

/-- The health, the invulnerability flag, the timer, its target and the death flag
of `g2` are those of `g1`. -/
def SameDamageState (g1 g2 : Game) : Prop :=
  g2.HP = g1.HP ∧ g2.iFrame = g1.iFrame ∧ g2.timer = g1.timer ∧
  g2.targetTime0 = g1.targetTime0 ∧ g2.playerDied = g1.playerDied

instance (g1 g2 : Game) : Decidable (SameDamageState g1 g2) := by
  unfold SameDamageState
  infer_instance

/-- The player, the contraction, the landing variables and the borders of `g2` are
those of `g1`. -/
def SameMotion (g1 g2 : Game) : Prop :=
  g2.thePlayer = g1.thePlayer ∧ g2.playerLengthContraction = g1.playerLengthContraction ∧
  g2.grounded = g1.grounded ∧ g2.landedIndex = g1.landedIndex ∧
  g2.landedType = g1.landedType ∧ g2.platformBorderL = g1.platformBorderL ∧
  g2.platformBorderR = g1.platformBorderR ∧ g2.platformBorderY = g1.platformBorderY

/-! ## Constructors and further members (entity.cpp, body.cpp, surface.cpp) -/

/-- `Entity::Entity(xCoord, yCoord, width, height, tex)`. The constructor writes
`size = 1` and `vanished = false` but never `hitboxAdjust`, and the class gives that
member no default initialiser: it keeps whatever its storage held, which is the
argument `uninit` here. -/
def Entity.new (xCoord yCoord : ℚ) (width height : Int) (uninit : Bool) : Entity :=
  { x := xCoord
    y := yCoord
    width := width
    height := height
    size := 1
    vanished := false
    hitboxAdjust := uninit }

/-- `Entity::isPlatform`. -/
def Entity.isPlatform (e : Entity) : Bool := e.hitboxAdjust

/-- `Entity::makePlatform`. -/
def Entity.makePlatform (e : Entity) : Entity :=
  { e with hitboxAdjust := true }

/-- `Body::Body(e, x_vel, y_vel, grav, b, s)`: the entity part is constructed afresh
from the position and extent of `e`, so its `hitboxAdjust` is again whatever the
storage held (`uninit`), not the flag of `e`. -/
def Body.new (e : Entity) (x_vel y_vel : ℚ) (grav b : Bool) (s : ℚ) (uninit : Bool) : Body :=
  { toEntity := { Entity.new e.x e.y e.width e.height uninit with size := s }
    xPrime := x_vel
    yPrime := y_vel
    affectedByGravity := grav
    bouncy := b
    xPrimePrime := 0
    yPrimePrime := if grav then Body.g else 0 }

/-- `Surface::Surface(e, rSolid, tSolid, lSolid, bSolid, dmg, s, h)`: a body at rest
without gravity, with the four flags and the damage; the parameter `h` is not used. -/
def Surface.new (e : Entity) (rSolid tSolid lSolid bSolid : Bool) (dmg : Int) (s : ℚ)
    (h : Bool) (uninit : Bool) : Surface :=
  { toBody := Body.new e 0 0 false false s uninit
    rSolid := rSolid
    tSolid := tSolid
    lSolid := lSolid
    bSolid := bSolid
    damage := dmg }

/-- `Body::ifOnEdgeBounce(yVelDecay)`. -/
def Body.ifOnEdgeBounce (b : Body) (yVelDecay : Bool := false) : Body :=
  let epsilon : ℚ := b.width * b.size
  let eta : ℚ := b.height * b.size
  let b :=
    if (b.x < 0 ∧ b.xPrime < 0) ∨ (b.x > 1400 - epsilon ∧ b.xPrime > 0) then
      { b with xPrime := b.xPrime * -1 }
    else b
  if (b.y < 0 ∧ b.yPrime < 0) ∨ (b.y > 750 - eta ∧ b.yPrime > 0) then
    let yPrime := b.yPrime * -1
    let yPrime := if yVelDecay then yPrime * (9 / 10) else yPrime
    { b with yPrime := yPrime }
  else b

/-- The position, velocity and acceleration of a `Body` as real numbers, for the
members that call `cos` and `sin`. -/
structure RealBody where
  x : ℝ
  y : ℝ
  xPrime : ℝ
  yPrime : ℝ
  xPrimePrime : ℝ
  yPrimePrime : ℝ

/-- `Body::addVelVector(direction, magnitude)`, over the reals. -/
noncomputable def RealBody.addVelVector (b : RealBody) (direction magnitude : ℝ) : RealBody :=
  { b with
    xPrime := b.xPrime + magnitude * Real.cos direction
    yPrime := b.yPrime + magnitude * Real.sin direction }

/-- `Body::addAccelVector(direction, magnitude)`, over the reals. -/
noncomputable def RealBody.addAccelVector (b : RealBody) (direction magnitude : ℝ) : RealBody :=
  { b with
    xPrimePrime := b.xPrimePrime + magnitude * Real.cos direction
    yPrimePrime := b.yPrimePrime + magnitude * Real.sin direction }

/-- The direction constants of main.cpp 172, with `PI` read as the real number pi. -/
noncomputable def EAST : ℝ := 0

/-- See `EAST`. -/
noncomputable def NORTH : ℝ := Real.pi / 2

/-- See `EAST`. -/
noncomputable def WEST : ℝ := Real.pi

/-- See `EAST`. -/
noncomputable def SOUTH : ℝ := 3 * Real.pi / 2

/-! ## Relativity and the pace of the ticks (main.cpp) -/

/-- The constant `SPEED_OF_LIGHT`, in m/s. -/
def SPEED_OF_LIGHT : ℝ := 299792458

/-- A `FrameOfReference`: whether the player is observed from it, and its velocity
with respect to Earth. -/
structure FrameOfReference where
  playerInFrame : Bool
  velocity : ℝ

/-- `lorentzFactor(s, sPrime)`, over the reals (see `lorentzFactorF32` for the
rounding of `float`). -/
noncomputable def lorentzFactor (s sPrime : FrameOfReference) : ℝ :=
  let v := sPrime.velocity - s.velocity
  let c := SPEED_OF_LIGHT
  1 / Real.sqrt (1 - (v * v) / (c * c))

/-- Rounding of a rational to the nearest integer, a tie going to the even one. -/
def roundHalfEven (q : ℚ) : Int :=
  let f := ⌊q⌋
  let r := q - f
  if r < 1 / 2 then f else if 1 / 2 < r then f + 1 else if f % 2 = 0 then f else f + 1

/-- Rounding to `float` (IEEE 754 binary32, round to nearest, ties to even): the
nearest multiple of 2^(e-23), where 2^e ≤ |q| < 2^(e+1). The bounds of the exponent
range (overflow, subnormal numbers) are not modelled. -/
def roundF32 (q : ℚ) : ℚ :=
  if q = 0 then 0
  else
    let ulp : ℚ := (2 : ℚ) ^ (Int.log 2 |q| - 23)
    roundHalfEven (q / ulp) * ulp

/-- The argument `1 - (v*v)/(c*c)` of `sqrt` in `lorentzFactor` as `float` arithmetic
computes it from two `float` velocities: `v`, `c`, both products, the quotient and
the difference are each rounded to `float`. -/
def radicandF32 (sVelocity sPrimeVelocity : ℚ) : ℚ :=
  let v := roundF32 (sPrimeVelocity - sVelocity)
  let c := roundF32 299792458
  roundF32 (1 - roundF32 (roundF32 (v * v) / roundF32 (c * c)))

/-- `lorentzFactor(s, sPrime)` in `float` arithmetic, for frames with the `float`
velocities `sVelocity` and `sPrimeVelocity`. The library function `sqrt` is the
argument `sqrtF`. -/
def lorentzFactorF32 (sqrtF : ℚ → ℚ) (sVelocity sPrimeVelocity : ℚ) : ℚ :=
  roundF32 (1 / sqrtF (radicandF32 sVelocity sPrimeVelocity))

/-- The frame `train` as `main` first sets it up (main.cpp 715). -/
noncomputable def train : FrameOfReference :=
  { playerInFrame := true, velocity := 7 / 10 * SPEED_OF_LIGHT }

/-- The frame `camera` as `main` first sets it up (main.cpp 716). -/
noncomputable def camera : FrameOfReference :=
  { playerInFrame := false, velocity := 1 / 10 * SPEED_OF_LIGHT }

/-- `Entity::changeY`. -/
def Entity.changeY (e : Entity) (amount : ℚ) : Entity :=
  { e with y := e.y + amount }

/-- `Entity::vanish`. -/
def Entity.vanish (e : Entity) : Entity :=
  if !e.vanished then
    { e.changeY 9999 with vanished := true }
  else e

/-- `Entity::unvanish`. -/
def Entity.unvanish (e : Entity) : Entity :=
  if e.vanished then
    { e.changeY (-9999) with vanished := false }
  else e

/-- `Entity::toggleVanished`. -/
def Entity.toggleVanished (e : Entity) : Entity :=
  if e.vanished then
    { e.changeY (-9999) with vanished := false }
  else
    { e.changeY 9999 with vanished := true }

/-- `Entity::isVanished`. -/
def Entity.isVanished (e : Entity) : Bool := e.vanished

/-- `gamefuncs::displayEntity` with three queues (the overloads for surfaces, with
an animation code, and for bodies, with a hitbox flag): a `push_back` on each. -/
def displayEntity {α β : Type} (queue : List α) (sizeQueue : List ℚ) (animQueue : List β)
    (s : α) (size : ℚ) (animCode : β) : List α × List ℚ × List β :=
  (queue ++ [s], sizeQueue ++ [size], animQueue ++ [animCode])

/-- The index at which the loop of `removeEntity` stops: the first `i` with
`queue->at(i) == sprite`, if there is one. The test `isSprite` stands for the
comparison with `sprite` (`Entity::operator==`, which compares textures). -/
def firstMatch {α : Type} (isSprite : α → Bool) : List α → Option Nat
  | [] => none
  | a :: rest => if isSprite a then some 0 else (firstMatch isSprite rest).map (· + 1)

/-- `gamefuncs::removeEntity` with three queues: at the first index whose entity
equals `sprite`, an `erase` on each queue, then `break`. -/
def removeEntity {α β : Type} (queue : List α) (sizeQueue : List ℚ) (animQueue : List β)
    (isSprite : α → Bool) : List α × List ℚ × List β :=
  match firstMatch isSprite queue with
  | some i => (queue.eraseIdx i, sizeQueue.eraseIdx i, animQueue.eraseIdx i)
  | none => (queue, sizeQueue, animQueue)

/-- `gamefuncs::clearEntities` with three queues: a `clear` on each. -/
def clearEntities {α β : Type} (_queue : List α) (_sizeQueue : List ℚ) (_animQueue : List β) :
    List α × List ℚ × List β :=
  ([], [], [])

/-! ## Example inputs -/

/-- A 20 by 20 rectangle whose right edge is 10 px and whose bottom edge is 4 px
inside `tieTarget`. -/
def tieMover : Rect := { x := 0, y := 0, w := 20, h := 20 }

/-- See `tieMover`. -/
def tieTarget : Rect := { x := 10, y := 16, w := 100, h := 100 }

/-- The player of the examples: a 50 by 50 sprite at scale 0.4 (a 20 by 20 px
rectangle at the origin), moving right at 10 px per tick. -/
def examplePlayer : Body :=
  { x := 0, y := 0, width := 50, height := 50, size := 4 / 10, xPrime := 10 }

/-- A game state around `examplePlayer`. -/
def exampleGame : Game := { thePlayer := examplePlayer }

/-- A pickup-like surface, no side solid, that the example player's bottom edge
has entered by 4 px (and its right edge by 10 px). -/
def examplePickup : Surface :=
  { x := 10, y := 16, width := 100, height := 100,
    rSolid := false, tSolid := false, lSolid := false, bSolid := false }

/-- A fully solid wall whose left part the example player's right edge has entered
by 4 px (and whose top part its bottom edge has entered by 10 px). -/
def exampleWallRight : Surface :=
  { x := 16, y := 10, width := 100, height := 100,
    rSolid := true, tSolid := true, lSolid := true, bSolid := true }

/-- A fully solid wall whose right part the left edge of the shifted example player
(at x = 100) has entered by 4 px. -/
def exampleWallLeft : Surface :=
  { x := 0, y := 10, width := 104, height := 100,
    rSolid := true, tSolid := true, lSolid := true, bSolid := true }

/-- The example game with the player shifted to x = 100. -/
def exampleGameShifted : Game := { thePlayer := examplePlayer.setX 100 }

/-- A fully solid platform moving right at 5 px per tick, whose top part the example
player's bottom edge has entered by 4 px. -/
def examplePlatform : Surface :=
  { x := 10, y := 16, width := 100, height := 100, xPrime := 5,
    rSolid := true, tSolid := true, lSolid := true, bSolid := true }

/-- A world whose body queue holds the body of `examplePlatform`, with a hitbox. -/
def exampleBodyWorld : World :=
  { bodyRenderQueue := [examplePlatform.toBody], bodyHasHitbox := [true] }

/-- A fully solid ceiling whose bottom part the example player's top edge has
entered by 4 px. -/
def exampleCeiling : Surface :=
  { x := 10, y := -96, width := 100, height := 100,
    rSolid := true, tSolid := true, lSolid := true, bSolid := true }

/-- A grounded player whose bottom edge (y + height*size = 150) is 50 px below the
recorded platform top edge (100), with x inside the recorded borders. -/
def sunkGame : Game :=
  { thePlayer := { x := 0, y := 100, width := 50, height := 50 }
    grounded := true
    platformBorderL := -1000
    platformBorderR := 3000
    platformBorderY := 100 }

/-- A grounded player whose bottom edge (150) is 50 px above the recorded platform
top edge (200), with x inside the recorded borders. -/
def liftedGame : Game :=
  { thePlayer := { x := 0, y := 100, width := 50, height := 50 }
    grounded := true
    platformBorderL := -1000
    platformBorderR := 3000
    platformBorderY := 200
    landedIndex := 0
    landedType := 's' }

/-- The platform of the carry example when `k` ticks have passed: `examplePlatform`
(vx = 5, vy = 0) moved on by 0.05 px per tick. -/
def ridePlatform (k : Nat) : Surface :=
  { examplePlatform with x := 10 + (k : ℚ) / 20 }

/-- The queues of the carry example when `k` ticks have passed: `ridePlatform k` at
index 0 of the surface queue. -/
def rideWorld (k : Nat) : World :=
  { surfaceRenderQueue := [ridePlatform k], surfaceRenderSize := [1] }

/-- The player of the game (161 by 340 at size 0.4) at rest on `examplePlatform`
after a landing: its bottom edge 2 px above the top edge of the platform, its x
inside the recorded borders, landedIndex = 0. -/
def rideGame : Game :=
  { thePlayer := { x := 50, y := -122, width := 161, height := 340, size := 4 / 10 }
    grounded := true
    platformBorderL := 10
    platformBorderR := 110
    platformBorderY := 16
    landedIndex := 0
    landedType := 's'
    targetTime0 := -1 }

/-- The state of the carry example after its first tick: the player has been
integrated with vx = 4.95, the borders are those of the platform moved on. -/
def rideGameOne : Game :=
  { thePlayer :=
      { x := 50 + 99 / 2000, y := -122, width := 161, height := 340, size := 4 / 10,
        xPrime := 99 / 20 }
    grounded := true
    platformBorderL := 10 + 1 / 20
    platformBorderR := 110 + 1 / 20
    platformBorderY := 16
    landedIndex := 0
    landedType := 's'
    targetTime0 := -1
    timer := 1 }

/-- The inputs of the carry example: no key is held, and the platform moves on. -/
def rideInputs : Nat → TickInput :=
  fun k => { before := rideWorld k, world := rideWorld (k + 1) }

/-- The inputs of the carry example with the left key held in the first tick. -/
def rideInputsLeft : Nat → TickInput :=
  fun k => { leftPressed := decide (k = 0), before := rideWorld k, world := rideWorld (k + 1) }

/-- A harmful, non-solid surface (damage 1) overlapping the example player. -/
def spikeA : Surface :=
  { x := 10, y := 16, width := 100, height := 100, damage := 1,
    rSolid := false, tSolid := false, lSolid := false, bSolid := false }

/-- A second harmful, non-solid surface (damage 2) overlapping the example player. -/
def spikeB : Surface :=
  { x := 5, y := 5, width := 100, height := 100, damage := 2,
    rSolid := false, tSolid := false, lSolid := false, bSolid := false }

/-- Every tick of the example has both spikes in the queue and a player that the
rest of the tick leaves where it is. -/
def spikeFrames : Nat → Frame :=
  fun _ => { world := { surfaceRenderQueue := [spikeA, spikeB], surfaceRenderSize := [1, 1] } }

/-- A player with HP = 2 far below the world, at rest, in a level with no bodies and
no surfaces; the timer target is -1, as the level generation leaves it. -/
def fallenGame : Game :=
  { thePlayer := { x := 0, y := 2000, width := 50, height := 50 }, HP := 2,
    targetTime0 := -1 }

/-- A tall rectangle whose right edge is inside `spanTarget` and whose vertical
extent (0 to 100) spans that of `spanTarget` (10 to 30). -/
def spanMover : Rect := { x := 0, y := 0, w := 20, h := 100 }

/-- See `spanMover`. -/
def spanTarget : Rect := { x := 10, y := 10, w := 100, h := 20 }

/-- A body left of the world (x = -5) that already moves back in (vx = 3). -/
def inwardBody : Body :=
  { x := -5, y := 100, width := 50, height := 50, xPrime := 3 }

/-- A body left of and above the world that moves further out. -/
def outwardBody : Body :=
  { x := -5, y := -5, width := 50, height := 50, xPrime := -3, yPrime := -10 }

/-- A body at rest at the origin, over the reals. -/
def restBody : RealBody :=
  { x := 0, y := 0, xPrime := 0, yPrime := 0, xPrimePrime := 0, yPrimePrime := 0 }

/-- A platform-adjusted 100 by 100 entity at the origin. -/
def platformEntity : Entity :=
  { x := 0, y := 0, width := 100, height := 100, hitboxAdjust := true }

/-- A surface built with only `rSolid` set, placed like `exampleWallLeft`: the left
edge of the shifted example player has entered its right part by 4 px. -/
def rightFlagWallAtLeft : Surface :=
  { x := 0, y := 10, width := 104, height := 100,
    rSolid := true, tSolid := false, lSolid := false, bSolid := false }

/-- A surface built with only `rSolid` set, placed like `exampleWallRight`: the right
edge of the example player has entered its left part by 4 px. -/
def rightFlagWallAtRight : Surface :=
  { x := 16, y := 10, width := 100, height := 100,
    rSolid := true, tSolid := false, lSolid := false, bSolid := false }

/-- A surface built with only `bSolid` set, placed like `exampleCeiling`: the top
edge of the example player has entered its underside by 4 px. -/
def bottomFlagCeiling : Surface :=
  { x := 10, y := -96, width := 100, height := 100,
    rSolid := false, tSolid := false, lSolid := false, bSolid := true }

/-- A surface built with only `bSolid` set, placed like `examplePickup`: the bottom
edge of the example player has entered its top by 4 px. -/
def bottomFlagFloor : Surface :=
  { x := 10, y := 16, width := 100, height := 100,
    rSolid := false, tSolid := false, lSolid := false, bSolid := true }

/-- The player of the landing scenario: 20 wide and 50 high, released from rest at
y = 400 with the gravity of `jump(0)`, above the middle of `floorSurface`. -/
def dropPlayer : Body :=
  { x := 40, y := 400, width := 20, height := 50, yPrimePrime := Body.g }

/-- The surface of the landing scenario: stationary, fully solid, 100 by 20, with its
top at y = 580. -/
def floorSurface : Surface :=
  { x := 0, y := 580, width := 100, height := 20,
    rSolid := true, tSolid := true, lSolid := true, bSolid := true }

/-- The world of the landing scenario: `floorSurface` alone. -/
def landingWorld : World :=
  { surfaceRenderQueue := [floorSurface], surfaceRenderSize := [1] }

/-- A tick of the landing scenario: no key is held, so all that happens before the
collision part is `thePlayer.move()`. -/
def dropFrame : Frame :=
  { world := landingWorld, pre := fun g => { g with thePlayer := g.thePlayer.move 0 } }

/-- The start of the landing scenario, the timer target at -1. -/
def dropGame : Game :=
  { thePlayer := dropPlayer, targetTime0 := -1 }

/-- The height of the falling player after `n` ticks of free fall:
400 + g dt^2 n (n + 1) / 2. -/
def fallY (n : Nat) : ℚ :=
  400 + 980665 / 1000000000 * ((n : ℚ) * ((n : ℚ) + 1) / 2)

/-- The state of the landing scenario after `n` ticks of free fall. -/
def fallingGame (n : Nat) : Game :=
  { thePlayer := { dropPlayer with y := fallY n, yPrime := 980665 / 10000000 * (n : ℚ) }
    targetTime0 := -1
    timer := (n : Int) }

/-- The height at which the player of the landing scenario comes to rest:
`fallY 516 - 2`. -/
def restY : ℚ := 52880698169 / 100000000

/-- The state of the landing scenario at timer value `t` once the player has
landed. -/
def landedGame (t : Nat) : Game :=
  { thePlayer := { dropPlayer with y := restY, yPrime := 0, yPrimePrime := 0 }
    grounded := true
    platformBorderL := 0
    platformBorderR := 100
    platformBorderY := 580
    landedIndex := -1
    landedType := 'n'
    targetTime0 := -1
    timer := (t : Int) }

/-! ## Theorems -/

/-- C1: over exact arithmetic with dt = 0.01, `move(-1)` applied to the result of
`move()` gives back the body it started from: position, velocity, acceleration and
every other field. -/
theorem move_reverse_forward (b : Body) : (b.move 0).move (-1) = b := by
  rcases b with ⟨⟨x, y, size, vanished, hitboxAdjust, width, height⟩, vx, vy, ax, ay, grav, bouncy⟩
  simp only [Body.move, Body.dt]
  norm_num
  constructor <;> ring


/-! ### Collision classification -/

theorem hCandidate_cases (a b : Rect) :
    hCandidate a b = 0 ∨ hCandidate a b = 1 ∨ hCandidate a b = 3 := by
  unfold hCandidate
  dsimp only
  split_ifs <;> simp

theorem vCandidate_cases (a b : Rect) :
    vCandidate a b = 0 ∨ vCandidate a b = 2 ∨ vCandidate a b = 4 := by
  unfold vCandidate
  dsimp only
  split_ifs <;> simp

theorem hOverlap_of_right (a b : Rect) (h : hCandidate a b = 1) :
    hOverlap a b = ((a.x + a.w - b.x : Int) : ℚ) := by
  have hc : b.x < a.x + a.w := by
    unfold hCandidate at h
    dsimp only at h
    split_ifs at h <;> omega
  unfold hOverlap
  simp only [h]
  norm_num
  exact_mod_cast hc.le

theorem hOverlap_of_left (a b : Rect) (h : hCandidate a b = 3) :
    hOverlap a b = ((b.x + b.w - a.x : Int) : ℚ) := by
  have hc : a.x < b.x + b.w := by
    unfold hCandidate at h
    dsimp only at h
    split_ifs at h <;> omega
  unfold hOverlap
  simp only [h]
  norm_num
  rw [abs_of_neg (by exact_mod_cast (by omega : a.x - (b.x + b.w) < (0:Int)))]
  ring

theorem vOverlap_of_bottom (a b : Rect) (h : vCandidate a b = 4) :
    vOverlap a b = ((a.y + a.h - b.y : Int) : ℚ) := by
  have hc : b.y < a.y + a.h := by
    unfold vCandidate at h
    dsimp only at h
    split_ifs at h <;> omega
  unfold vOverlap
  simp only [h]
  norm_num
  exact_mod_cast hc.le

theorem vOverlap_of_top (a b : Rect) (h : vCandidate a b = 2) :
    vOverlap a b = ((b.y + b.h - a.y : Int) : ℚ) := by
  have hc : a.y < b.y + b.h := by
    unfold vCandidate at h
    dsimp only at h
    split_ifs at h <;> omega
  unfold vOverlap
  simp only [h]
  norm_num
  rw [abs_of_neg (by exact_mod_cast (by omega : a.y - (b.y + b.h) < (0:Int)))]
  ring

/-- C2: when `collisionDetected` finds a horizontal candidate (1 or 3) and a vertical
candidate (2 or 4), it returns the vertical one if the vertical penetration depth is
strictly smaller than the horizontal one and the horizontal one otherwise (so also
when the depths are equal); the depths are the distances by which the colliding edge
of `a` has entered `b`. With depths 10 (horizontal) and 4 (vertical) the vertical
side is returned. -/
theorem collisionDetected_smaller_depth_wins (a b : Rect)
    (hh : hCandidate a b ≠ 0) (hv : vCandidate a b ≠ 0) :
    (hCandidate a b = 1 ∨ hCandidate a b = 3) ∧
    (vCandidate a b = 2 ∨ vCandidate a b = 4) ∧
    (hCandidate a b = 1 → hOverlap a b = ((a.x + a.w - b.x : Int) : ℚ)) ∧
    (hCandidate a b = 3 → hOverlap a b = ((b.x + b.w - a.x : Int) : ℚ)) ∧
    (vCandidate a b = 4 → vOverlap a b = ((a.y + a.h - b.y : Int) : ℚ)) ∧
    (vCandidate a b = 2 → vOverlap a b = ((b.y + b.h - a.y : Int) : ℚ)) ∧
    (vOverlap a b < hOverlap a b → collisionDetected a b = vCandidate a b) ∧
    (hOverlap a b ≤ vOverlap a b → collisionDetected a b = hCandidate a b) ∧
    (hOverlap a b = 10 → vOverlap a b = 4 → collisionDetected a b = vCandidate a b) := by
  have hcd : collisionDetected a b =
      if vOverlap a b < hOverlap a b then vCandidate a b else hCandidate a b := by
    unfold collisionDetected
    simp [hh, hv]
  refine ⟨?_, ?_, hOverlap_of_right a b, hOverlap_of_left a b, vOverlap_of_bottom a b,
    vOverlap_of_top a b, ?_, ?_, ?_⟩
  · rcases hCandidate_cases a b with h | h
    · exact absurd h hh
    · exact h
  · rcases vCandidate_cases a b with h | h
    · exact absurd h hv
    · exact h
  · intro hlt
    rw [hcd, if_pos hlt]
  · intro hle
    rw [hcd, if_neg (not_lt.mpr hle)]
  · intro h10 h4
    rw [hcd, if_pos (by rw [h10, h4]; norm_num)]

/-- Witness for C2: the right edge of `tieMover` is 10 px and its bottom edge 4 px
inside `tieTarget`, and the bottom side (4) is returned. -/
theorem collisionDetected_smaller_depth_wins_witness :
    hCandidate tieMover tieTarget = 1 ∧ vCandidate tieMover tieTarget = 4 ∧
    hOverlap tieMover tieTarget = 10 ∧ vOverlap tieMover tieTarget = 4 ∧
    collisionDetected tieMover tieTarget = 4 := by
  have h := collisionDetected_smaller_depth_wins tieMover tieTarget (by decide) (by decide)
  have hc : hCandidate tieMover tieTarget = 1 := by decide
  have vc : vCandidate tieMover tieTarget = 4 := by decide
  have ho : hOverlap tieMover tieTarget = 10 := by
    rw [h.2.2.1 hc]; norm_num [tieMover, tieTarget]
  have vo : vOverlap tieMover tieTarget = 4 := by
    rw [h.2.2.2.2.1 vc]; norm_num [tieMover, tieTarget]
  exact ⟨hc, vc, ho, vo, (h.2.2.2.2.2.2.2.2 ho vo).trans vc⟩

/-! ### The directional resolution of one surface -/

/-- C3: a surface none of whose four sides is solid is skipped by the directional
resolution step: the whole game state (the player's position, velocity and
acceleration, the grounded flag, the platform borders, landedIndex) stays as it
was, whatever side `collided` reports. -/
theorem surfaceResolve_nonsolid (w : World) (i : Nat) (s : Surface) (g : Game)
    (h1 : s.isSolid 1 = false) (h2 : s.isSolid 2 = false)
    (h3 : s.isSolid 3 = false) (h4 : s.isSolid 4 = false) :
    surfaceResolve w i s g = g := by
  unfold surfaceResolve
  simp only [h1, h2, h3, h4]
  split_ifs <;> first | rfl | contradiction

/-- Witness for C3: `collided` reports the bottom side (4) for the example player
against the non-solid pickup, and the state is unchanged. -/
theorem surfaceResolve_nonsolid_witness :
    collided exampleGame.thePlayer.toEntity examplePickup.toEntity
      (playerContraction {} exampleGame) (obstacleContraction {} examplePickup.xPrime) = 4 ∧
    surfaceResolve {} 0 examplePickup exampleGame = exampleGame :=
  ⟨by norm_num [collided, collisionRect, collisionDetected, truncToInt, hCandidate, vCandidate,
      hOverlap, vOverlap, exampleGame, examplePlayer, examplePickup, playerContraction,
      obstacleContraction],
   surfaceResolve_nonsolid {} 0 examplePickup exampleGame rfl rfl rfl rfl⟩

/-- C4: when `collided(thePlayer, theSurface, ...)` reports right (1) or left (3) and
`isSolid` of that side holds, the step leaves the player with vx = 0, ax = 0 and
x = (x - vx*dt) - 5 for right, x = (x - vx*dt) + 5 for left, where x and vx are the
values at the time of the collision and x - vx*dt is the reverse-integrated
position. -/
theorem surfaceResolve_horizontal_block (w : World) (i : Nat) (s : Surface) (g : Game)
    (side : Int) (hside : side = 1 ∨ side = 3)
    (hc : collided g.thePlayer.toEntity s.toEntity
      (playerContraction w g) (obstacleContraction w s.xPrime) = side)
    (hsolid : s.isSolid side = true) :
    (surfaceResolve w i s g).thePlayer.xPrime = 0 ∧
    (surfaceResolve w i s g).thePlayer.xPrimePrime = 0 ∧
    (g.thePlayer.move (-1)).x = g.thePlayer.x - g.thePlayer.xPrime * Body.dt ∧
    (surfaceResolve w i s g).thePlayer.x =
      (g.thePlayer.move (-1)).x + (if side = 1 then -5 else 5) := by
  have hrev : (g.thePlayer.move (-1)).x = g.thePlayer.x - g.thePlayer.xPrime * Body.dt := by
    simp only [Body.move]
    norm_num
    ring
  rcases hside with h | h
  · subst h
    simp only [surfaceResolve, hc, hsolid]
    simp [Body.stopX, Body.setX, hrev]
    ring
  · subst h
    simp only [surfaceResolve, hc, hsolid]
    simp [Body.stopX, Body.setX, hrev]

/-- Witness for C4: the example player moving right at vx = 10 against the left part
of a solid wall ends with vx = 0 and x = (0 - 10/100) - 5; the shifted player
against the right part of a solid wall ends with x = (100 - 10/100) + 5. -/
theorem surfaceResolve_horizontal_block_witness :
    (surfaceResolve {} 0 exampleWallRight exampleGame).thePlayer.xPrime = 0 ∧
    (surfaceResolve {} 0 exampleWallRight exampleGame).thePlayer.x = (0 - 10 / 100) - 5 ∧
    (surfaceResolve {} 0 exampleWallLeft exampleGameShifted).thePlayer.xPrime = 0 ∧
    (surfaceResolve {} 0 exampleWallLeft exampleGameShifted).thePlayer.x
      = (100 - 10 / 100) + 5 := by
  have hR := surfaceResolve_horizontal_block {} 0 exampleWallRight exampleGame 1 (Or.inl rfl)
    (by norm_num [collided, collisionRect, collisionDetected, truncToInt, hCandidate,
      vCandidate, hOverlap, vOverlap, exampleGame, examplePlayer, exampleWallRight,
      playerContraction, obstacleContraction]) rfl
  have hL := surfaceResolve_horizontal_block {} 0 exampleWallLeft exampleGameShifted 3
    (Or.inr rfl)
    (by norm_num [collided, collisionRect, collisionDetected, truncToInt, hCandidate,
      vCandidate, hOverlap, vOverlap, exampleGameShifted, examplePlayer, exampleWallLeft,
      playerContraction, obstacleContraction, Body.setX]) rfl
  refine ⟨hR.1, ?_, hL.1, ?_⟩
  · rw [hR.2.2.2, hR.2.2.1]
    norm_num [exampleGame, examplePlayer, Body.dt]
  · rw [hL.2.2.2, hL.2.2.1]
    norm_num [exampleGameShifted, examplePlayer, Body.dt, Body.setX]

/-- What `move(-1)` does to the position and the velocity. -/
theorem move_reverse_fields (p : Body) :
    (p.move (-1)).x = p.x - p.xPrime * Body.dt ∧
    (p.move (-1)).y = p.y - p.yPrime * Body.dt ∧
    (p.move (-1)).xPrime = p.xPrime - p.xPrimePrime * Body.dt ∧
    (p.move (-1)).yPrime = p.yPrime - p.yPrimePrime * Body.dt ∧
    (p.move (-1)).xPrimePrime = p.xPrimePrime ∧
    (p.move (-1)).yPrimePrime = p.yPrimePrime := by
  simp only [Body.move]
  norm_num
  constructor <;> ring

/-- C5: when `collided` reports bottom (4) for a surface whose side 4 is solid, or
for a body with a hitbox, the step reverse-integrates the player one tick, sets
vy = 0 and ay = 0, moves y up by exactly 2, sets grounded, records the obstacle's
left edge, right edge and top edge as platformBorderL/R/Y, and sets landedIndex to
the obstacle's index if the obstacle's velocity is nonzero and to -1 otherwise. The
right edge is x + width * surfaceRenderSize[i] for a surface and
x + width * size for a body. -/
theorem landing_resolution :
    (∀ (w : World) (i : Nat) (s : Surface) (g : Game),
      collided g.thePlayer.toEntity s.toEntity
        (playerContraction w g) (obstacleContraction w s.xPrime) = 4 →
      s.isSolid 4 = true →
      (surfaceResolve w i s g).thePlayer.x = (g.thePlayer.move (-1)).x ∧
      (surfaceResolve w i s g).thePlayer.xPrime = (g.thePlayer.move (-1)).xPrime ∧
      (surfaceResolve w i s g).thePlayer.xPrimePrime = (g.thePlayer.move (-1)).xPrimePrime ∧
      (surfaceResolve w i s g).thePlayer.yPrime = 0 ∧
      (surfaceResolve w i s g).thePlayer.yPrimePrime = 0 ∧
      (surfaceResolve w i s g).thePlayer.y = (g.thePlayer.move (-1)).y - 2 ∧
      (surfaceResolve w i s g).thePlayer.y = g.thePlayer.y - g.thePlayer.yPrime * Body.dt - 2 ∧
      (surfaceResolve w i s g).grounded = true ∧
      (surfaceResolve w i s g).platformBorderL = s.x ∧
      (surfaceResolve w i s g).platformBorderR = s.x + s.width * w.surfaceRenderSize.getD i 1 ∧
      (surfaceResolve w i s g).platformBorderY = s.y ∧
      (surfaceResolve w i s g).landedIndex
        = if s.xPrime ≠ 0 ∨ s.yPrime ≠ 0 then (i : Int) else -1) ∧
    (∀ (w : World) (i : Nat) (b : Body) (g : Game),
      w.bodyHasHitbox.getD i false = true →
      collided g.thePlayer.toEntity b.toEntity
        (playerContraction w g) (obstacleContraction w b.xPrime) = 4 →
      (bodyStep w i b g).thePlayer.x = (g.thePlayer.move (-1)).x ∧
      (bodyStep w i b g).thePlayer.xPrime = (g.thePlayer.move (-1)).xPrime ∧
      (bodyStep w i b g).thePlayer.xPrimePrime = (g.thePlayer.move (-1)).xPrimePrime ∧
      (bodyStep w i b g).thePlayer.yPrime = 0 ∧
      (bodyStep w i b g).thePlayer.yPrimePrime = 0 ∧
      (bodyStep w i b g).thePlayer.y = (g.thePlayer.move (-1)).y - 2 ∧
      (bodyStep w i b g).thePlayer.y = g.thePlayer.y - g.thePlayer.yPrime * Body.dt - 2 ∧
      (bodyStep w i b g).grounded = true ∧
      (bodyStep w i b g).platformBorderL = b.x ∧
      (bodyStep w i b g).platformBorderR = b.x + b.width * b.size ∧
      (bodyStep w i b g).platformBorderY = b.y ∧
      (bodyStep w i b g).landedIndex
        = if b.xPrime ≠ 0 ∨ b.yPrime ≠ 0 then (i : Int) else -1) := by
  constructor
  · intro w i s g hc hsolid
    have hy := (move_reverse_fields g.thePlayer).2.1
    simp only [surfaceResolve, hc, hsolid]
    simp [Body.stopY, Body.setY, hy]
  · intro w i b g hbox hc
    have hy := (move_reverse_fields g.thePlayer).2.1
    simp only [bodyStep, hbox, hc]
    simp [Body.stopY, Body.setY, Body.setWidth, Body.setHeight, hy]

/-- Witness for C5: the example player lands on the moving example platform, as a
surface at index 0 and as a body at index 0: y goes from 0 to -2, the borders are
10, 110 and 16, and landedIndex is 0. -/
theorem landing_resolution_witness :
    (surfaceResolve {} 0 examplePlatform exampleGame).thePlayer.y = -2 ∧
    (surfaceResolve {} 0 examplePlatform exampleGame).grounded = true ∧
    (surfaceResolve {} 0 examplePlatform exampleGame).platformBorderR = 110 ∧
    (surfaceResolve {} 0 examplePlatform exampleGame).landedIndex = 0 ∧
    (bodyStep exampleBodyWorld 0 examplePlatform.toBody exampleGame).thePlayer.y = -2 ∧
    (bodyStep exampleBodyWorld 0 examplePlatform.toBody exampleGame).platformBorderR = 110 ∧
    (bodyStep exampleBodyWorld 0 examplePlatform.toBody exampleGame).landedIndex = 0 := by
  have hS := landing_resolution.1 {} 0 examplePlatform exampleGame
    (by norm_num [collided, collisionRect, collisionDetected, truncToInt, hCandidate,
      vCandidate, hOverlap, vOverlap, exampleGame, examplePlayer, examplePlatform,
      playerContraction, obstacleContraction]) rfl
  have hB := landing_resolution.2 exampleBodyWorld 0 examplePlatform.toBody exampleGame rfl
    (by norm_num [collided, collisionRect, collisionDetected, truncToInt, hCandidate,
      vCandidate, hOverlap, vOverlap, exampleGame, examplePlayer, examplePlatform,
      playerContraction, obstacleContraction, exampleBodyWorld])
  obtain ⟨-, -, -, -, -, -, hSy, hSg, -, hSR, -, hSi⟩ := hS
  obtain ⟨-, -, -, -, -, -, hBy, -, -, hBR, -, hBi⟩ := hB
  refine ⟨?_, hSg, ?_, ?_, ?_, ?_, ?_⟩
  · rw [hSy]; norm_num [exampleGame, examplePlayer]
  · rw [hSR]; norm_num [examplePlatform]
  · rw [hSi]; norm_num [examplePlatform]
  · rw [hBy]; norm_num [exampleGame, examplePlayer]
  · rw [hBR]; norm_num [examplePlatform]
  · rw [hBi]; norm_num [examplePlatform]

/-- C6: when `collided` reports top (2) for a surface whose side 2 is solid, the step
reverse-integrates the player one tick, moves y down by exactly 5 and leaves the
player falling from rest: vy = 0 and ay = g = 9.80665, with x, vx and ax as the
reverse integration left them. -/
theorem surfaceResolve_head_bump (w : World) (i : Nat) (s : Surface) (g : Game)
    (hc : collided g.thePlayer.toEntity s.toEntity
      (playerContraction w g) (obstacleContraction w s.xPrime) = 2)
    (hsolid : s.isSolid 2 = true) :
    (surfaceResolve w i s g).thePlayer.y = (g.thePlayer.move (-1)).y + 5 ∧
    (surfaceResolve w i s g).thePlayer.y = g.thePlayer.y - g.thePlayer.yPrime * Body.dt + 5 ∧
    (surfaceResolve w i s g).thePlayer.yPrime = 0 ∧
    (surfaceResolve w i s g).thePlayer.yPrimePrime = 980665 / 100000 ∧
    (surfaceResolve w i s g).thePlayer.x = (g.thePlayer.move (-1)).x ∧
    (surfaceResolve w i s g).thePlayer.xPrime = (g.thePlayer.move (-1)).xPrime ∧
    (surfaceResolve w i s g).thePlayer.xPrimePrime = (g.thePlayer.move (-1)).xPrimePrime := by
  have hy := (move_reverse_fields g.thePlayer).2.1
  simp only [surfaceResolve, hc, hsolid]
  simp [Body.stopY, Body.setY, Body.jump, Body.g, hy]

/-- Witness for C6: the example player bumps its head on the example ceiling and is
left at y = 5 with vy = 0 and ay = 9.80665. -/
theorem surfaceResolve_head_bump_witness :
    (surfaceResolve {} 0 exampleCeiling exampleGame).thePlayer.y = 5 ∧
    (surfaceResolve {} 0 exampleCeiling exampleGame).thePlayer.yPrime = 0 ∧
    (surfaceResolve {} 0 exampleCeiling exampleGame).thePlayer.yPrimePrime
      = 980665 / 100000 := by
  have h := surfaceResolve_head_bump {} 0 exampleCeiling exampleGame
    (by norm_num [collided, collisionRect, collisionDetected, truncToInt, hCandidate,
      vCandidate, hOverlap, vOverlap, exampleGame, examplePlayer, exampleCeiling,
      playerContraction, obstacleContraction]) rfl
  refine ⟨?_, h.2.2.1, h.2.2.2.1⟩
  rw [h.2.1]; norm_num [exampleGame, examplePlayer]

/-! ### Grounded invalidation and carrying -/

/-- C7, as stated, fails: `sunkGame` is grounded with its bottom edge more than 8 px
below the platform top edge, and the invalidation leaves it grounded. -/
theorem invalidateGrounded_below_counterexample :
    sunkGame.grounded = true ∧
    sunkGame.thePlayer.y + sunkGame.thePlayer.height * sunkGame.thePlayer.size
      > sunkGame.platformBorderY + 8 ∧
    (invalidateGrounded sunkGame).grounded = true ∧
    invalidateGrounded sunkGame = sunkGame := by
  norm_num [sunkGame, invalidateGrounded, invalidateVertical, invalidateHorizontal]

/-- C7, amended: when the player is grounded and its bottom edge is more than 8 px
above the recorded platform top edge (y + height*size + 8 < platformBorderY, y
growing downward), the invalidation clears grounded, applies jump(0) to the player
and resets landedIndex to -1 (and landedType to 'n'). -/
theorem invalidateGrounded_above (g : Game) (hg : g.grounded = true)
    (h : g.thePlayer.y + g.thePlayer.height * g.thePlayer.size + 8 < g.platformBorderY) :
    (invalidateGrounded g).grounded = false ∧
    (invalidateGrounded g).thePlayer = g.thePlayer.jump 0 ∧
    (invalidateGrounded g).thePlayer.yPrime = 0 ∧
    (invalidateGrounded g).thePlayer.yPrimePrime = Body.g ∧
    (invalidateGrounded g).landedIndex = -1 ∧
    (invalidateGrounded g).landedType = 'n' := by
  by_cases hx : g.thePlayer.x < g.platformBorderL ∨ g.thePlayer.x > g.platformBorderR
  · simp [invalidateGrounded, invalidateHorizontal, invalidateVertical, hg, hx, Body.jump]
  · have hx1 : ¬ g.thePlayer.x < g.platformBorderL := fun h1 => hx (Or.inl h1)
    have hx2 : ¬ g.thePlayer.x > g.platformBorderR := fun h2 => hx (Or.inr h2)
    simp [invalidateGrounded, invalidateHorizontal, invalidateVertical, hg, hx1, hx2, h,
      Body.jump]

/-- Witness for C7, amended: `liftedGame` loses its grounding. -/
theorem invalidateGrounded_above_witness :
    (invalidateGrounded liftedGame).grounded = false ∧
    (invalidateGrounded liftedGame).landedIndex = -1 := by
  have h := invalidateGrounded_above liftedGame rfl (by norm_num [liftedGame])
  exact ⟨h.1, h.2.2.2.2.1⟩

theorem walk_landing (w : World) (toEast : Bool) (c : Nat) (g : Game) :
    (walk w toEast c g).landedIndex = g.landedIndex ∧
    (walk w toEast c g).grounded = g.grounded := by
  unfold walk
  dsimp only
  split_ifs <;> exact ⟨rfl, rfl⟩

theorem matchLandedVelocity_landing (w : World) (l r : Bool) (g : Game) :
    (matchLandedVelocity w l r g).landedIndex = g.landedIndex ∧
    (matchLandedVelocity w l r g).grounded = g.grounded := by
  unfold matchLandedVelocity
  split_ifs
  · split
    · dsimp only
      split_ifs <;> exact ⟨rfl, rfl⟩
    · exact ⟨rfl, rfl⟩
  · exact ⟨rfl, rfl⟩

theorem friction_landing (w : World) (l r : Bool) (g : Game) :
    (friction w l r g).landedIndex = g.landedIndex ∧
    (friction w l r g).grounded = g.grounded := by
  unfold friction
  dsimp only
  split_ifs <;> exact ⟨rfl, rfl⟩

theorem clampContraction_landing (g : Game) :
    (clampContraction g).landedIndex = g.landedIndex ∧
    (clampContraction g).grounded = g.grounded ∧
    (clampContraction g).thePlayer = g.thePlayer := by
  unfold clampContraction
  dsimp only
  split_ifs <;> exact ⟨rfl, rfl, rfl⟩

/-- The movement block writes neither `landedIndex` nor `grounded`. -/
theorem playerMovement_landing (w : World) (l r : Bool) (c : Nat) (g : Game) :
    (playerMovement w l r c g).landedIndex = g.landedIndex ∧
    (playerMovement w l r c g).grounded = g.grounded := by
  unfold playerMovement
  dsimp only
  rw [(clampContraction_landing _).1, (clampContraction_landing _).2.1,
    (friction_landing _ _ _ _).1, (friction_landing _ _ _ _).2]
  split_ifs <;>
    simp only [(walk_landing _ _ _ _).1, (walk_landing _ _ _ _).2,
      (matchLandedVelocity_landing _ _ _ _).1, (matchLandedVelocity_landing _ _ _ _).2,
      and_self]

theorem matchLandedVelocity_neutral (w : World) (g : Game) (i : Nat) (s : Surface)
    (l r : Bool) (hi : g.landedIndex = (i : Int))
    (hs : w.surfaceRenderQueue.get? i = some s) (hn : l = r) (hy : s.yPrime ≤ 0) :
    (matchLandedVelocity w l r g).thePlayer.xPrime = s.xPrime ∧
    (matchLandedVelocity w l r g).thePlayer.x = g.thePlayer.x ∧
    (matchLandedVelocity w l r g).thePlayer.xPrimePrime = g.thePlayer.xPrimePrime ∧
    (matchLandedVelocity w l r g).thePlayer.yPrime = g.thePlayer.yPrime := by
  have hnn : g.landedIndex ≥ 0 := by rw [hi]; exact Int.ofNat_nonneg i
  have hcond : (l = true ∧ r = true) ∨ (¬ l = true ∧ ¬ r = true) := by
    subst hn
    cases l <;> simp
  have hget : w.surfaceRenderQueue.get? g.landedIndex.toNat = some s := by
    rw [hi]; simpa using hs
  have hny : ¬ s.yPrime > 0 := not_lt.mpr hy
  unfold matchLandedVelocity
  rw [if_pos ⟨hnn, hcond⟩, hget]
  dsimp only
  rw [if_neg hny]
  split_ifs <;> exact ⟨rfl, rfl, rfl, rfl⟩

theorem friction_moving (w : World) (l r : Bool) (g : Game) (hn : l = r)
    (hv : 1 ≤ |g.thePlayer.xPrime * (99 / 100)|) :
    (friction w l r g).thePlayer.xPrime = g.thePlayer.xPrime * (99 / 100) ∧
    (friction w l r g).thePlayer.x = g.thePlayer.x ∧
    (friction w l r g).thePlayer.xPrimePrime = g.thePlayer.xPrimePrime ∧
    (friction w l r g).thePlayer.yPrime = g.thePlayer.yPrime := by
  have hcond : (l = true ∧ r = true) ∨ (¬ l = true ∧ ¬ r = true) := by
    subst hn
    cases l <;> simp
  have hne : g.thePlayer.xPrime ≠ 0 := by
    intro h0
    rw [h0] at hv
    norm_num at hv
  have hnot : ¬ (|(g.thePlayer.setXPrime (g.thePlayer.xPrime * (99 / 100))).xPrime| < 1
      ∧ ¬ g.iFrame = true) := by
    intro h
    have h1 : |g.thePlayer.xPrime * (99 / 100)| < 1 := h.1
    linarith
  unfold friction
  rw [if_pos ⟨hcond, hne⟩]
  dsimp only
  rw [if_neg hnot]
  exact ⟨rfl, rfl, rfl, rfl⟩

/-- Under neutral input the movement block leaves a player that has landed on the
surface `s` with 0.99 times the vx of `s`, whenever that is at least 1 in absolute
value; when `s` does not move down it leaves the player's vy alone. -/
theorem playerMovement_neutral (w : World) (g : Game) (i : Nat) (s : Surface)
    (l r : Bool) (c : Nat) (hi : g.landedIndex = (i : Int))
    (hs : w.surfaceRenderQueue.get? i = some s) (hn : l = r)
    (hv : 1 ≤ |s.xPrime * (99 / 100)|) (hy : s.yPrime ≤ 0) :
    (playerMovement w l r c g).thePlayer.xPrime = s.xPrime * (99 / 100) ∧
    (playerMovement w l r c g).thePlayer.x = g.thePlayer.x ∧
    (playerMovement w l r c g).thePlayer.xPrimePrime = g.thePlayer.xPrimePrime ∧
    (playerMovement w l r c g).thePlayer.yPrime = g.thePlayer.yPrime := by
  have hm := matchLandedVelocity_neutral w g i s l r hi hs hn hy
  have h1 : ¬ (l = true ∧ ¬ r = true) := by
    subst hn
    cases l <;> simp
  have h2 : ¬ (¬ l = true ∧ r = true) := by
    subst hn
    cases l <;> simp
  have hf := friction_moving w l r (matchLandedVelocity w l r g) hn (by rw [hm.1]; exact hv)
  unfold playerMovement
  dsimp only
  rw [if_neg h1, if_neg h2, (clampContraction_landing _).2.2, hf.1, hf.2.1, hf.2.2.1,
    hf.2.2.2, hm.1, hm.2.1, hm.2.2.1, hm.2.2.2]
  exact ⟨rfl, rfl, rfl, rfl⟩

theorem bodyStep_noCollision (w : World) (j : Nat) (b : Body) (g : Game)
    (h : w.bodyHasHitbox.getD j false = true →
      collided g.thePlayer.toEntity b.toEntity
        (playerContraction w g) (obstacleContraction w b.xPrime) = 0) :
    bodyStep w j b g = g := by
  unfold bodyStep
  by_cases hb : w.bodyHasHitbox.getD j false = true
  · rw [hb]
    simp [h hb]
  · have hf : w.bodyHasHitbox.getD j false = false := Bool.eq_false_iff.mpr hb
    rw [hf]
    simp

theorem bodyLoopFrom_noCollision (w : World) (l : List Body) :
    ∀ (idx : Nat) (g : Game),
      (∀ (j : Nat) (b : Body), l.get? j = some b →
        w.bodyHasHitbox.getD (idx + j) false = true →
        collided g.thePlayer.toEntity b.toEntity
          (playerContraction w g) (obstacleContraction w b.xPrime) = 0) →
      bodyLoopFrom w idx l g = g := by
  induction l with
  | nil => intro idx g _; rfl
  | cons b rest ih =>
    intro idx g h
    show bodyLoopFrom w (idx + 1) rest (bodyStep w idx b g) = g
    rw [bodyStep_noCollision w idx b g (h 0 b (by simp))]
    apply ih
    intro j c hj hc
    exact h (j + 1) c (by simpa using hj) (by rw [← Nat.add_assoc, Nat.add_right_comm]; exact hc)

theorem surfaceStep_noCollision (w : World) (j : Nat) (s : Surface) (g : Game)
    (h : collided g.thePlayer.toEntity s.toEntity
      (playerContraction w g) (obstacleContraction w s.xPrime) = 0) :
    SameMotion g (surfaceStep w j s g) := by
  have hd : (surfaceDamage s g).thePlayer = g.thePlayer ∧
      playerContraction w (surfaceDamage s g) = playerContraction w g := by
    unfold surfaceDamage playerContraction
    split_ifs <;> exact ⟨rfl, rfl⟩
  have hres : surfaceResolve w j s (surfaceDamage s g) = surfaceDamage s g := by
    unfold surfaceResolve
    dsimp only
    rw [hd.1, hd.2, h]
    simp
  unfold surfaceStep
  rw [hres]
  unfold surfaceDamage
  split_ifs <;> exact ⟨rfl, rfl, rfl, rfl, rfl, rfl, rfl, rfl⟩

theorem surfaceLoopFrom_noCollision (w : World) (l : List Surface) :
    ∀ (idx : Nat) (g : Game),
      (∀ (j : Nat) (s : Surface), l.get? j = some s →
        collided g.thePlayer.toEntity s.toEntity
          (playerContraction w g) (obstacleContraction w s.xPrime) = 0) →
      SameMotion g (surfaceLoopFrom w idx l g) := by
  induction l with
  | nil => intro idx g _; exact ⟨rfl, rfl, rfl, rfl, rfl, rfl, rfl, rfl⟩
  | cons s rest ih =>
    intro idx g h
    have h1 := surfaceStep_noCollision w idx s g (h 0 s (by simp))
    have hpc : playerContraction w (surfaceStep w idx s g) = playerContraction w g := by
      unfold playerContraction
      rw [h1.2.1]
    have h2 := ih (idx + 1) (surfaceStep w idx s g) (by
      intro j t hj
      rw [h1.1, hpc]
      exact h (j + 1) t (by simpa using hj))
    obtain ⟨a1, a2, a3, a4, a5, a6, a7, a8⟩ := h1
    obtain ⟨b1, b2, b3, b4, b5, b6, b7, b8⟩ := h2
    exact ⟨b1.trans a1, b2.trans a2, b3.trans a3, b4.trans a4, b5.trans a5, b6.trans a6,
      b7.trans a7, b8.trans a8⟩

/-- When no obstacle reports a collision, the two loops of the collision part leave
the player, the contraction, the landing variables and the borders as they are. -/
theorem loops_noCollision (w : World) (g : Game) (h : NoCollision w g) :
    SameMotion g (surfaceLoop w (bodyLoop w g)) := by
  have hb : bodyLoop w g = g := by
    unfold bodyLoop
    apply bodyLoopFrom_noCollision
    intro j b hj hh
    exact h.1 j b hj (by simpa using hh)
  unfold surfaceLoop
  rw [hb]
  exact surfaceLoopFrom_noCollision w _ 0 g h.2

theorem refreshBorders_motion (w : World) (g : Game) :
    (refreshBorders w g).thePlayer = g.thePlayer ∧
    (refreshBorders w g).grounded = g.grounded ∧
    (refreshBorders w g).landedIndex = g.landedIndex := by
  unfold refreshBorders bordersFromSurface bordersFromBody
  split_ifs <;> (repeat' split) <;> exact ⟨rfl, rfl, rfl⟩

theorem invalidateGrounded_within (g : Game) (h : WithinBorders g) :
    invalidateGrounded g = g := by
  obtain ⟨h1, h2, h3⟩ := h
  have hh : invalidateHorizontal g = g := by
    unfold invalidateHorizontal
    rw [if_neg]
    rintro ⟨_, h | h⟩
    · exact absurd h (not_lt.mpr h1)
    · exact absurd h (not_lt.mpr h2)
  unfold invalidateGrounded
  rw [hh]
  unfold invalidateVertical
  rw [if_neg]
  rintro ⟨_, h⟩
  exact absurd h (not_lt.mpr h3)

/-- What the death test, the timer test and `timer++` leave of the state
`beforeDeath` reached: the landing variables and the motion of the player. -/
theorem gameTick_motion (f : Frame) (g : Game) :
    (gameTick f g).landedIndex = (beforeDeath f g).landedIndex ∧
    (gameTick f g).grounded = (beforeDeath f g).grounded ∧
    (gameTick f g).thePlayer.x = (beforeDeath f g).thePlayer.x ∧
    (gameTick f g).thePlayer.xPrime = (beforeDeath f g).thePlayer.xPrime := by
  unfold gameTick collisionPhase playerDeath timerHandling
  generalize beforeDeath f g = gb
  dsimp only
  split_ifs <;> exact ⟨rfl, rfl, rfl, rfl⟩

/-- A tick in which no obstacle reports a collision and the player is within the
recorded borders leaves the landing variables as the rest of the tick left them, and
the player's x and vx as `thePlayer.move()` left them. -/
theorem gameTick_noCollision (f : Frame) (g : Game)
    (hnc : NoCollision f.world (beginTick f g)) (hw : WithinBorders (atRefresh f g)) :
    (gameTick f g).landedIndex = (f.pre g).landedIndex ∧
    (gameTick f g).grounded = (f.pre g).grounded ∧
    (gameTick f g).thePlayer.x = (f.pre g).thePlayer.x ∧
    (gameTick f g).thePlayer.xPrime = (f.pre g).thePlayer.xPrime := by
  have hl := loops_noCollision f.world (beginTick f g) hnc
  have hr := refreshBorders_motion f.world (surfaceLoop f.world (bodyLoop f.world (beginTick f g)))
  have hb : beforeDeath f g = atRefresh f g := invalidateGrounded_within _ hw
  have hm := gameTick_motion f g
  rw [hb] at hm
  unfold atRefresh at hm
  rw [hr.1, hr.2.1, hr.2.2, hl.1, hl.2.2.1, hl.2.2.2.1] at hm
  exact hm

/-- A tick in which no obstacle reports a collision and a grounded player's x is
outside the refreshed borders ends with landedIndex = -1 and the player no longer
grounded. -/
theorem gameTick_leaves (f : Frame) (g : Game)
    (hnc : NoCollision f.world (beginTick f g)) (hgr : (f.pre g).grounded = true)
    (hout : (atRefresh f g).thePlayer.x < (atRefresh f g).platformBorderL ∨
      (atRefresh f g).thePlayer.x > (atRefresh f g).platformBorderR) :
    (gameTick f g).landedIndex = -1 ∧ (gameTick f g).grounded = false := by
  have hl := loops_noCollision f.world (beginTick f g) hnc
  have hr := refreshBorders_motion f.world (surfaceLoop f.world (bodyLoop f.world (beginTick f g)))
  have hgr2 : (atRefresh f g).grounded = true := by
    unfold atRefresh
    rw [hr.2.1, hl.2.2.1]
    exact hgr
  have hm := gameTick_motion f g
  have hb : beforeDeath f g = invalidateGrounded (atRefresh f g) := rfl
  rw [hm.1, hm.2.1, hb]
  revert hgr2 hout
  generalize atRefresh f g = gr
  intro hout hgr2
  simp [invalidateGrounded, invalidateHorizontal, invalidateVertical, hgr2, hout]

theorem runTicks_succ (inputs : Nat → TickInput) (n : Nat) (g : Game) :
    runTicks inputs (n + 1) g
      = if (runTicks inputs n g).playerDied = true then runTicks inputs n g
        else gameTick (inputFrame (inputs n)) (runTicks inputs n g) := rfl

/-- C8, amended: let the player have landed on the moving surface at index i
(landedIndex = i, grounded), and let n ticks follow in each of which that surface
has the velocity (5, 0), the horizontal input is neutral (left and right both held or
both released, no key event), no obstacle reports a collision and the player is
within the refreshed platform borders (x between platformBorderL and
platformBorderR, bottom edge not more than 8 px above platformBorderY). Then in each
of these ticks the movement block sets the player's vx to the platform's and scales
it by the friction factor 0.99, leaving its vy alone, so that the player is
integrated with vx = 4.95 (plus its own acceleration times dt) and not with 5, and
landedIndex is still i and the player still grounded after the tick. With one direction key alone held the
velocity matching does nothing. And if in the next tick no obstacle reports a
collision and x is outside the refreshed borders, that tick ends with
landedIndex = -1, after which the velocity matching changes nothing, whatever the
input. -/
theorem carry_run (inputs : Nat → TickInput) (i : Nat) (g0 : Game) (n : Nat)
    (hi : g0.landedIndex = (i : Int)) (hgr : g0.grounded = true)
    (hsurf : ∀ k, k < n → ∃ s, (inputs k).before.surfaceRenderQueue.get? i = some s ∧
      s.xPrime = 5 ∧ s.yPrime = 0)
    (hneutral : ∀ k, k < n → (inputs k).leftPressed = (inputs k).rightPressed)
    (hnocoll : ∀ k, k < n →
      NoCollision (inputs k).world (beginTick (inputFrame (inputs k)) (runTicks inputs k g0)))
    (hwithin : ∀ k, k < n →
      WithinBorders (atRefresh (inputFrame (inputs k)) (runTicks inputs k g0))) :
    (∀ k, k < n →
      (playerMovement (inputs k).before (inputs k).leftPressed (inputs k).rightPressed
        (inputs k).c (runTicks inputs k g0)).thePlayer.xPrime = 99 / 100 * 5 ∧
      (playerMovement (inputs k).before (inputs k).leftPressed (inputs k).rightPressed
        (inputs k).c (runTicks inputs k g0)).thePlayer.yPrime
        = (runTicks inputs k g0).thePlayer.yPrime ∧
      (gameTick (inputFrame (inputs k)) (runTicks inputs k g0)).thePlayer.xPrime
        = 99 / 100 * 5 + (runTicks inputs k g0).thePlayer.xPrimePrime * Body.dt ∧
      (gameTick (inputFrame (inputs k)) (runTicks inputs k g0)).thePlayer.x
        = (runTicks inputs k g0).thePlayer.x
          + (99 / 100 * 5 + (runTicks inputs k g0).thePlayer.xPrimePrime * Body.dt) * Body.dt ∧
      (runTicks inputs (k + 1) g0).landedIndex = (i : Int) ∧
      (runTicks inputs (k + 1) g0).grounded = true) ∧
    (∀ (w : World) (l r : Bool) (g : Game), l ≠ r → matchLandedVelocity w l r g = g) ∧
    (NoCollision (inputs n).world (beginTick (inputFrame (inputs n)) (runTicks inputs n g0)) →
      ((atRefresh (inputFrame (inputs n)) (runTicks inputs n g0)).thePlayer.x
          < (atRefresh (inputFrame (inputs n)) (runTicks inputs n g0)).platformBorderL ∨
        (atRefresh (inputFrame (inputs n)) (runTicks inputs n g0)).thePlayer.x
          > (atRefresh (inputFrame (inputs n)) (runTicks inputs n g0)).platformBorderR) →
      (gameTick (inputFrame (inputs n)) (runTicks inputs n g0)).landedIndex = -1 ∧
      ∀ (w : World) (l r : Bool),
        matchLandedVelocity w l r (gameTick (inputFrame (inputs n)) (runTicks inputs n g0))
          = gameTick (inputFrame (inputs n)) (runTicks inputs n g0)) := by
  have hinv : ∀ k, k ≤ n →
      (runTicks inputs k g0).landedIndex = (i : Int) ∧ (runTicks inputs k g0).grounded = true := by
    intro k
    induction k with
    | zero => intro _; exact ⟨hi, hgr⟩
    | succ k ih =>
      intro hk
      have ihk := ih (by omega)
      rw [runTicks_succ]
      split_ifs
      · exact ihk
      · have ht := gameTick_noCollision (inputFrame (inputs k)) (runTicks inputs k g0)
          (hnocoll k (by omega)) (hwithin k (by omega))
        have hp := playerMovement_landing (inputs k).before (inputs k).leftPressed
          (inputs k).rightPressed (inputs k).c (runTicks inputs k g0)
        constructor
        · rw [ht.1]
          exact hp.1.trans ihk.1
        · rw [ht.2.1]
          exact hp.2.trans ihk.2
  refine ⟨?_, ?_, ?_⟩
  · intro k hk
    obtain ⟨s, hs, hvx, hvy⟩ := hsurf k hk
    have hv : (1 : ℚ) ≤ |s.xPrime * (99 / 100)| := by
      rw [hvx]
      norm_num [abs_of_pos]
    have hp := playerMovement_neutral (inputs k).before (runTicks inputs k g0) i s
      (inputs k).leftPressed (inputs k).rightPressed (inputs k).c (hinv k (by omega)).1 hs
      (hneutral k hk) hv (le_of_eq hvy)
    rw [hvx] at hp
    have ht := gameTick_noCollision (inputFrame (inputs k)) (runTicks inputs k g0)
      (hnocoll k hk) (hwithin k hk)
    have hmove : ((inputFrame (inputs k)).pre (runTicks inputs k g0)).thePlayer
        = (playerMovement (inputs k).before (inputs k).leftPressed (inputs k).rightPressed
            (inputs k).c (runTicks inputs k g0)).thePlayer.move 0 := rfl
    refine ⟨?_, hp.2.2.2, ?_, ?_, (hinv (k + 1) (by omega)).1, (hinv (k + 1) (by omega)).2⟩
    · rw [hp.1]
      norm_num
    · rw [ht.2.2.2, hmove]
      simp only [Body.move, ge_iff_le, le_refl, if_true]
      rw [hp.1, hp.2.2.1]
      norm_num
    · rw [ht.2.2.1, hmove]
      simp only [Body.move, ge_iff_le, le_refl, if_true]
      rw [hp.1, hp.2.1, hp.2.2.1]
      norm_num
  · intro w l r g hlr
    unfold matchLandedVelocity
    rw [if_neg]
    rintro ⟨_, h | h⟩
    · exact hlr (h.1.trans h.2.symm)
    · apply hlr
      cases l <;> cases r <;> simp_all
  · intro hnc hout
    have hp := playerMovement_landing (inputs n).before (inputs n).leftPressed
      (inputs n).rightPressed (inputs n).c (runTicks inputs n g0)
    have hl := gameTick_leaves (inputFrame (inputs n)) (runTicks inputs n g0) hnc
      (hp.2.trans (hinv n (le_refl n)).2) hout
    refine ⟨hl.1, ?_⟩
    intro w l r
    unfold matchLandedVelocity
    rw [if_neg]
    rw [hl.1]
    simp

/-! #### The carry example -/

theorem ride_first_begin :
    beginTick (inputFrame (rideInputs 0)) rideGame
      = { rideGameOne with platformBorderL := 10, platformBorderR := 110, timer := 0 } := by
  norm_num [beginTick, inputFrame, rideInputs, rideWorld, ridePlatform, examplePlatform,
    rideGame, rideGameOne, playerMovement, matchLandedVelocity, friction, clampContraction,
    walk, Body.move, Body.dt, Body.setXPrime, Body.setYPrime, Body.setWidth, Body.setHeight,
    playerWidth3, playerHeight3, abs_of_pos]

theorem ride_first_noCollision :
    NoCollision (rideInputs 0).world (beginTick (inputFrame (rideInputs 0)) rideGame) := by
  rw [ride_first_begin]
  constructor
  · intro j b hj
    simp [rideInputs, rideWorld] at hj
  · intro j s hj
    have hs : j = 0 ∧ s = ridePlatform 1 := by
      cases j with
      | zero => simpa [rideInputs, rideWorld, eq_comm] using hj
      | succ j => simp [rideInputs, rideWorld] at hj
    rw [hs.2]
    norm_num [collided, collisionRect, collisionDetected, truncToInt, hCandidate,
      vCandidate, hOverlap, vOverlap, rideGameOne, ridePlatform, examplePlatform,
      playerContraction, obstacleContraction, rideInputs, rideWorld]

theorem ride_first_refresh :
    atRefresh (inputFrame (rideInputs 0)) rideGame = { rideGameOne with timer := 0 } := by
  have hsb : ¬ ('s' : Char) = 'b' := by decide
  unfold atRefresh
  rw [ride_first_begin]
  norm_num [inputFrame, rideInputs, rideWorld, ridePlatform, examplePlatform, rideGameOne,
    refreshBorders, bordersFromSurface, surfaceLoop, surfaceLoopFrom, surfaceStep,
    surfaceDamage, surfaceResolve, bodyLoop, bodyLoopFrom, Surface.getDamage,
    collided, collisionRect, collisionDetected, truncToInt, hCandidate,
    vCandidate, hOverlap, vOverlap, playerContraction, obstacleContraction, hsb]

theorem ride_first_within :
    WithinBorders (atRefresh (inputFrame (rideInputs 0)) rideGame) := by
  rw [ride_first_refresh]
  norm_num [WithinBorders, rideGameOne]

theorem ride_first_tick :
    gameTick (inputFrame (rideInputs 0)) rideGame = rideGameOne := by
  have hb : beforeDeath (inputFrame (rideInputs 0)) rideGame
      = invalidateGrounded (atRefresh (inputFrame (rideInputs 0)) rideGame) := rfl
  unfold gameTick collisionPhase
  rw [hb, ride_first_refresh]
  norm_num [invalidateGrounded, invalidateHorizontal, invalidateVertical, playerDeath,
    timerHandling, rideGameOne]

theorem ride_second_begin :
    beginTick (inputFrame (rideInputs 1)) rideGameOne
      = { rideGameOne with
          thePlayer := { rideGameOne.thePlayer with x := 50 + 99 / 1000 } } := by
  norm_num [beginTick, inputFrame, rideInputs, rideWorld, ridePlatform, examplePlatform,
    rideGameOne, playerMovement, matchLandedVelocity, friction, clampContraction,
    walk, Body.move, Body.dt, Body.setXPrime, Body.setYPrime, Body.setWidth, Body.setHeight,
    playerWidth3, playerHeight3, abs_of_pos]

theorem ride_second_noCollision :
    NoCollision (rideInputs 1).world (beginTick (inputFrame (rideInputs 1)) rideGameOne) := by
  rw [ride_second_begin]
  constructor
  · intro j b hj
    simp [rideInputs, rideWorld] at hj
  · intro j s hj
    have hs : j = 0 ∧ s = ridePlatform 2 := by
      cases j with
      | zero => simpa [rideInputs, rideWorld, eq_comm] using hj
      | succ j => simp [rideInputs, rideWorld] at hj
    rw [hs.2]
    norm_num [collided, collisionRect, collisionDetected, truncToInt, hCandidate,
      vCandidate, hOverlap, vOverlap, rideGameOne, ridePlatform, examplePlatform,
      playerContraction, obstacleContraction, rideInputs, rideWorld]

theorem ride_second_within :
    WithinBorders (atRefresh (inputFrame (rideInputs 1)) rideGameOne) := by
  have hsb : ¬ ('s' : Char) = 'b' := by decide
  unfold atRefresh
  rw [ride_second_begin]
  norm_num [WithinBorders, inputFrame, rideInputs, rideWorld, ridePlatform, examplePlatform,
    rideGameOne, refreshBorders, bordersFromSurface, surfaceLoop, surfaceLoopFrom, surfaceStep,
    surfaceDamage, surfaceResolve, bodyLoop, bodyLoopFrom, Surface.getDamage,
    collided, collisionRect, collisionDetected, truncToInt, hCandidate,
    vCandidate, hOverlap, vOverlap, playerContraction, obstacleContraction, hsb]

theorem ride_left_begin :
    beginTick (inputFrame (rideInputsLeft 0)) rideGame
      = { rideGame with
          thePlayer := { rideGame.thePlayer with
            x := 50 - 1 / 100, xPrime := -1, width := 198, height := 336 } } := by
  norm_num [beginTick, inputFrame, rideInputsLeft, rideWorld, ridePlatform, examplePlatform,
    rideGame, playerMovement, matchLandedVelocity, friction, clampContraction,
    walk, Body.move, Body.dt, Body.setXPrime, Body.setYPrime, Body.setWidth, Body.setHeight,
    Body.addVelVector, playerWidth, playerHeight, maxSpeed]

theorem ride_left_noCollision :
    NoCollision (rideInputsLeft 0).world
      (beginTick (inputFrame (rideInputsLeft 0)) rideGame) := by
  rw [ride_left_begin]
  constructor
  · intro j b hj
    simp [rideInputsLeft, rideWorld] at hj
  · intro j s hj
    have hs : j = 0 ∧ s = ridePlatform 1 := by
      cases j with
      | zero => simpa [rideInputsLeft, rideWorld, eq_comm] using hj
      | succ j => simp [rideInputsLeft, rideWorld] at hj
    rw [hs.2]
    norm_num [collided, collisionRect, collisionDetected, truncToInt, hCandidate,
      vCandidate, hOverlap, vOverlap, rideGame, ridePlatform, examplePlatform,
      playerContraction, obstacleContraction, rideInputsLeft, rideWorld]

theorem ride_left_within :
    WithinBorders (atRefresh (inputFrame (rideInputsLeft 0)) rideGame) := by
  have hsb : ¬ ('s' : Char) = 'b' := by decide
  unfold atRefresh
  rw [ride_left_begin]
  norm_num [WithinBorders, inputFrame, rideInputsLeft, rideWorld, ridePlatform,
    examplePlatform, rideGame, refreshBorders, bordersFromSurface, surfaceLoop,
    surfaceLoopFrom, surfaceStep, surfaceDamage, surfaceResolve, bodyLoop, bodyLoopFrom,
    Surface.getDamage, collided, collisionRect, collisionDetected, truncToInt, hCandidate,
    vCandidate, hOverlap, vOverlap, playerContraction, obstacleContraction, hsb]

/-- C8, as stated, fails: the player has landed on the platform at index 0 of the
surface queue, which moves at (5, 0); in the next tick no obstacle reports a
collision and the player is within the refreshed borders. Yet with the left key alone
held that tick leaves the player with vx = -1, the velocity matching being skipped;
and with no key held it leaves the player with vx = 4.95, not the platform's 5, the
friction having scaled the matched velocity before the player is integrated: the
player advances by 0.0495 px while the platform advances by 0.05 px. -/
theorem carry_velocity_counterexample :
    rideGame.landedIndex = 0 ∧ rideGame.grounded = true ∧
    (rideWorld 0).surfaceRenderQueue.get? 0 = some (ridePlatform 0) ∧
    (ridePlatform 0).xPrime = 5 ∧ (ridePlatform 0).yPrime = 0 ∧
    (ridePlatform 1).x = (ridePlatform 0).x + 5 * Body.dt ∧
    NoCollision (rideInputsLeft 0).world
      (beginTick (inputFrame (rideInputsLeft 0)) rideGame) ∧
    WithinBorders (atRefresh (inputFrame (rideInputsLeft 0)) rideGame) ∧
    (gameTick (inputFrame (rideInputsLeft 0)) rideGame).thePlayer.xPrime = -1 ∧
    (gameTick (inputFrame (rideInputsLeft 0)) rideGame).thePlayer.xPrime
      ≠ (ridePlatform 0).xPrime ∧
    NoCollision (rideInputs 0).world (beginTick (inputFrame (rideInputs 0)) rideGame) ∧
    WithinBorders (atRefresh (inputFrame (rideInputs 0)) rideGame) ∧
    (gameTick (inputFrame (rideInputs 0)) rideGame).thePlayer.xPrime = 99 / 20 ∧
    (gameTick (inputFrame (rideInputs 0)) rideGame).thePlayer.xPrime
      ≠ (ridePlatform 0).xPrime ∧
    (gameTick (inputFrame (rideInputs 0)) rideGame).thePlayer.x
      = rideGame.thePlayer.x + 99 / 20 * Body.dt := by
  have hl := gameTick_noCollision (inputFrame (rideInputsLeft 0)) rideGame
    ride_left_noCollision ride_left_within
  have hlx : (gameTick (inputFrame (rideInputsLeft 0)) rideGame).thePlayer.xPrime = -1 := by
    rw [hl.2.2.2]
    show (beginTick (inputFrame (rideInputsLeft 0)) rideGame).thePlayer.xPrime = -1
    rw [ride_left_begin]
  refine ⟨rfl, rfl, rfl, rfl, rfl, ?_, ride_left_noCollision, ride_left_within, hlx, ?_,
    ride_first_noCollision, ride_first_within, ?_, ?_, ?_⟩
  · norm_num [ridePlatform, Body.dt]
  · rw [hlx]
    norm_num [ridePlatform, examplePlatform]
  · rw [ride_first_tick]
    rfl
  · rw [ride_first_tick]
    norm_num [rideGameOne, ridePlatform, examplePlatform]
  · rw [ride_first_tick]
    norm_num [rideGameOne, rideGame, Body.dt]

/-- Witness for C8, amended: two ticks of the carry example with no key held. In
both the player is integrated with vx = 4.95 and keeps landedIndex = 0, the platform
moving on at vx = 5. -/
theorem carry_run_witness :
    rideGame.landedIndex = ((0 : Nat) : Int) ∧ rideGame.grounded = true ∧
    (gameTick (inputFrame (rideInputs 0)) (runTicks rideInputs 0 rideGame)).thePlayer.xPrime
      = 99 / 100 * 5 + (runTicks rideInputs 0 rideGame).thePlayer.xPrimePrime * Body.dt ∧
    (runTicks rideInputs 1 rideGame).landedIndex = ((0 : Nat) : Int) ∧
    (playerMovement (rideInputs 1).before (rideInputs 1).leftPressed (rideInputs 1).rightPressed
      (rideInputs 1).c (runTicks rideInputs 1 rideGame)).thePlayer.xPrime = 99 / 100 * 5 ∧
    (runTicks rideInputs 2 rideGame).landedIndex = ((0 : Nat) : Int) ∧
    (runTicks rideInputs 2 rideGame).grounded = true := by
  have h0 : runTicks rideInputs 0 rideGame = rideGame := rfl
  have h1 : runTicks rideInputs 1 rideGame = rideGameOne := by
    rw [runTicks_succ, h0, if_neg (by simp [rideGame]), ride_first_tick]
  have hsurf : ∀ k, k < 2 → ∃ s, (rideInputs k).before.surfaceRenderQueue.get? 0 = some s ∧
      s.xPrime = 5 ∧ s.yPrime = 0 := by
    intro k _
    exact ⟨ridePlatform k, rfl, rfl, rfl⟩
  have hneutral : ∀ k, k < 2 → (rideInputs k).leftPressed = (rideInputs k).rightPressed := by
    intro k _
    rfl
  have hnocoll : ∀ k, k < 2 → NoCollision (rideInputs k).world
      (beginTick (inputFrame (rideInputs k)) (runTicks rideInputs k rideGame)) := by
    intro k hk
    interval_cases k
    · rw [h0]; exact ride_first_noCollision
    · rw [h1]; exact ride_second_noCollision
  have hwithin : ∀ k, k < 2 →
      WithinBorders (atRefresh (inputFrame (rideInputs k)) (runTicks rideInputs k rideGame)) := by
    intro k hk
    interval_cases k
    · rw [h0]; exact ride_first_within
    · rw [h1]; exact ride_second_within
  have h := (carry_run rideInputs 0 rideGame 2 rfl rfl hsurf hneutral hnocoll hwithin).1
  exact ⟨rfl, rfl, (h 0 (by norm_num)).2.2.1, (h 0 (by norm_num)).2.2.2.2.1,
    (h 1 (by norm_num)).1, (h 1 (by norm_num)).2.2.2.2.1, (h 1 (by norm_num)).2.2.2.2.2⟩

/-! ### Damage: the invulnerability window and the void -/

theorem SameDamageState.refl (g : Game) : SameDamageState g g :=
  ⟨rfl, rfl, rfl, rfl, rfl⟩

theorem SameDamageState.trans {g1 g2 g3 : Game} (h12 : SameDamageState g1 g2)
    (h23 : SameDamageState g2 g3) : SameDamageState g1 g3 := by
  obtain ⟨a1, a2, a3, a4, a5⟩ := h12
  obtain ⟨b1, b2, b3, b4, b5⟩ := h23
  exact ⟨b1.trans a1, b2.trans a2, b3.trans a3, b4.trans a4, b5.trans a5⟩

theorem beginTick_same (f : Frame) (g : Game) : SameDamageState g (beginTick f g) :=
  ⟨rfl, rfl, rfl, rfl, rfl⟩

theorem bodyStep_same (w : World) (i : Nat) (b : Body) (g : Game) :
    SameDamageState g (bodyStep w i b g) := by
  unfold bodyStep
  dsimp only
  split_ifs <;> exact ⟨rfl, rfl, rfl, rfl, rfl⟩

theorem bodyLoopFrom_same (w : World) (l : List Body) :
    ∀ (i : Nat) (g : Game), SameDamageState g (bodyLoopFrom w i l g) := by
  induction l with
  | nil => intro i g; exact SameDamageState.refl g
  | cons b rest ih =>
    intro i g
    exact (bodyStep_same w i b g).trans (ih (i + 1) _)

theorem surfaceResolve_same (w : World) (i : Nat) (s : Surface) (g : Game) :
    SameDamageState g (surfaceResolve w i s g) := by
  unfold surfaceResolve
  dsimp only
  split_ifs <;> exact ⟨rfl, rfl, rfl, rfl, rfl⟩

theorem surfaceDamage_of_iFrame (s : Surface) (g : Game) (h : g.iFrame = true) :
    surfaceDamage s g = g := by
  simp [surfaceDamage, h]

theorem surfaceStep_of_iFrame (w : World) (i : Nat) (s : Surface) (g : Game)
    (h : g.iFrame = true) : SameDamageState g (surfaceStep w i s g) := by
  unfold surfaceStep
  rw [surfaceDamage_of_iFrame s g h]
  exact surfaceResolve_same w i s g

theorem surfaceLoopFrom_of_iFrame (w : World) (l : List Surface) :
    ∀ (i : Nat) (g : Game), g.iFrame = true →
      SameDamageState g (surfaceLoopFrom w i l g) := by
  induction l with
  | nil => intro i g _; exact SameDamageState.refl g
  | cons s rest ih =>
    intro i g h
    have h1 := surfaceStep_of_iFrame w i s g h
    exact h1.trans (ih (i + 1) _ (h1.2.1.trans h))

theorem surfaceStep_hit (w : World) (i : Nat) (s : Surface) (g : Game)
    (hif : g.iFrame = false) (hd : 0 < s.getDamage)
    (hov : sdlCollided g.thePlayer.toEntity s.toEntity = true) :
    (surfaceStep w i s g).HP = g.HP - s.getDamage ∧
    (surfaceStep w i s g).iFrame = true ∧
    (surfaceStep w i s g).timer = g.timer ∧
    (surfaceStep w i s g).targetTime0 = g.timer + 2500 ∧
    (surfaceStep w i s g).playerDied = g.playerDied := by
  have hdmg : surfaceDamage s g =
      { g with HP := g.HP - s.getDamage, iFrame := true, targetTime0 := g.timer + 2500 } := by
    simp [surfaceDamage, hif, hd, hov]
  obtain ⟨a1, a2, a3, a4, a5⟩ := surfaceResolve_same w i s (surfaceDamage s g)
  unfold surfaceStep
  rw [a1, a2, a3, a4, a5, hdmg]
  exact ⟨rfl, rfl, rfl, rfl, rfl⟩

theorem surfaceStep_iFrame_false (w : World) (i : Nat) (s : Surface) (g : Game)
    (h : (surfaceStep w i s g).iFrame = false) : SameDamageState g (surfaceStep w i s g) := by
  have hres := surfaceResolve_same w i s (surfaceDamage s g)
  have hd : (surfaceDamage s g).iFrame = false := by
    rw [← hres.2.1]; exact h
  have hid : surfaceDamage s g = g := by
    by_cases hc : s.getDamage > 0 ∧ sdlCollided g.thePlayer.toEntity s.toEntity = true
        ∧ ¬ g.iFrame = true
    · simp [surfaceDamage, hc] at hd
    · unfold surfaceDamage
      rw [if_neg hc]
  unfold surfaceStep
  rw [hid]
  exact surfaceResolve_same w i s g

theorem surfaceLoopFrom_iFrame_false (w : World) (l : List Surface) :
    ∀ (i : Nat) (g : Game), (surfaceLoopFrom w i l g).iFrame = false →
      SameDamageState g (surfaceLoopFrom w i l g) := by
  induction l with
  | nil => intro i g _; exact SameDamageState.refl g
  | cons s rest ih =>
    intro i g h
    have h2 := ih (i + 1) (surfaceStep w i s g) h
    have h1 : (surfaceStep w i s g).iFrame = false := by
      rw [← h2.2.1]; exact h
    exact (surfaceStep_iFrame_false w i s g h1).trans h2

theorem surfaceLoopFrom_append (w : World) (l1 l2 : List Surface) :
    ∀ (i : Nat) (g : Game),
      surfaceLoopFrom w i (l1 ++ l2) g
        = surfaceLoopFrom w (i + l1.length) l2 (surfaceLoopFrom w i l1 g) := by
  induction l1 with
  | nil => intro i g; rfl
  | cons s rest ih =>
    intro i g
    show surfaceLoopFrom w (i + 1) (rest ++ l2) (surfaceStep w i s g) = _
    rw [ih (i + 1)]
    simp only [List.length_cons, surfaceLoopFrom]
    congr 1
    omega

theorem refreshBorders_same (w : World) (g : Game) :
    SameDamageState g (refreshBorders w g) := by
  unfold refreshBorders bordersFromSurface bordersFromBody
  split_ifs <;> (repeat' split) <;> exact ⟨rfl, rfl, rfl, rfl, rfl⟩

theorem invalidateGrounded_same (g : Game) : SameDamageState g (invalidateGrounded g) := by
  unfold invalidateGrounded invalidateVertical invalidateHorizontal
  split_ifs <;> exact ⟨rfl, rfl, rfl, rfl, rfl⟩

theorem beforeDeath_same (f : Frame) (g : Game) :
    SameDamageState (surfaceLoop f.world (bodyLoop f.world (beginTick f g)))
      (beforeDeath f g) := by
  unfold beforeDeath
  exact (refreshBorders_same f.world _).trans (invalidateGrounded_same _)

theorem bodyLoop_beginTick_same (f : Frame) (g : Game) :
    SameDamageState g (bodyLoop f.world (beginTick f g)) :=
  (beginTick_same f g).trans (bodyLoopFrom_same f.world _ 0 _)

/-- A tick that starts inside the invulnerability window changes neither the health
nor the flag, the timer or its target before the death test. -/
theorem beforeDeath_of_iFrame (f : Frame) (g : Game) (h : g.iFrame = true) :
    SameDamageState g (beforeDeath f g) := by
  have h1 := bodyLoop_beginTick_same f g
  have h2 := surfaceLoopFrom_of_iFrame f.world f.world.surfaceRenderQueue 0
    (bodyLoop f.world (beginTick f g)) (h1.2.1.trans h)
  exact (h1.trans h2).trans (beforeDeath_same f g)

/-- What a tick that the player survives does to the damage state, in terms of the
state `beforeDeath` reached. -/
theorem gameTick_alive (f : Frame) (g : Game) (h : (gameTick f g).playerDied = false) :
    (gameTick f g).HP
      = (if (beforeDeath f g).thePlayer.y > 1000 then (beforeDeath f g).HP - 1
          else (beforeDeath f g).HP) ∧
    (gameTick f g).HP ≠ 0 ∧
    (gameTick f g).timer = (beforeDeath f g).timer + 1 ∧
    (gameTick f g).targetTime0 = (beforeDeath f g).targetTime0 ∧
    (gameTick f g).iFrame
      = (if (beforeDeath f g).timer = (beforeDeath f g).targetTime0 then false
          else (beforeDeath f g).iFrame) := by
  revert h
  unfold gameTick collisionPhase playerDeath timerHandling
  generalize beforeDeath f g = gb
  dsimp only
  split_ifs <;> simp_all

/-- What a tick in which the player dies leaves: the health is 0. -/
theorem gameTick_void (f : Frame) (g : Game) (hnd : (beforeDeath f g).playerDied = false)
    (hy : (beforeDeath f g).thePlayer.y > 1000) :
    (gameTick f g).HP = (beforeDeath f g).HP - 1 ∧
    ((gameTick f g).playerDied = true ↔ (beforeDeath f g).HP - 1 = 0) := by
  revert hnd hy
  unfold gameTick collisionPhase playerDeath timerHandling
  generalize beforeDeath f g = gb
  dsimp only
  intro hnd hy
  split_ifs <;> simp_all

/-- C9: let the surface loop of a tick with timer value t reach, not yet invulnerable,
a surface `s` with positive damage that overlaps the player. Then that iteration
subtracts the damage of `s` from HP, sets iFrame and sets targetTime[0] = t + 2500;
the rest of the same loop takes nothing more, whatever surfaces follow; and at every
later tick up to timer value t + 2500 (which covers the window [t, t + 2500)) that
the player lives to see, iFrame is still set and the surface loop leaves HP as it
is. If moreover no void damage falls in between, HP is still the former HP minus the
damage of `s`: the damage is taken exactly once. -/
theorem damage_cooldown (frames : Nat → Frame) (g0 : Game) (l1 l2 : List Surface)
    (s : Surface)
    (hq : (frames 0).world.surfaceRenderQueue = l1 ++ s :: l2)
    (hif : (reachSurface (frames 0) l1 g0).iFrame = false)
    (hd : 0 < s.getDamage)
    (hov : sdlCollided (reachSurface (frames 0) l1 g0).thePlayer.toEntity s.toEntity = true) :
    (surfaceStep (frames 0).world l1.length s (reachSurface (frames 0) l1 g0)).HP
      = g0.HP - s.getDamage ∧
    (surfaceStep (frames 0).world l1.length s (reachSurface (frames 0) l1 g0)).iFrame = true ∧
    (surfaceStep (frames 0).world l1.length s (reachSurface (frames 0) l1 g0)).targetTime0
      = g0.timer + 2500 ∧
    (surfaceLoop (frames 0).world (bodyLoop (frames 0).world (beginTick (frames 0) g0))).HP
      = g0.HP - s.getDamage ∧
    ∀ n : Nat, 1 ≤ n → n ≤ 2500 → (playTicks frames n g0).playerDied = false →
      (playTicks frames n g0).timer = g0.timer + n ∧
      (playTicks frames n g0).iFrame = true ∧
      (playTicks frames n g0).targetTime0 = g0.timer + 2500 ∧
      (surfaceLoop (frames n).world
        (bodyLoop (frames n).world (beginTick (frames n) (playTicks frames n g0)))).HP
        = (playTicks frames n g0).HP ∧
      ((∀ k : Nat, k < n →
          (beforeDeath (frames k) (playTicks frames k g0)).thePlayer.y ≤ 1000) →
        (playTicks frames n g0).HP = g0.HP - s.getDamage) := by
  -- the state in which the loop reaches `s`
  have hA := bodyLoop_beginTick_same (frames 0) g0
  have hB := surfaceLoopFrom_iFrame_false (frames 0).world l1 0
    (bodyLoop (frames 0).world (beginTick (frames 0) g0)) hif
  have hgs : SameDamageState g0 (reachSurface (frames 0) l1 g0) := hA.trans hB
  obtain ⟨hHP, hIF, hT, hTT, hPD⟩ :=
    surfaceStep_hit (frames 0).world l1.length s (reachSurface (frames 0) l1 g0) hif hd hov
  -- the rest of the loop of the same tick
  have hloop : surfaceLoop (frames 0).world (bodyLoop (frames 0).world (beginTick (frames 0) g0))
      = surfaceLoopFrom (frames 0).world (l1.length + 1) l2
          (surfaceStep (frames 0).world l1.length s (reachSurface (frames 0) l1 g0)) := by
    unfold surfaceLoop reachSurface
    rw [hq, surfaceLoopFrom_append, Nat.zero_add]
    rfl
  have hrest := surfaceLoopFrom_of_iFrame (frames 0).world l2 (l1.length + 1) _ hIF
  rw [← hloop] at hrest
  have hbd := hrest.trans (beforeDeath_same (frames 0) g0)
  have hbdHP : (beforeDeath (frames 0) g0).HP = g0.HP - s.getDamage := by
    rw [hbd.1, hHP, hgs.1]
  have hbdT : (beforeDeath (frames 0) g0).timer = g0.timer := by
    rw [hbd.2.2.1, hT, hgs.2.2.1]
  have hbdTT : (beforeDeath (frames 0) g0).targetTime0 = g0.timer + 2500 := by
    rw [hbd.2.2.2.1, hTT, hgs.2.2.1]
  have hbdIF : (beforeDeath (frames 0) g0).iFrame = true := by
    rw [hbd.2.1, hIF]
  refine ⟨by rw [hHP, hgs.1], hIF, by rw [hTT, hgs.2.2.1], by rw [hrest.1, hHP, hgs.1], ?_⟩
  -- the window, by induction on the number of ticks
  have key : ∀ n : Nat, 1 ≤ n → n ≤ 2500 → (playTicks frames n g0).playerDied = false →
      (playTicks frames n g0).timer = g0.timer + n ∧
      (playTicks frames n g0).iFrame = true ∧
      (playTicks frames n g0).targetTime0 = g0.timer + 2500 ∧
      ((∀ k : Nat, k < n →
          (beforeDeath (frames k) (playTicks frames k g0)).thePlayer.y ≤ 1000) →
        (playTicks frames n g0).HP = g0.HP - s.getDamage) := by
    intro n hn
    induction n, hn using Nat.le_induction with
    | base =>
      intro _ halive
      have hstep : playTicks frames 1 g0
          = if g0.playerDied = true then g0 else gameTick (frames 0) g0 := rfl
      by_cases hdead : g0.playerDied = true
      · rw [hstep, if_pos hdead] at halive
        rw [hdead] at halive
        exact absurd halive (by simp)
      · rw [hstep, if_neg hdead] at halive ⊢
        obtain ⟨aHP, -, aT, aTT, aIF⟩ := gameTick_alive (frames 0) g0 halive
        refine ⟨?_, ?_, ?_, ?_⟩
        · rw [aT, hbdT]; norm_num
        · rw [aIF, hbdT, hbdTT, hbdIF]; simp
        · rw [aTT, hbdTT]
        · intro hvoid
          have h0 : (beforeDeath (frames 0) g0).thePlayer.y ≤ 1000 := hvoid 0 (by norm_num)
          rw [aHP, if_neg (not_lt.mpr h0), hbdHP]
    | succ n hn ih =>
      intro hle halive
      have hstep : playTicks frames (n + 1) g0
          = if (playTicks frames n g0).playerDied = true then playTicks frames n g0
            else gameTick (frames n) (playTicks frames n g0) := rfl
      by_cases hdead : (playTicks frames n g0).playerDied = true
      · rw [hstep, if_pos hdead] at halive
        rw [hdead] at halive
        exact absurd halive (by simp)
      · obtain ⟨iT, iIF, iTT, iHP⟩ := ih (by omega) (by simpa using hdead)
        have hsame := beforeDeath_of_iFrame (frames n) (playTicks frames n g0) iIF
        rw [hstep, if_neg hdead] at halive ⊢
        obtain ⟨aHP, -, aT, aTT, aIF⟩ := gameTick_alive (frames n) _ halive
        refine ⟨?_, ?_, ?_, ?_⟩
        · rw [aT, hsame.2.2.1, iT]; push_cast; ring
        · rw [aIF, hsame.2.2.1, hsame.2.2.2.1, hsame.2.1, iT, iTT, iIF]
          have hne : ¬ (g0.timer + (n : Int) = g0.timer + 2500) := by omega
          simp [hne]
        · rw [aTT, hsame.2.2.2.1, iTT]
        · intro hvoid
          have hn0 := hvoid n (by omega)
          rw [aHP, if_neg (not_lt.mpr hn0), hsame.1]
          exact iHP (fun k hk => hvoid k (by omega))
  intro n hn hle halive
  obtain ⟨kT, kIF, kTT, kHP⟩ := key n hn hle halive
  have h1 := bodyLoop_beginTick_same (frames n) (playTicks frames n g0)
  have h2 := surfaceLoopFrom_of_iFrame (frames n).world (frames n).world.surfaceRenderQueue 0
    (bodyLoop (frames n).world (beginTick (frames n) (playTicks frames n g0)))
    (h1.2.1.trans kIF)
  exact ⟨kT, kIF, kTT, (h1.trans h2).1, kHP⟩

/-- Witness for C9: in a queue with two harmful surfaces that both overlap the
player, the first tick takes 1 (the damage of the first) and not 2 more; two ticks
later HP is still 2 and the player is still invulnerable. -/
theorem damage_cooldown_witness :
    (surfaceLoop (spikeFrames 0).world
      (bodyLoop (spikeFrames 0).world (beginTick (spikeFrames 0) exampleGame))).HP = 2 ∧
    (playTicks spikeFrames 2 exampleGame).playerDied = false ∧
    (playTicks spikeFrames 2 exampleGame).iFrame = true ∧
    (playTicks spikeFrames 2 exampleGame).timer = 2 ∧
    (playTicks spikeFrames 2 exampleGame).HP = 2 := by
  have hov : sdlCollided examplePlayer.toEntity spikeA.toEntity = true := by
    norm_num [sdlCollided, SDL_HasIntersection, fullRect, truncToInt, examplePlayer, spikeA]
  have h := damage_cooldown spikeFrames exampleGame [] [spikeB] spikeA rfl rfl
    (by decide) hov
  have e0 : beforeDeath (spikeFrames 0) exampleGame
      = { exampleGame with HP := 2, iFrame := true, targetTime0 := 2500 } := by
    norm_num [beforeDeath, surfaceLoop, surfaceLoopFrom, surfaceStep, surfaceDamage,
      surfaceResolve, Surface.isSolid, bodyLoop, bodyLoopFrom, beginTick, spikeFrames,
      refreshBorders, invalidateGrounded, invalidateVertical, invalidateHorizontal,
      sdlCollided, SDL_HasIntersection, fullRect, truncToInt, exampleGame, examplePlayer,
      spikeA, spikeB, Surface.getDamage]
  have e1 : playTicks spikeFrames 1 exampleGame
      = { exampleGame with HP := 2, iFrame := true, targetTime0 := 2500, timer := 1 } := by
    show (if exampleGame.playerDied = true then exampleGame
      else gameTick (spikeFrames 0) exampleGame) = _
    rw [if_neg (by decide)]
    unfold gameTick collisionPhase
    rw [e0]
    norm_num [playerDeath, timerHandling, exampleGame, examplePlayer]
  have e1b : beforeDeath (spikeFrames 1) (playTicks spikeFrames 1 exampleGame)
      = { exampleGame with HP := 2, iFrame := true, targetTime0 := 2500, timer := 1 } := by
    rw [e1]
    norm_num [beforeDeath, surfaceLoop, surfaceLoopFrom, surfaceStep, surfaceDamage,
      surfaceResolve, Surface.isSolid, bodyLoop, bodyLoopFrom, beginTick, spikeFrames,
      refreshBorders, invalidateGrounded, invalidateVertical, invalidateHorizontal,
      sdlCollided, SDL_HasIntersection, fullRect, truncToInt, exampleGame, examplePlayer,
      spikeA, spikeB, Surface.getDamage]
  have e2 : playTicks spikeFrames 2 exampleGame
      = { exampleGame with HP := 2, iFrame := true, targetTime0 := 2500, timer := 2 } := by
    show (if (playTicks spikeFrames 1 exampleGame).playerDied = true
      then playTicks spikeFrames 1 exampleGame
      else gameTick (spikeFrames 1) (playTicks spikeFrames 1 exampleGame)) = _
    rw [if_neg (by rw [e1]; decide)]
    unfold gameTick collisionPhase
    rw [e1b]
    norm_num [playerDeath, timerHandling, exampleGame, examplePlayer]
  have halive : (playTicks spikeFrames 2 exampleGame).playerDied = false := by
    rw [e2]; rfl
  obtain ⟨kT, kIF, -, -, kHP⟩ := h.2.2.2.2 2 (by norm_num) (by norm_num) halive
  have hnovoid : ∀ k : Nat, k < 2 →
      (beforeDeath (spikeFrames k) (playTicks spikeFrames k exampleGame)).thePlayer.y
        ≤ 1000 := by
    intro k hk
    interval_cases k
    · show (beforeDeath (spikeFrames 0) exampleGame).thePlayer.y ≤ 1000
      rw [e0]; norm_num [exampleGame, examplePlayer]
    · rw [e1b]; norm_num [exampleGame, examplePlayer]
  refine ⟨?_, halive, kIF, ?_, ?_⟩
  · rw [h.2.2.2.1]; rfl
  · rw [kT]; rfl
  · rw [kHP hnovoid]; rfl

theorem surfaceStep_playerDied (w : World) (i : Nat) (s : Surface) (g : Game) :
    (surfaceStep w i s g).playerDied = g.playerDied := by
  unfold surfaceStep
  rw [(surfaceResolve_same w i s _).2.2.2.2]
  unfold surfaceDamage
  split_ifs <;> rfl

theorem surfaceLoopFrom_playerDied (w : World) (l : List Surface) :
    ∀ (i : Nat) (g : Game), (surfaceLoopFrom w i l g).playerDied = g.playerDied := by
  induction l with
  | nil => intro i g; rfl
  | cons s rest ih =>
    intro i g
    exact (ih (i + 1) _).trans (surfaceStep_playerDied w i s g)

theorem beforeDeath_playerDied (f : Frame) (g : Game) :
    (beforeDeath f g).playerDied = g.playerDied := by
  rw [(beforeDeath_same f g).2.2.2.2]
  unfold surfaceLoop
  rw [surfaceLoopFrom_playerDied, (bodyLoop_beginTick_same f g).2.2.2.2]

/-- C10: let the player start with HP = h >= 1 and not dead, and let every tick find
it below the world (y > 1000 at the death test) with no surface damage taken in that
tick. Then each tick reduces HP by exactly 1 (HP = h - n after n <= h ticks), and
playerDied is raised after exactly h ticks, the tick in which HP becomes 0, and in
no earlier tick. -/
theorem void_damage (frames : Nat → Frame) (g0 : Game)
    (hHP : 1 ≤ g0.HP) (hnd : g0.playerDied = false)
    (hvoid : ∀ k : Nat, (k : Int) < g0.HP →
      (beforeDeath (frames k) (playTicks frames k g0)).thePlayer.y > 1000 ∧
      (beforeDeath (frames k) (playTicks frames k g0)).HP = (playTicks frames k g0).HP) :
    ∀ n : Nat, (n : Int) ≤ g0.HP →
      (playTicks frames n g0).HP = g0.HP - n ∧
      ((playTicks frames n g0).playerDied = true ↔ (n : Int) = g0.HP) ∧
      ((n : Int) < g0.HP →
        (playTicks frames (n + 1) g0).HP = (playTicks frames n g0).HP - 1) := by
  have key : ∀ n : Nat, (n : Int) ≤ g0.HP →
      (playTicks frames n g0).HP = g0.HP - n ∧
      ((playTicks frames n g0).playerDied = true ↔ (n : Int) = g0.HP) := by
    intro n
    induction n with
    | zero =>
      intro _
      refine ⟨by simp [playTicks], ?_⟩
      show g0.playerDied = true ↔ ((0 : Nat) : Int) = g0.HP
      rw [hnd]
      constructor
      · intro h; exact absurd h (by simp)
      · intro h; push_cast at h; omega
    | succ n ih =>
      intro hle
      have hlt : (n : Int) < g0.HP := by push_cast at hle; omega
      obtain ⟨iHP, iD⟩ := ih (by omega)
      have halive : ¬ (playTicks frames n g0).playerDied = true := by
        rw [iD]; omega
      have hstep : playTicks frames (n + 1) g0
          = gameTick (frames n) (playTicks frames n g0) := by
        show (if (playTicks frames n g0).playerDied = true then playTicks frames n g0
          else gameTick (frames n) (playTicks frames n g0)) = _
        rw [if_neg halive]
      obtain ⟨hy, hsame⟩ := hvoid n hlt
      have hbd : (beforeDeath (frames n) (playTicks frames n g0)).playerDied = false := by
        rw [beforeDeath_playerDied]; simpa using halive
      obtain ⟨vHP, vD⟩ := gameTick_void (frames n) _ hbd hy
      rw [hstep, vHP, vD, hsame, iHP]
      push_cast
      constructor
      · ring
      · constructor <;> intro h <;> omega
  intro n hle
  obtain ⟨kHP, kD⟩ := key n hle
  refine ⟨kHP, kD, ?_⟩
  intro hlt
  rw [(key (n + 1) (by push_cast; omega)).1, kHP]
  push_cast
  ring

/-- Witness for C10: `fallenGame` has HP = 1 and is alive after one tick, and has
HP = 0 and is dead after two. -/
theorem void_damage_witness :
    (playTicks (fun _ => {}) 1 fallenGame).HP = 1 ∧
    ¬ (playTicks (fun _ => {}) 1 fallenGame).playerDied = true ∧
    (playTicks (fun _ => {}) 2 fallenGame).HP = 0 ∧
    (playTicks (fun _ => {}) 2 fallenGame).playerDied = true := by
  have b0 : ∀ g : Game, beforeDeath {} g = invalidateGrounded (refreshBorders {} g) := by
    intro g; rfl
  have e0 : beforeDeath {} fallenGame = fallenGame := by
    rw [b0]
    norm_num [refreshBorders, invalidateGrounded, invalidateVertical, invalidateHorizontal,
      fallenGame]
  have e1 : playTicks (fun _ => {}) 1 fallenGame = { fallenGame with HP := 1, timer := 1 } := by
    show (if fallenGame.playerDied = true then fallenGame else gameTick {} fallenGame) = _
    rw [if_neg (by decide)]
    unfold gameTick collisionPhase
    rw [e0]
    norm_num [playerDeath, timerHandling, fallenGame]
  have e1b : beforeDeath {} (playTicks (fun _ => {}) 1 fallenGame)
      = { fallenGame with HP := 1, timer := 1 } := by
    rw [e1, b0]
    norm_num [refreshBorders, invalidateGrounded, invalidateVertical, invalidateHorizontal,
      fallenGame]
  have h := void_damage (fun _ => {}) fallenGame (by decide) rfl (by
    intro k hk
    have hk2 : k < 2 := by
      have : (k : Int) < 2 := hk
      omega
    interval_cases k
    · show (beforeDeath {} fallenGame).thePlayer.y > 1000 ∧
        (beforeDeath {} fallenGame).HP = fallenGame.HP
      rw [e0]; norm_num [fallenGame]
    · show (beforeDeath {} (playTicks (fun _ => {}) 1 fallenGame)).thePlayer.y > 1000 ∧
        (beforeDeath {} (playTicks (fun _ => {}) 1 fallenGame)).HP
          = (playTicks (fun _ => {}) 1 fallenGame).HP
      rw [e1b, e1]; norm_num [fallenGame])
  have h1 := h 1 (by decide)
  have h2 := h 2 (by decide)
  refine ⟨?_, ?_, ?_, ?_⟩
  · rw [h1.1]; rfl
  · rw [h1.2.1]; decide
  · rw [h2.1]; rfl
  · rw [h2.2.1]; rfl


/-! ### The Lorentz factor -/

theorem speed_of_light_pos : 0 < SPEED_OF_LIGHT := by
  unfold SPEED_OF_LIGHT
  norm_num

/-- The radicand of `lorentzFactor` when the relative speed is below `c`: it lies
in (0, 1], and is 1 only for relative velocity 0. -/
theorem lorentz_radicand (v : ℝ) (h : |v| < SPEED_OF_LIGHT) :
    0 < 1 - (v * v) / (SPEED_OF_LIGHT * SPEED_OF_LIGHT) ∧
    1 - (v * v) / (SPEED_OF_LIGHT * SPEED_OF_LIGHT) ≤ 1 ∧
    (1 - (v * v) / (SPEED_OF_LIGHT * SPEED_OF_LIGHT) = 1 ↔ v = 0) := by
  have hc := speed_of_light_pos
  have hcc : 0 < SPEED_OF_LIGHT * SPEED_OF_LIGHT := mul_pos hc hc
  have hvv : v * v < SPEED_OF_LIGHT * SPEED_OF_LIGHT := by
    have := mul_self_lt_mul_self (abs_nonneg v) h
    rwa [abs_mul_abs_self] at this
  have hq : (v * v) / (SPEED_OF_LIGHT * SPEED_OF_LIGHT) < 1 := (div_lt_one hcc).mpr hvv
  have hq0 : 0 ≤ (v * v) / (SPEED_OF_LIGHT * SPEED_OF_LIGHT) :=
    div_nonneg (mul_self_nonneg v) hcc.le
  refine ⟨by linarith, by linarith, ?_⟩
  constructor
  · intro h1
    have h2 : (v * v) / (SPEED_OF_LIGHT * SPEED_OF_LIGHT) = 0 := by linarith
    rcases (div_eq_zero_iff.mp h2) with h3 | h3
    · exact mul_self_eq_zero.mp h3
    · exact absurd h3 hcc.ne'
  · intro h1
    rw [h1]
    norm_num

/-- C11: over the reals, `lorentzFactor` of two frames with equal velocity is exactly
1, and `lorentzFactor` of two frames whose velocities differ by 0.6 c is exactly
1.25; so it is for the train at 0.7 c and the camera at 0.1 c that `main` starts
with. -/
theorem lorentzFactor_values :
    (∀ s sPrime : FrameOfReference, sPrime.velocity = s.velocity →
      lorentzFactor s sPrime = 1) ∧
    (∀ s sPrime : FrameOfReference,
      |sPrime.velocity - s.velocity| = 6 / 10 * SPEED_OF_LIGHT →
      lorentzFactor s sPrime = 5 / 4) ∧
    lorentzFactor train camera = 5 / 4 := by
  have hc := speed_of_light_pos
  have h06 : ∀ s sPrime : FrameOfReference,
      |sPrime.velocity - s.velocity| = 6 / 10 * SPEED_OF_LIGHT →
      lorentzFactor s sPrime = 5 / 4 := by
    intro s sPrime h
    have hvv : (sPrime.velocity - s.velocity) * (sPrime.velocity - s.velocity)
        = 36 / 100 * (SPEED_OF_LIGHT * SPEED_OF_LIGHT) := by
      rw [← abs_mul_abs_self, h]
      ring
    have hr : 1 - ((sPrime.velocity - s.velocity) * (sPrime.velocity - s.velocity))
        / (SPEED_OF_LIGHT * SPEED_OF_LIGHT) = (4 / 5 : ℝ) ^ 2 := by
      rw [hvv]
      field_simp
      ring
    unfold lorentzFactor
    dsimp only
    rw [hr, Real.sqrt_sq (by norm_num)]
    norm_num
  refine ⟨?_, h06, ?_⟩
  · intro s sPrime h
    unfold lorentzFactor
    dsimp only
    rw [h]
    simp
  · apply h06
    unfold train camera
    dsimp only
    rw [show 1 / 10 * SPEED_OF_LIGHT - 7 / 10 * SPEED_OF_LIGHT
      = -(6 / 10 * SPEED_OF_LIGHT) by ring, abs_neg]
    exact abs_of_pos (by positivity)

/-- Witness for C11: a frame against itself, and the camera against the train. -/
theorem lorentzFactor_values_witness :
    lorentzFactor train train = 1 ∧ lorentzFactor camera train = 5 / 4 := by
  refine ⟨lorentzFactor_values.1 train train rfl, lorentzFactor_values.2.1 camera train ?_⟩
  unfold train camera
  dsimp only
  rw [show 7 / 10 * SPEED_OF_LIGHT - 1 / 10 * SPEED_OF_LIGHT
    = 6 / 10 * SPEED_OF_LIGHT by ring]
  exact abs_of_pos (mul_pos (by norm_num) speed_of_light_pos)

theorem roundF32_of_bounds (q : ℚ) (e : Int) (h1 : (2 : ℚ) ^ e ≤ |q|)
    (h2 : |q| < (2 : ℚ) ^ (e + 1)) :
    roundF32 q = roundHalfEven (q / (2 : ℚ) ^ (e - 23)) * (2 : ℚ) ^ (e - 23) := by
  have hpos : 0 < |q| := lt_of_lt_of_le (by positivity) h1
  have hq : q ≠ 0 := by
    intro h
    rw [h] at hpos
    simp at hpos
  have hle : e ≤ Int.log 2 |q| :=
    (Int.zpow_le_iff_le_log (by norm_num) hpos).mp (by exact_mod_cast h1)
  have hlt : Int.log 2 |q| < e + 1 :=
    (Int.lt_zpow_iff_log_lt (by norm_num) hpos).mp (by exact_mod_cast h2)
  have he : Int.log 2 |q| = e := by omega
  simp only [roundF32, hq, if_false, he]

/-- The `float` nearest to 299792458 is 299792448. -/
theorem roundF32_light : roundF32 299792458 = 299792448 := by
  rw [roundF32_of_bounds _ 28 (by norm_num [abs_of_pos]) (by norm_num [abs_of_pos])]
  norm_num [roundHalfEven]

theorem roundF32_one : roundF32 1 = 1 := by
  rw [roundF32_of_bounds _ 0 (by norm_num) (by norm_num)]
  norm_num [roundHalfEven]

theorem roundHalfEven_le (q : ℚ) (N : Int) (h : q ≤ (N : ℚ)) : roundHalfEven q ≤ N := by
  have hfl : ⌊q⌋ ≤ N := by
    have : ((⌊q⌋ : Int) : ℚ) ≤ (N : ℚ) := le_trans (Int.floor_le q) h
    exact_mod_cast this
  unfold roundHalfEven
  dsimp only
  have hstep : ¬ (q - (⌊q⌋ : ℚ) < 1 / 2) → ⌊q⌋ + 1 ≤ N := by
    intro hr
    have h1 : ((⌊q⌋ : Int) : ℚ) < q := by linarith
    have h2 : ((⌊q⌋ : Int) : ℚ) < (N : ℚ) := lt_of_lt_of_le h1 h
    have h3 : ⌊q⌋ < N := by exact_mod_cast h2
    omega
  split_ifs with h1 h2 h3
  · exact hfl
  · exact hstep h1
  · exact hfl
  · exact hstep h1

theorem roundHalfEven_ge (q : ℚ) (N : Int) (h : (N : ℚ) ≤ q) : N ≤ roundHalfEven q := by
  have hfl : N ≤ ⌊q⌋ := Int.le_floor.mpr h
  unfold roundHalfEven
  dsimp only
  split_ifs <;> omega

theorem log_bounds (q : ℚ) (hq : 0 < q) :
    (2 : ℚ) ^ (Int.log 2 q) ≤ q ∧ q < (2 : ℚ) ^ (Int.log 2 q + 1) := by
  constructor
  · have := Int.zpow_log_le_self (b := 2) (by norm_num) hq
    exact_mod_cast this
  · have := Int.lt_zpow_succ_log_self (b := 2) (by norm_num) q
    exact_mod_cast this

theorem roundF32_pos_eq (q : ℚ) (hq : 0 < q) :
    roundF32 q = roundHalfEven (q / (2 : ℚ) ^ (Int.log 2 q - 23)) * (2 : ℚ) ^ (Int.log 2 q - 23) := by
  unfold roundF32
  rw [if_neg hq.ne', abs_of_pos hq]

theorem roundF32_nonneg (q : ℚ) (hq : 0 ≤ q) : 0 ≤ roundF32 q := by
  rcases hq.eq_or_lt with h | h
  · rw [← h]
    simp [roundF32]
  · rw [roundF32_pos_eq q h]
    have hu : (0 : ℚ) < (2 : ℚ) ^ (Int.log 2 q - 23) := by positivity
    have h0 : (0 : Int) ≤ roundHalfEven (q / (2 : ℚ) ^ (Int.log 2 q - 23)) := by
      apply roundHalfEven_ge
      have : 0 ≤ q / (2 : ℚ) ^ (Int.log 2 q - 23) := by positivity
      simpa using this
    have h1 : (0 : ℚ) ≤ (roundHalfEven (q / (2 : ℚ) ^ (Int.log 2 q - 23)) : ℚ) := by
      exact_mod_cast h0
    positivity

/-- Rounding to `float` does not pass a positive `float`: what is at most `b` rounds
to at most `b`. -/
theorem roundF32_le_of_float (q b : ℚ) (hb : roundF32 b = b) (hbpos : 0 < b) (hqpos : 0 < q)
    (h : q ≤ b) : roundF32 q ≤ b := by
  have hmono : Int.log 2 q ≤ Int.log 2 b := Int.log_mono_right hqpos h
  obtain ⟨n, hn⟩ := Int.eq_ofNat_of_zero_le (sub_nonneg.mpr hmono)
  have hub : (2 : ℚ) ^ (Int.log 2 b - 23) = (2 : ℚ) ^ (Int.log 2 q - 23) * ((2 ^ n : Int) : ℚ) := by
    have he : Int.log 2 b - 23 = (Int.log 2 q - 23) + (n : Int) := by omega
    rw [he, zpow_add₀ (by norm_num), zpow_natCast]
    push_cast
    rfl
  have hbeq := roundF32_pos_eq b hbpos
  rw [hb] at hbeq
  generalize roundHalfEven (b / (2 : ℚ) ^ (Int.log 2 b - 23)) = N at hbeq
  rw [hub] at hbeq
  rw [roundF32_pos_eq q hqpos]
  have hu : (0 : ℚ) < (2 : ℚ) ^ (Int.log 2 q - 23) := by positivity
  have hbN : b = ((N * 2 ^ n : Int) : ℚ) * (2 : ℚ) ^ (Int.log 2 q - 23) := by
    push_cast at hbeq ⊢
    linarith
  have hle : roundHalfEven (q / (2 : ℚ) ^ (Int.log 2 q - 23)) ≤ N * 2 ^ n := by
    apply roundHalfEven_le
    rw [div_le_iff₀ hu, ← hbN]
    exact h
  have hle2 : (roundHalfEven (q / (2 : ℚ) ^ (Int.log 2 q - 23)) : ℚ)
      ≤ ((N * 2 ^ n : Int) : ℚ) := by
    exact_mod_cast hle
  calc (roundHalfEven (q / (2 : ℚ) ^ (Int.log 2 q - 23)) : ℚ) * (2 : ℚ) ^ (Int.log 2 q - 23)
      ≤ ((N * 2 ^ n : Int) : ℚ) * (2 : ℚ) ^ (Int.log 2 q - 23) :=
        mul_le_mul_of_nonneg_right hle2 hu.le
    _ = b := hbN.symm

theorem roundF32_nonpos (q : ℚ) (hq : q ≤ 0) : roundF32 q ≤ 0 := by
  rcases hq.eq_or_lt with h | h
  · rw [h]
    simp [roundF32]
  · unfold roundF32
    rw [if_neg h.ne]
    dsimp only
    have hu : (0 : ℚ) < (2 : ℚ) ^ (Int.log 2 |q| - 23) := by positivity
    have h0 : roundHalfEven (q / (2 : ℚ) ^ (Int.log 2 |q| - 23)) ≤ (0 : Int) := by
      apply roundHalfEven_le
      have : q / (2 : ℚ) ^ (Int.log 2 |q| - 23) ≤ 0 :=
        div_nonpos_of_nonpos_of_nonneg h.le hu.le
      simpa using this
    have h1 : (roundHalfEven (q / (2 : ℚ) ^ (Int.log 2 |q| - 23)) : ℚ) ≤ 0 := by
      exact_mod_cast h0
    exact mul_nonpos_of_nonpos_of_nonneg h1 hu.le

theorem two_pow_shift (e : Int) :
    ((2 ^ 23 : Int) : ℚ) * (2 : ℚ) ^ (e - 23) = (2 : ℚ) ^ e := by
  have h : (2 : ℚ) ^ e = (2 : ℚ) ^ (e - 23) * (2 : ℚ) ^ (23 : Int) := by
    rw [← zpow_add₀ (by norm_num)]
    congr 1
    ring
  rw [h]
  norm_num
  ring

/-- Rounding to `float` does not pass a positive `float`: what is at least `b` rounds
to at least `b`. -/
theorem roundF32_ge_of_float (q b : ℚ) (hb : roundF32 b = b) (hbpos : 0 < b)
    (h : b ≤ q) : b ≤ roundF32 q := by
  have hqpos : 0 < q := lt_of_lt_of_le hbpos h
  have hmono : Int.log 2 b ≤ Int.log 2 q := Int.log_mono_right hbpos h
  have hu : (0 : ℚ) < (2 : ℚ) ^ (Int.log 2 q - 23) := by positivity
  rw [roundF32_pos_eq q hqpos]
  rcases hmono.eq_or_lt with he | he
  · have hbeq := roundF32_pos_eq b hbpos
    rw [hb, he] at hbeq
    generalize roundHalfEven (b / (2 : ℚ) ^ (Int.log 2 q - 23)) = N at hbeq
    have hN : N ≤ roundHalfEven (q / (2 : ℚ) ^ (Int.log 2 q - 23)) := by
      apply roundHalfEven_ge
      rw [le_div_iff₀ hu, ← hbeq]
      exact h
    have hN2 : (N : ℚ) ≤ (roundHalfEven (q / (2 : ℚ) ^ (Int.log 2 q - 23)) : ℚ) := by
      exact_mod_cast hN
    calc b = (N : ℚ) * (2 : ℚ) ^ (Int.log 2 q - 23) := hbeq
      _ ≤ _ := mul_le_mul_of_nonneg_right hN2 hu.le
  · have hq2 := (log_bounds q hqpos).1
    have hb2 := (log_bounds b hbpos).2
    have hN : ((2 ^ 23 : Int)) ≤ roundHalfEven (q / (2 : ℚ) ^ (Int.log 2 q - 23)) := by
      apply roundHalfEven_ge
      rw [le_div_iff₀ hu]
      rw [two_pow_shift]
      exact hq2
    have hN2 : ((2 ^ 23 : Int) : ℚ) ≤ (roundHalfEven (q / (2 : ℚ) ^ (Int.log 2 q - 23)) : ℚ) := by
      exact_mod_cast hN
    have hpow : (2 : ℚ) ^ (Int.log 2 b + 1) ≤ (2 : ℚ) ^ (Int.log 2 q) :=
      zpow_le_zpow_right₀ (by norm_num) (by omega)
    have h23 := two_pow_shift (Int.log 2 q)
    calc b ≤ (2 : ℚ) ^ (Int.log 2 q) := le_trans hb2.le hpow
      _ = ((2 ^ 23 : Int) : ℚ) * (2 : ℚ) ^ (Int.log 2 q - 23) := h23.symm
      _ ≤ _ := mul_le_mul_of_nonneg_right hN2 hu.le

theorem roundHalfEven_neg (q : ℚ) : roundHalfEven (-q) = -roundHalfEven q := by
  have hf1 := Int.floor_le q
  have hf2 := Int.lt_floor_add_one q
  by_cases hint : q = (⌊q⌋ : ℚ)
  · have hneg : ⌊-q⌋ = -⌊q⌋ := by
      rw [hint]
      rw [← Int.cast_neg, Int.floor_intCast, Int.floor_intCast]
    unfold roundHalfEven
    dsimp only
    rw [hneg]
    have h1 : -q - ((-⌊q⌋ : Int) : ℚ) = 0 := by
      push_cast
      linarith
    have h2 : q - ((⌊q⌋ : Int) : ℚ) = 0 := by linarith
    rw [h1, h2]
    norm_num
  · have hlt : ((⌊q⌋ : Int) : ℚ) < q := lt_of_le_of_ne hf1 (Ne.symm hint)
    have hneg : ⌊-q⌋ = -⌊q⌋ - 1 := by
      rw [Int.floor_eq_iff]
      push_cast
      constructor <;> linarith
    unfold roundHalfEven
    dsimp only
    rw [hneg]
    have h1 : -q - ((-⌊q⌋ - 1 : Int) : ℚ) = 1 - (q - ((⌊q⌋ : Int) : ℚ)) := by
      push_cast
      ring
    rw [h1]
    generalize q - ((⌊q⌋ : Int) : ℚ) = r
    generalize ⌊q⌋ = f
    split_ifs <;> first | omega | (exfalso; linarith)

theorem roundF32_neg (q : ℚ) : roundF32 (-q) = -roundF32 q := by
  unfold roundF32
  by_cases h : q = 0
  · simp [h]
  · have h2 : -q ≠ 0 := neg_ne_zero.mpr h
    rw [if_neg h, if_neg h2]
    dsimp only
    rw [abs_neg, neg_div, roundHalfEven_neg]
    push_cast
    ring

theorem roundF32_abs (q : ℚ) : roundF32 |q| = |roundF32 q| := by
  rcases le_total 0 q with h | h
  · rw [abs_of_nonneg h, abs_of_nonneg (roundF32_nonneg q h)]
  · rw [abs_of_nonpos h, abs_of_nonpos (roundF32_nonpos q h), roundF32_neg]

/-- The `float` 299792416 is the largest below the `float` value 299792448 of
`SPEED_OF_LIGHT`: a `float` whose absolute value is below the latter is at most the
former in absolute value. -/
theorem roundF32_below_light (q : ℚ) (h : |roundF32 q| < 299792448) :
    |roundF32 q| ≤ 299792416 := by
  rw [← roundF32_abs] at h ⊢
  have hp : 0 ≤ |q| := abs_nonneg q
  generalize |q| = p at h hp
  have hV : roundF32 299792416 = 299792416 := by
    rw [roundF32_of_bounds _ 28 (by norm_num [abs_of_pos]) (by norm_num [abs_of_pos])]
    norm_num [roundHalfEven]
  have hC : roundF32 299792448 = 299792448 := by
    rw [roundF32_of_bounds _ 28 (by norm_num [abs_of_pos]) (by norm_num [abs_of_pos])]
    norm_num [roundHalfEven]
  rcases hp.eq_or_lt with h0 | hpos
  · rw [← h0]
    norm_num [roundF32]
  · by_cases h1 : p ≤ 299792416
    · exact roundF32_le_of_float p 299792416 hV (by norm_num) hpos h1
    · have h1 : 299792416 < p := not_le.mp h1
      have h2 : p < 299792448 := by
        by_contra hc
        have := roundF32_ge_of_float p 299792448 hC (by norm_num) (not_lt.mp hc)
        linarith
      have hr := roundF32_of_bounds p 28 (by rw [abs_of_pos hpos]; norm_num; linarith)
        (by rw [abs_of_pos hpos]; norm_num; linarith)
      rw [hr] at h ⊢
      have hu : ((2 : ℚ) ^ ((28 : Int) - 23)) = 32 := by norm_num
      rw [hu] at h ⊢
      have hN : (roundHalfEven (p / 32) : ℚ) < 9368514 := by linarith
      have hN2 : roundHalfEven (p / 32) < 9368514 := by exact_mod_cast hN
      have hN3 : (roundHalfEven (p / 32) : ℚ) ≤ 9368513 := by
        have : roundHalfEven (p / 32) ≤ 9368513 := by omega
        exact_mod_cast this
      linarith

/-- In `float` arithmetic the argument of `sqrt` in `lorentzFactor` is at least 3/2^24
and at most 1 whenever the relative velocity is at most 299792416 in absolute
value. -/
theorem radicandF32_bounds (sVelocity sPrimeVelocity : ℚ)
    (h : |roundF32 (sPrimeVelocity - sVelocity)| ≤ 299792416) :
    3 / 16777216 ≤ radicandF32 sVelocity sPrimeVelocity ∧
    radicandF32 sVelocity sPrimeVelocity ≤ 1 := by
  unfold radicandF32
  dsimp only
  generalize roundF32 (sPrimeVelocity - sVelocity) = v at h
  rw [roundF32_light]
  have hcc : roundF32 (299792448 * 299792448) = 89875514973487104 := by
    rw [roundF32_of_bounds _ 56 (by norm_num [abs_of_pos]) (by norm_num [abs_of_pos])]
    norm_num [roundHalfEven]
  rw [hcc]
  have hB1 : roundF32 89875497793617920 = 89875497793617920 := by
    rw [roundF32_of_bounds _ 56 (by norm_num [abs_of_pos]) (by norm_num [abs_of_pos])]
    norm_num [roundHalfEven]
  have hQ : roundF32 (16777213 / 16777216) = 16777213 / 16777216 := by
    rw [roundF32_of_bounds _ (-1) (by norm_num [abs_of_pos]) (by norm_num [abs_of_pos])]
    norm_num [roundHalfEven]
  have h3 : roundF32 (3 / 16777216) = 3 / 16777216 := by
    rw [roundF32_of_bounds _ (-23) (by norm_num [abs_of_pos]) (by norm_num [abs_of_pos])]
    norm_num [roundHalfEven]
  have hvv0 : 0 ≤ v * v := mul_self_nonneg v
  have hvvV : v * v ≤ 89875497793617920 := by
    have h1 : v * v = |v| * |v| := (abs_mul_abs_self v).symm
    have h2 : |v| * |v| ≤ 299792416 * 299792416 :=
      mul_le_mul h h (abs_nonneg v) (by norm_num)
    rw [h1]
    linarith
  have hvv1 : 0 ≤ roundF32 (v * v) := roundF32_nonneg _ hvv0
  have hvv2 : roundF32 (v * v) ≤ 89875497793617920 := by
    rcases hvv0.eq_or_lt with h0 | hpos
    · rw [← h0]
      norm_num [roundF32]
    · exact roundF32_le_of_float _ _ hB1 (by norm_num) hpos hvvV
  generalize roundF32 (v * v) = vv at hvv1 hvv2
  have hr0 : 0 ≤ vv / 89875514973487104 := by positivity
  have hr1 : vv / 89875514973487104 ≤ 16777213 / 16777216 := by
    rw [div_le_iff₀ (by norm_num)]
    linarith
  have hq0 : 0 ≤ roundF32 (vv / 89875514973487104) := roundF32_nonneg _ hr0
  have hq1 : roundF32 (vv / 89875514973487104) ≤ 16777213 / 16777216 := by
    rcases hr0.eq_or_lt with h0 | hpos
    · rw [← h0]
      norm_num [roundF32]
    · exact roundF32_le_of_float _ _ hQ (by norm_num) hpos hr1
  generalize roundF32 (vv / 89875514973487104) = x at hq0 hq1
  constructor
  · exact roundF32_ge_of_float _ _ h3 (by norm_num) (by linarith)
  · exact roundF32_le_of_float _ _ roundF32_one (by norm_num) (by linarith) (by linarith)

/-- What lies between 1 - 2^-25 and 1 rounds to the `float` 1. -/
theorem roundF32_near_one (y : ℚ) (h1 : 1 - 1 / 33554432 ≤ y) (h2 : y ≤ 1) :
    roundF32 y = 1 := by
  rcases h2.eq_or_lt with h | h
  · rw [h]
    exact roundF32_one
  · have hpos : 0 < y := by linarith
    rw [roundF32_of_bounds y (-1) (by rw [abs_of_pos hpos]; norm_num; linarith)
      (by rw [abs_of_pos hpos]; norm_num; linarith)]
    have hu : ((2 : ℚ) ^ ((-1 : Int) - 23)) = 1 / 16777216 := by norm_num
    rw [hu]
    have hfl : ⌊y / (1 / 16777216)⌋ = 16777215 := by
      rw [Int.floor_eq_iff]
      constructor
      · rw [le_div_iff₀ (by norm_num)]
        push_cast
        linarith
      · rw [div_lt_iff₀ (by norm_num)]
        push_cast
        linarith
    have hr : roundHalfEven (y / (1 / 16777216)) = 16777216 := by
      unfold roundHalfEven
      dsimp only
      rw [hfl]
      have hfrac : ¬ (y / (1 / 16777216) - ((16777215 : Int) : ℚ) < 1 / 2) := by
        rw [not_lt, div_eq_mul_inv]
        push_cast
        norm_num
        linarith
      rw [if_neg hfrac]
      split_ifs <;> first | rfl | omega
    rw [hr]
    norm_num

/-- In `float` arithmetic the argument of `sqrt` in `lorentzFactor` is exactly 1
whenever the relative velocity is at most 50000 m/s in absolute value. -/
theorem radicandF32_small (sVelocity sPrimeVelocity : ℚ)
    (h : |roundF32 (sPrimeVelocity - sVelocity)| ≤ 50000) :
    radicandF32 sVelocity sPrimeVelocity = 1 := by
  unfold radicandF32
  dsimp only
  generalize roundF32 (sPrimeVelocity - sVelocity) = v at h
  rw [roundF32_light]
  have hcc : roundF32 (299792448 * 299792448) = 89875514973487104 := by
    rw [roundF32_of_bounds _ 56 (by norm_num [abs_of_pos]) (by norm_num [abs_of_pos])]
    norm_num [roundHalfEven]
  rw [hcc]
  have hB : roundF32 2500000000 = 2500000000 := by
    rw [roundF32_of_bounds _ 31 (by norm_num [abs_of_pos]) (by norm_num [abs_of_pos])]
    norm_num [roundHalfEven]
  have hQ : roundF32 (1 / 33554432) = 1 / 33554432 := by
    rw [roundF32_of_bounds _ (-25) (by norm_num [abs_of_pos]) (by norm_num [abs_of_pos])]
    norm_num [roundHalfEven]
  have hvv0 : 0 ≤ v * v := mul_self_nonneg v
  have hvvV : v * v ≤ 2500000000 := by
    have h1 : v * v = |v| * |v| := (abs_mul_abs_self v).symm
    have h2 : |v| * |v| ≤ 50000 * 50000 :=
      mul_le_mul h h (abs_nonneg v) (by norm_num)
    rw [h1]
    linarith
  have hvv1 : 0 ≤ roundF32 (v * v) := roundF32_nonneg _ hvv0
  have hvv2 : roundF32 (v * v) ≤ 2500000000 := by
    rcases hvv0.eq_or_lt with h0 | hpos
    · rw [← h0]
      norm_num [roundF32]
    · exact roundF32_le_of_float _ _ hB (by norm_num) hpos hvvV
  generalize roundF32 (v * v) = vv at hvv1 hvv2
  have hr0 : 0 ≤ vv / 89875514973487104 := by positivity
  have hr1 : vv / 89875514973487104 ≤ 1 / 33554432 := by
    rw [div_le_iff₀ (by norm_num)]
    linarith
  have hq0 : 0 ≤ roundF32 (vv / 89875514973487104) := roundF32_nonneg _ hr0
  have hq1 : roundF32 (vv / 89875514973487104) ≤ 1 / 33554432 := by
    rcases hr0.eq_or_lt with h0 | hpos
    · rw [← h0]
      norm_num [roundF32]
    · exact roundF32_le_of_float _ _ hQ (by norm_num) hpos hr1
  generalize roundF32 (vv / 89875514973487104) = x at hq0 hq1
  exact roundF32_near_one _ (by linarith) (by linarith)

/-- At a relative velocity of 1000 m/s the quotient v^2/c^2 is about 1.1e-11, far
below half the distance 2^-24 from 1 to the next `float` below it, and the difference
rounds to 1. -/
theorem radicandF32_thousand : radicandF32 0 1000 = 1 := by
  have hv : roundF32 (1000 - 0) = 1000 := by
    rw [roundF32_of_bounds _ 9 (by norm_num [abs_of_pos]) (by norm_num [abs_of_pos])]
    norm_num [roundHalfEven]
  have hvv : roundF32 (1000 * 1000) = 1000000 := by
    rw [roundF32_of_bounds _ 19 (by norm_num [abs_of_pos]) (by norm_num [abs_of_pos])]
    norm_num [roundHalfEven]
  have hcc : roundF32 (299792448 * 299792448) = 89875514973487104 := by
    rw [roundF32_of_bounds _ 56 (by norm_num [abs_of_pos]) (by norm_num [abs_of_pos])]
    norm_num [roundHalfEven]
  have hx : roundF32 (1000000 / 89875514973487104) = 6413991 / 576460752303423488 := by
    rw [roundF32_of_bounds _ (-37) (by norm_num [abs_of_pos]) (by norm_num [abs_of_pos])]
    norm_num [roundHalfEven]
  have h1 : roundF32 (1 - 6413991 / 576460752303423488) = 1 := by
    rw [roundF32_of_bounds _ (-1) (by norm_num [abs_of_pos]) (by norm_num [abs_of_pos])]
    norm_num [roundHalfEven]
  unfold radicandF32
  simp only [hv, roundF32_light, hvv, hcc, hx, h1]

/-- C12, as stated, fails on the `float` code: for two frames whose velocities differ
by 1000 m/s (not 0, and far below c) the radicand 1 - v^2/c^2 rounds to 1, so that
`lorentzFactor` is exactly 1, whatever library `sqrt` with sqrt(1) = 1 is used. -/
theorem lorentzFactorF32_small_velocity_counterexample :
    (1000 : ℚ) - 0 ≠ 0 ∧ |(1000 : ℚ) - 0| < 299792458 ∧
    roundF32 (1000 - 0) = 1000 ∧
    radicandF32 0 1000 = 1 ∧
    ∀ sqrtF : ℚ → ℚ, sqrtF 1 = 1 → lorentzFactorF32 sqrtF 0 1000 = 1 := by
  refine ⟨by norm_num, by norm_num [abs_of_pos], ?_, radicandF32_thousand, ?_⟩
  · rw [roundF32_of_bounds _ 9 (by norm_num [abs_of_pos]) (by norm_num [abs_of_pos])]
    norm_num [roundHalfEven]
  · intro sqrtF h
    unfold lorentzFactorF32
    rw [radicandF32_thousand, h]
    norm_num [roundF32_one]

/-- Over the reals: when the relative speed of the two frames is below `c`, the
radicand 1 - v^2/c^2 is positive and the square root the quotient divides by is not
0; `lorentzFactor` is at least 1, with equality only when the relative velocity is
0. -/
theorem lorentzFactor_real_ge_one (s sPrime : FrameOfReference)
    (h : |sPrime.velocity - s.velocity| < SPEED_OF_LIGHT) :
    0 < 1 - ((sPrime.velocity - s.velocity) * (sPrime.velocity - s.velocity))
      / (SPEED_OF_LIGHT * SPEED_OF_LIGHT) ∧
    Real.sqrt (1 - ((sPrime.velocity - s.velocity) * (sPrime.velocity - s.velocity))
      / (SPEED_OF_LIGHT * SPEED_OF_LIGHT)) ≠ 0 ∧
    1 ≤ lorentzFactor s sPrime ∧
    (lorentzFactor s sPrime = 1 ↔ sPrime.velocity - s.velocity = 0) := by
  obtain ⟨hpos, hle, heq⟩ := lorentz_radicand (sPrime.velocity - s.velocity) h
  have hsq : 0 < Real.sqrt (1 - ((sPrime.velocity - s.velocity)
      * (sPrime.velocity - s.velocity)) / (SPEED_OF_LIGHT * SPEED_OF_LIGHT)) :=
    Real.sqrt_pos.mpr hpos
  have hsq1 : Real.sqrt (1 - ((sPrime.velocity - s.velocity)
      * (sPrime.velocity - s.velocity)) / (SPEED_OF_LIGHT * SPEED_OF_LIGHT)) ≤ 1 :=
    Real.sqrt_le_one.mpr hle
  refine ⟨hpos, hsq.ne', ?_, ?_⟩
  · unfold lorentzFactor
    dsimp only
    exact one_le_one_div hsq hsq1
  · unfold lorentzFactor
    dsimp only
    rw [div_eq_iff hsq.ne', one_mul, eq_comm, Real.sqrt_eq_one]
    exact heq

/-- C12, amended: for every pair of frames whose relative velocity is below `c`,
`lorentzFactor` is defined and at least 1, in the `float` arithmetic of the code as
over the reals. In `float` arithmetic, with v the `float` difference of the two
velocities and c the `float` value of `SPEED_OF_LIGHT`, |v| < c makes the argument of
`sqrt` positive and at most 1, and the factor is at least 1 for any library `sqrt`
that maps (0, 1] into (0, 1] (so that it does not divide by 0); but the factor is
exactly 1 whenever |v| is at most 50000 m/s, not only for v = 0. Over the reals the
radicand is positive, the square root is not 0, the factor is at least 1, and it is 1
only when the relative velocity is 0. -/
theorem lorentzFactor_defined_ge_one :
    (∀ sVelocity sPrimeVelocity : ℚ,
      |roundF32 (sPrimeVelocity - sVelocity)| < roundF32 299792458 →
      0 < radicandF32 sVelocity sPrimeVelocity ∧
      radicandF32 sVelocity sPrimeVelocity ≤ 1 ∧
      ∀ sqrtF : ℚ → ℚ, (∀ x : ℚ, 0 < x → x ≤ 1 → 0 < sqrtF x ∧ sqrtF x ≤ 1) →
        sqrtF (radicandF32 sVelocity sPrimeVelocity) ≠ 0 ∧
        1 ≤ lorentzFactorF32 sqrtF sVelocity sPrimeVelocity) ∧
    (∀ sVelocity sPrimeVelocity : ℚ,
      |roundF32 (sPrimeVelocity - sVelocity)| ≤ 50000 →
      radicandF32 sVelocity sPrimeVelocity = 1 ∧
      ∀ sqrtF : ℚ → ℚ, sqrtF 1 = 1 →
        lorentzFactorF32 sqrtF sVelocity sPrimeVelocity = 1) ∧
    (∀ s sPrime : FrameOfReference, |sPrime.velocity - s.velocity| < SPEED_OF_LIGHT →
      0 < 1 - ((sPrime.velocity - s.velocity) * (sPrime.velocity - s.velocity))
        / (SPEED_OF_LIGHT * SPEED_OF_LIGHT) ∧
      Real.sqrt (1 - ((sPrime.velocity - s.velocity) * (sPrime.velocity - s.velocity))
        / (SPEED_OF_LIGHT * SPEED_OF_LIGHT)) ≠ 0 ∧
      1 ≤ lorentzFactor s sPrime ∧
      (lorentzFactor s sPrime = 1 ↔ sPrime.velocity - s.velocity = 0)) := by
  refine ⟨?_, ?_, ?_⟩
  · intro sVelocity sPrimeVelocity h
    rw [roundF32_light] at h
    have hb := radicandF32_bounds sVelocity sPrimeVelocity (roundF32_below_light _ h)
    have hpos : 0 < radicandF32 sVelocity sPrimeVelocity :=
      lt_of_lt_of_le (by norm_num) hb.1
    refine ⟨hpos, hb.2, ?_⟩
    intro sqrtF hsqrt
    obtain ⟨h0, h1⟩ := hsqrt _ hpos hb.2
    refine ⟨h0.ne', ?_⟩
    unfold lorentzFactorF32
    apply roundF32_ge_of_float _ _ roundF32_one (by norm_num)
    rw [le_div_iff₀ h0]
    linarith
  · intro sVelocity sPrimeVelocity h
    have hr := radicandF32_small sVelocity sPrimeVelocity h
    refine ⟨hr, ?_⟩
    intro sqrtF h1
    unfold lorentzFactorF32
    rw [hr, h1]
    norm_num [roundF32_one]
  · intro s sPrime h
    exact lorentzFactor_real_ge_one s sPrime h

/-- Witness for C12: in `float` arithmetic two frames 150000000 m/s apart, and over
the reals the camera at 0.1 c against the train at 0.7 c. -/
theorem lorentzFactor_defined_ge_one_witness :
    0 < radicandF32 0 150000000 ∧ radicandF32 0 150000000 ≤ 1 ∧
    1 ≤ lorentzFactor train camera ∧
    (lorentzFactor train camera = 1 ↔ camera.velocity - train.velocity = 0) := by
  have hv : roundF32 (150000000 - 0) = 150000000 := by
    rw [roundF32_of_bounds _ 27 (by norm_num [abs_of_pos]) (by norm_num [abs_of_pos])]
    norm_num [roundHalfEven]
  have hf := lorentzFactor_defined_ge_one.1 0 150000000 (by
    rw [hv, roundF32_light]
    norm_num [abs_of_pos])
  have h := lorentzFactor_defined_ge_one.2.2 train camera (by
    unfold train camera
    dsimp only
    rw [show 1 / 10 * SPEED_OF_LIGHT - 7 / 10 * SPEED_OF_LIGHT
      = -(6 / 10 * SPEED_OF_LIGHT) by ring, abs_neg,
      abs_of_pos (mul_pos (by norm_num) speed_of_light_pos)]
    linarith [speed_of_light_pos])
  exact ⟨hf.1, hf.2.1, h.2.2.1, h.2.2.2⟩

/-! ### More on the classification, and single members of `Body` -/

/-- C13, as stated, fails: for `spanMover` against `spanTarget` a horizontal
candidate is found (right, 1) and no vertical one, and the result is 0. -/
theorem collisionDetected_one_candidate_counterexample :
    hCandidate spanMover spanTarget = 1 ∧ vCandidate spanMover spanTarget = 0 ∧
    collisionDetected spanMover spanTarget = 0 := by
  decide

/-- C13, amended: `collisionDetected` returns 0 exactly when the horizontal candidate
or the vertical candidate is missing (none or only one of them is found); when both
are found it returns a side, 1 to 4, that is one of the two candidates. -/
theorem collisionDetected_none_iff (a b : Rect) :
    (collisionDetected a b = 0 ↔ hCandidate a b = 0 ∨ vCandidate a b = 0) ∧
    (hCandidate a b ≠ 0 ∧ vCandidate a b ≠ 0 →
      (collisionDetected a b = hCandidate a b ∨ collisionDetected a b = vCandidate a b) ∧
      (collisionDetected a b = 1 ∨ collisionDetected a b = 2 ∨
        collisionDetected a b = 3 ∨ collisionDetected a b = 4)) := by
  have hboth : hCandidate a b ≠ 0 ∧ vCandidate a b ≠ 0 →
      (collisionDetected a b = hCandidate a b ∨ collisionDetected a b = vCandidate a b) ∧
      (collisionDetected a b = 1 ∨ collisionDetected a b = 2 ∨
        collisionDetected a b = 3 ∨ collisionDetected a b = 4) := by
    rintro ⟨hh, hv⟩
    have hcd : collisionDetected a b =
        if vOverlap a b < hOverlap a b then vCandidate a b else hCandidate a b := by
      unfold collisionDetected
      simp [hh, hv]
    rcases hCandidate_cases a b with h0 | h1 | h3
    · exact absurd h0 hh
    · rcases vCandidate_cases a b with v0 | v2 | v4
      · exact absurd v0 hv
      · rw [hcd, h1, v2]; split_ifs <;> simp
      · rw [hcd, h1, v4]; split_ifs <;> simp
    · rcases vCandidate_cases a b with v0 | v2 | v4
      · exact absurd v0 hv
      · rw [hcd, h3, v2]; split_ifs <;> simp
      · rw [hcd, h3, v4]; split_ifs <;> simp
  refine ⟨?_, hboth⟩
  constructor
  · intro h0
    by_contra hne
    push_neg at hne
    rcases (hboth hne).2 with h | h | h | h <;> rw [h] at h0 <;> exact absurd h0 (by decide)
  · intro h
    unfold collisionDetected
    dsimp only
    rw [if_pos (by tauto)]

/-- Witness for C13, amended: one candidate missing gives 0 (`spanMover`), both
found give a side (`tieMover`). -/
theorem collisionDetected_none_iff_witness :
    collisionDetected spanMover spanTarget = 0 ∧
    (collisionDetected tieMover tieTarget = 1 ∨ collisionDetected tieMover tieTarget = 2 ∨
      collisionDetected tieMover tieTarget = 3 ∨ collisionDetected tieMover tieTarget = 4) :=
  ⟨(collisionDetected_none_iff spanMover spanTarget).1.mpr (Or.inr (by decide)),
   ((collisionDetected_none_iff tieMover tieTarget).2 ⟨by decide, by decide⟩).2⟩

/-- C14: `collisionDetected` is not commutative: for `tieMover` and `tieTarget` it
returns bottom (4) one way round and top (2) the other. -/
theorem collisionDetected_not_commutative :
    ∃ a b : Rect, collisionDetected a b ≠ collisionDetected b a ∧
      collisionDetected a b = 4 ∧ collisionDetected b a = 2 :=
  ⟨tieMover, tieTarget, by decide⟩

/-- C15: for every body and every integer strength, `jump(strength)` sets
vy = -strength and ay = g = 9.80665, whatever the gravity flag of the body is, and
leaves x, y, vx and ax (and every other member) as they were; `jump(0)` gives
vy = 0 with ay = g. -/
theorem jump_sets_fall (b : Body) (strength : Int) :
    (b.jump strength).yPrime = -(strength : ℚ) ∧
    (b.jump strength).yPrimePrime = 980665 / 100000 ∧
    (b.jump strength).x = b.x ∧ (b.jump strength).y = b.y ∧
    (b.jump strength).xPrime = b.xPrime ∧
    (b.jump strength).xPrimePrime = b.xPrimePrime ∧
    b.jump strength = { b with yPrime := -(strength : ℚ), yPrimePrime := 980665 / 100000 } ∧
    (b.jump 0).yPrime = 0 ∧ (b.jump 0).yPrimePrime = 980665 / 100000 := by
  simp [Body.jump, Body.g]

/-- C16, as stated, fails: `inwardBody` lies outside the horizontal bounds (x < 0)
but moves back in (vx = 3), and `ifOnEdgeBounce` leaves vx at 3 instead of -3. -/
theorem ifOnEdgeBounce_inward_counterexample :
    inwardBody.x < 0 ∧ inwardBody.xPrime = 3 ∧
    (inwardBody.ifOnEdgeBounce false).xPrime = 3 ∧
    (inwardBody.ifOnEdgeBounce false).xPrime ≠ -inwardBody.xPrime := by
  norm_num [inwardBody, Body.ifOnEdgeBounce]

/-- C16, amended: `ifOnEdgeBounce` negates vx when x is outside the horizontal bounds
and vx points further out (x < 0 with vx < 0, or x > 1400 - width*size with vx > 0),
and negates vy (times 0.9 with the decay flag) when y is outside the vertical bounds
and vy points further out (y < 0 with vy < 0, or y > 750 - height*size with vy > 0);
otherwise the component is left alone. Position and acceleration never change. -/
theorem ifOnEdgeBounce_outward (b : Body) (yVelDecay : Bool) :
    ((b.ifOnEdgeBounce yVelDecay).xPrime
      = if (b.x < 0 ∧ b.xPrime < 0) ∨ (b.x > 1400 - b.width * b.size ∧ b.xPrime > 0)
        then -b.xPrime else b.xPrime) ∧
    ((b.ifOnEdgeBounce yVelDecay).yPrime
      = if (b.y < 0 ∧ b.yPrime < 0) ∨ (b.y > 750 - b.height * b.size ∧ b.yPrime > 0)
        then (if yVelDecay = true then -b.yPrime * (9 / 10) else -b.yPrime)
        else b.yPrime) ∧
    (b.ifOnEdgeBounce yVelDecay).x = b.x ∧
    (b.ifOnEdgeBounce yVelDecay).y = b.y ∧
    (b.ifOnEdgeBounce yVelDecay).xPrimePrime = b.xPrimePrime ∧
    (b.ifOnEdgeBounce yVelDecay).yPrimePrime = b.yPrimePrime := by
  unfold Body.ifOnEdgeBounce
  dsimp only
  split_ifs <;> simp_all

/-- Witness for C16, amended: `outwardBody` is out at the left and at the top and
moves further out; both components are negated, vy with decay becomes 9. -/
theorem ifOnEdgeBounce_outward_witness :
    (outwardBody.ifOnEdgeBounce true).xPrime = 3 ∧
    (outwardBody.ifOnEdgeBounce true).yPrime = 9 ∧
    (outwardBody.ifOnEdgeBounce false).yPrime = 10 := by
  have h1 := ifOnEdgeBounce_outward outwardBody true
  have h2 := ifOnEdgeBounce_outward outwardBody false
  refine ⟨?_, ?_, ?_⟩
  · rw [h1.1]; norm_num [outwardBody]
  · rw [h1.2.1]; norm_num [outwardBody]
  · rw [h2.2.1]; norm_num [outwardBody]

/-- C17, as stated, fails: `addVelVector` with direction pi/2 (the constant `NORTH`)
and magnitude 1 on a body at rest gives vy = +1: the added velocity points toward
+y, and vy has not decreased by the magnitude. -/
theorem addVelVector_north_counterexample :
    (restBody.addVelVector NORTH 1).yPrime = 1 ∧
    (restBody.addVelVector NORTH 1).yPrime ≠ restBody.yPrime - 1 := by
  have h : (restBody.addVelVector NORTH 1).yPrime = 1 := by
    simp [RealBody.addVelVector, restBody, NORTH]
  refine ⟨h, ?_⟩
  rw [h]
  norm_num [restBody]

/-- C17, amended: `addVelVector(direction, magnitude)` adds
(magnitude*cos(direction), magnitude*sin(direction)) to (vx, vy) and changes nothing
else; with direction 0 it adds magnitude to vx only; with direction pi/2 it leaves vx
alone and adds magnitude to vy, so that for a positive magnitude the added velocity
points toward +y (down the screen), and with direction 3 pi/2 it subtracts magnitude
from vy. -/
theorem addVelVector_polar (b : RealBody) (direction magnitude : ℝ) :
    (b.addVelVector direction magnitude).xPrime
      = b.xPrime + magnitude * Real.cos direction ∧
    (b.addVelVector direction magnitude).yPrime
      = b.yPrime + magnitude * Real.sin direction ∧
    (b.addVelVector direction magnitude).x = b.x ∧
    (b.addVelVector direction magnitude).y = b.y ∧
    (b.addVelVector direction magnitude).xPrimePrime = b.xPrimePrime ∧
    (b.addVelVector direction magnitude).yPrimePrime = b.yPrimePrime ∧
    (b.addVelVector 0 magnitude).xPrime = b.xPrime + magnitude ∧
    (b.addVelVector 0 magnitude).yPrime = b.yPrime ∧
    (b.addVelVector (Real.pi / 2) magnitude).xPrime = b.xPrime ∧
    (b.addVelVector (Real.pi / 2) magnitude).yPrime = b.yPrime + magnitude ∧
    (0 < magnitude → b.yPrime < (b.addVelVector (Real.pi / 2) magnitude).yPrime) ∧
    (b.addVelVector (3 * Real.pi / 2) magnitude).yPrime = b.yPrime - magnitude := by
  have h32 : Real.sin (3 * Real.pi / 2) = -1 := by
    rw [show 3 * Real.pi / 2 = Real.pi / 2 + Real.pi by ring, Real.sin_add_pi,
      Real.sin_pi_div_two]
  refine ⟨rfl, rfl, rfl, rfl, rfl, rfl, ?_, ?_, ?_, ?_, ?_, ?_⟩
  · simp [RealBody.addVelVector]
  · simp [RealBody.addVelVector]
  · simp [RealBody.addVelVector]
  · simp [RealBody.addVelVector]
  · intro hm
    simp [RealBody.addVelVector, hm]
  · simp only [RealBody.addVelVector, h32]
    ring

/-- Witness for C17, amended: from rest, direction `EAST` with magnitude 2 gives
velocity (2, 0), and direction `NORTH` with magnitude 2 gives (0, 2). -/
theorem addVelVector_polar_witness :
    (restBody.addVelVector EAST 2).xPrime = 2 ∧ (restBody.addVelVector EAST 2).yPrime = 0 ∧
    (restBody.addVelVector NORTH 2).xPrime = 0 ∧
    (restBody.addVelVector NORTH 2).yPrime = 2 := by
  have h := addVelVector_polar restBody 0 2
  obtain ⟨-, -, -, -, -, -, h0x, h0y, h1x, h1y, -, -⟩ := h
  unfold EAST NORTH
  refine ⟨?_, ?_, ?_, ?_⟩
  · rw [h0x]; norm_num [restBody]
  · rw [h0y]; rfl
  · rw [h1x]; rfl
  · rw [h1y]; norm_num [restBody]

/-- C18, as stated, fails: for `platformEntity` the rectangle of `collided` has its
top edge at 17, not 17.5, below the top edge 0 of the full rectangle, and its bottom
edge at 99, which is 1 px and not 17.5 px above the bottom edge 100 of the full
rectangle. -/
theorem collisionRect_inset_counterexample :
    platformEntity.hitboxAdjust = true ∧
    collisionRect platformEntity 1 = { x := 0, y := 17, w := 100, h := 82 } ∧
    fullRect platformEntity = { x := 0, y := 0, w := 100, h := 100 } ∧
    (((collisionRect platformEntity 1).y : ℚ) ≠ (fullRect platformEntity).y + 35 / 2) ∧
    (((collisionRect platformEntity 1).y + (collisionRect platformEntity 1).h : Int) : ℚ)
      ≠ ((fullRect platformEntity).y + (fullRect platformEntity).h : Int) - 35 / 2 := by
  have h1 : collisionRect platformEntity 1 = { x := 0, y := 17, w := 100, h := 82 } := by
    norm_num [collisionRect, platformEntity, truncToInt, epsilon]
  have h2 : fullRect platformEntity = { x := 0, y := 0, w := 100, h := 100 } := by
    norm_num [fullRect, platformEntity, truncToInt]
  refine ⟨rfl, h1, h2, ?_, ?_⟩
  · rw [h1, h2]; norm_num
  · rw [h1, h2]; norm_num

/-- C18, amended: for a platform-adjusted entity whose truncated y is at least 0 and
whose truncated scaled height is at least 18, the rectangle that `collided` passes
on has its top edge 17 px (17.5 truncated) below the top edge of the full rectangle
and its bottom edge 1 px above the bottom edge of the full rectangle; the left edge
and the width are those of the full rectangle. -/
theorem collisionRect_platform_edges (e : Entity) (contraction : ℚ)
    (hp : e.hitboxAdjust = true) (hy : 0 ≤ truncToInt e.y)
    (hh : 18 ≤ truncToInt (e.height * e.size)) :
    (collisionRect e contraction).y = truncToInt e.y + 17 ∧
    (collisionRect e contraction).y + (collisionRect e contraction).h
      = truncToInt e.y + truncToInt (e.height * e.size) - 1 ∧
    (collisionRect e contraction).x = truncToInt e.x ∧
    (collisionRect e contraction).w = truncToInt (e.width * e.size * contraction) := by
  have hty : truncToInt ((truncToInt e.y : ℚ) + epsilon) = truncToInt e.y + 17 := by
    have h0 : (0 : ℚ) ≤ (truncToInt e.y : ℚ) := by exact_mod_cast hy
    have hnn : (0 : ℚ) ≤ (truncToInt e.y : ℚ) + epsilon := by
      unfold epsilon; linarith
    unfold truncToInt at hnn ⊢
    rw [if_pos hnn]
    rw [Int.floor_eq_iff]
    unfold epsilon
    constructor
    · push_cast; linarith
    · push_cast; linarith
  have hth : truncToInt ((truncToInt (e.height * e.size) : ℚ) - epsilon)
      = truncToInt (e.height * e.size) - 18 := by
    have h0 : (18 : ℚ) ≤ (truncToInt (e.height * e.size) : ℚ) := by exact_mod_cast hh
    have hnn : (0 : ℚ) ≤ (truncToInt (e.height * e.size) : ℚ) - epsilon := by
      unfold epsilon; linarith
    unfold truncToInt at hnn ⊢
    rw [if_pos hnn]
    rw [Int.floor_eq_iff]
    unfold epsilon
    constructor
    · push_cast; linarith
    · push_cast; linarith
  have hrect : collisionRect e contraction =
      { x := truncToInt e.x
        y := truncToInt e.y + 17
        w := truncToInt (e.width * e.size * contraction)
        h := truncToInt (e.height * e.size) - 18 } := by
    unfold collisionRect
    simp only [hp, if_true]
    rw [hty, hth]
  rw [hrect]
  refine ⟨rfl, ?_, rfl, rfl⟩
  show truncToInt e.y + 17 + (truncToInt (e.height * e.size) - 18) = _
  ring

/-- Witness for C18, amended: `platformEntity`, with top edge 17 and bottom edge 99. -/
theorem collisionRect_platform_edges_witness :
    (collisionRect platformEntity 1).y = 17 ∧
    (collisionRect platformEntity 1).y + (collisionRect platformEntity 1).h = 99 := by
  have h := collisionRect_platform_edges platformEntity 1 rfl
    (by norm_num [platformEntity, truncToInt])
    (by norm_num [platformEntity, truncToInt])
  refine ⟨?_, ?_⟩
  · rw [h.1]; norm_num [platformEntity, truncToInt]
  · rw [h.2.1]; norm_num [platformEntity, truncToInt]

/-- C19 fails on the code: the constructors never write `hitboxAdjust`, so
`isPlatform()` of a newly constructed Entity, Body or Surface returns whatever the
storage held, true when it held true. After `makePlatform()` it returns true. -/
theorem isPlatform_after_construction :
    (∀ (x y : ℚ) (w h : Int) (uninit : Bool),
      (Entity.new x y w h uninit).isPlatform = uninit) ∧
    (∀ (e : Entity) (vx vy : ℚ) (grav b : Bool) (s : ℚ) (uninit : Bool),
      (Body.new e vx vy grav b s uninit).toEntity.isPlatform = uninit) ∧
    (∀ (e : Entity) (r t l b : Bool) (dmg : Int) (s : ℚ) (h uninit : Bool),
      (Surface.new e r t l b dmg s h uninit).toEntity.isPlatform = uninit) ∧
    (Entity.new 0 0 10 10 true).isPlatform = true ∧
    (Body.new (Entity.new 0 0 10 10 false) 0 0 false false 1 true).toEntity.isPlatform = true ∧
    (∀ e : Entity, e.makePlatform.isPlatform = true) :=
  ⟨fun _ _ _ _ _ => rfl, fun _ _ _ _ _ _ _ => rfl, fun _ _ _ _ _ _ _ _ _ => rfl, rfl, rfl,
    fun _ => rfl⟩

/-- C22, as stated, fails: against a surface built with only `rSolid`, the player
whose left edge has entered the right side of the surface (classification 3) is let
through, and the player whose right edge has entered its left side (classification
1) is blocked; against a surface built with only `bSolid`, the player hitting the
underside (classification 2) is let through. -/
theorem solidity_side_counterexample :
    collided exampleGameShifted.thePlayer.toEntity rightFlagWallAtLeft.toEntity
      (playerContraction {} exampleGameShifted)
      (obstacleContraction {} rightFlagWallAtLeft.xPrime) = 3 ∧
    surfaceResolve {} 0 rightFlagWallAtLeft exampleGameShifted = exampleGameShifted ∧
    collided exampleGame.thePlayer.toEntity rightFlagWallAtRight.toEntity
      (playerContraction {} exampleGame)
      (obstacleContraction {} rightFlagWallAtRight.xPrime) = 1 ∧
    (surfaceResolve {} 0 rightFlagWallAtRight exampleGame).thePlayer.xPrime = 0 ∧
    (surfaceResolve {} 0 rightFlagWallAtRight exampleGame).thePlayer.x = -51 / 10 ∧
    collided exampleGame.thePlayer.toEntity bottomFlagCeiling.toEntity
      (playerContraction {} exampleGame)
      (obstacleContraction {} bottomFlagCeiling.xPrime) = 2 ∧
    surfaceResolve {} 0 bottomFlagCeiling exampleGame = exampleGame := by
  have c3 : collided exampleGameShifted.thePlayer.toEntity rightFlagWallAtLeft.toEntity
      (playerContraction {} exampleGameShifted)
      (obstacleContraction {} rightFlagWallAtLeft.xPrime) = 3 := by
    norm_num [collided, collisionRect, collisionDetected, truncToInt, hCandidate,
      vCandidate, hOverlap, vOverlap, exampleGameShifted, examplePlayer,
      rightFlagWallAtLeft, playerContraction, obstacleContraction, Body.setX]
  have c1 : collided exampleGame.thePlayer.toEntity rightFlagWallAtRight.toEntity
      (playerContraction {} exampleGame)
      (obstacleContraction {} rightFlagWallAtRight.xPrime) = 1 := by
    norm_num [collided, collisionRect, collisionDetected, truncToInt, hCandidate,
      vCandidate, hOverlap, vOverlap, exampleGame, examplePlayer,
      rightFlagWallAtRight, playerContraction, obstacleContraction]
  have c2 : collided exampleGame.thePlayer.toEntity bottomFlagCeiling.toEntity
      (playerContraction {} exampleGame)
      (obstacleContraction {} bottomFlagCeiling.xPrime) = 2 := by
    norm_num [collided, collisionRect, collisionDetected, truncToInt, hCandidate,
      vCandidate, hOverlap, vOverlap, exampleGame, examplePlayer,
      bottomFlagCeiling, playerContraction, obstacleContraction]
  refine ⟨c3, ?_, c1, ?_, ?_, c2, ?_⟩
  · simp only [surfaceResolve, c3]
    simp [Surface.isSolid, rightFlagWallAtLeft]
  · simp only [surfaceResolve, c1]
    simp [Surface.isSolid, rightFlagWallAtRight, Body.stopX, Body.setX]
  · simp only [surfaceResolve, c1]
    norm_num [Surface.isSolid, rightFlagWallAtRight, Body.stopX, Body.setX, Body.move,
      Body.dt, exampleGame, examplePlayer]
  · simp only [surfaceResolve, c2]
    simp [Surface.isSolid, bottomFlagCeiling]

/-- C22, amended: the flag that gates a classification is the one with the index of
the side of the player that collided: `isSolid(1)` is `rSolid`, `isSolid(2)` is
`tSolid`, `isSolid(3)` is `lSolid`, `isSolid(4)` is `bSolid`. So a surface with
`rSolid` set and `lSolid` not set blocks the player whose right edge has entered it
(classification 1) and lets the player pass whose left edge has entered it
(classification 3); a surface with `bSolid` set and `tSolid` not set lets the player
land on its top (classification 4) and lets the player pass that hits its underside
(classification 2). -/
theorem solidity_indexed_by_player_side :
    (∀ (e : Entity) (r t l b : Bool) (dmg : Int) (sz : ℚ) (h uninit : Bool),
      (Surface.new e r t l b dmg sz h uninit).isSolid 1 = r ∧
      (Surface.new e r t l b dmg sz h uninit).isSolid 2 = t ∧
      (Surface.new e r t l b dmg sz h uninit).isSolid 3 = l ∧
      (Surface.new e r t l b dmg sz h uninit).isSolid 4 = b) ∧
    (∀ (w : World) (i : Nat) (s : Surface) (g : Game),
      s.rSolid = true → s.lSolid = false →
      (collided g.thePlayer.toEntity s.toEntity
          (playerContraction w g) (obstacleContraction w s.xPrime) = 1 →
        (surfaceResolve w i s g).thePlayer.xPrime = 0 ∧
        (surfaceResolve w i s g).thePlayer.x = (g.thePlayer.move (-1)).x - 5) ∧
      (collided g.thePlayer.toEntity s.toEntity
          (playerContraction w g) (obstacleContraction w s.xPrime) = 3 →
        surfaceResolve w i s g = g)) ∧
    (∀ (w : World) (i : Nat) (s : Surface) (g : Game),
      s.bSolid = true → s.tSolid = false →
      (collided g.thePlayer.toEntity s.toEntity
          (playerContraction w g) (obstacleContraction w s.xPrime) = 4 →
        (surfaceResolve w i s g).grounded = true ∧
        (surfaceResolve w i s g).thePlayer.yPrime = 0 ∧
        (surfaceResolve w i s g).thePlayer.y = (g.thePlayer.move (-1)).y - 2) ∧
      (collided g.thePlayer.toEntity s.toEntity
          (playerContraction w g) (obstacleContraction w s.xPrime) = 2 →
        surfaceResolve w i s g = g)) := by
  refine ⟨fun _ _ _ _ _ _ _ _ _ => ⟨rfl, rfl, rfl, rfl⟩, ?_, ?_⟩
  · intro w i s g hr hl
    constructor
    · intro hc
      simp only [surfaceResolve, hc]
      simp [Surface.isSolid, hr, Body.stopX, Body.setX]
    · intro hc
      simp only [surfaceResolve, hc]
      simp [Surface.isSolid, hl]
  · intro w i s g hb ht
    constructor
    · intro hc
      simp only [surfaceResolve, hc]
      simp [Surface.isSolid, hb, Body.stopY, Body.setY]
    · intro hc
      simp only [surfaceResolve, hc]
      simp [Surface.isSolid, ht]

/-- Witness for C22, amended: the surface with only `rSolid` blocks the example
player coming from its left, and the surface with only `bSolid` lets the example
player land on its top. -/
theorem solidity_indexed_by_player_side_witness :
    (surfaceResolve {} 0 rightFlagWallAtRight exampleGame).thePlayer.xPrime = 0 ∧
    surfaceResolve {} 0 rightFlagWallAtLeft exampleGameShifted = exampleGameShifted ∧
    (surfaceResolve {} 0 bottomFlagFloor exampleGame).grounded = true := by
  have hR := solidity_indexed_by_player_side.2.1 {} 0 rightFlagWallAtRight exampleGame rfl rfl
  have hL := solidity_indexed_by_player_side.2.1 {} 0 rightFlagWallAtLeft exampleGameShifted
    rfl rfl
  have hB := solidity_indexed_by_player_side.2.2 {} 0 bottomFlagFloor exampleGame rfl rfl
  refine ⟨(hR.1 ?_).1, hL.2 ?_, (hB.1 ?_).1⟩
  · norm_num [collided, collisionRect, collisionDetected, truncToInt, hCandidate,
      vCandidate, hOverlap, vOverlap, exampleGame, examplePlayer,
      rightFlagWallAtRight, playerContraction, obstacleContraction]
  · norm_num [collided, collisionRect, collisionDetected, truncToInt, hCandidate,
      vCandidate, hOverlap, vOverlap, exampleGameShifted, examplePlayer,
      rightFlagWallAtLeft, playerContraction, obstacleContraction, Body.setX]
  · norm_num [collided, collisionRect, collisionDetected, truncToInt, hCandidate,
      vCandidate, hOverlap, vOverlap, exampleGame, examplePlayer,
      bottomFlagFloor, playerContraction, obstacleContraction]

theorem truncToInt_add_epsilon (n : Int) (hn : 0 ≤ n) :
    truncToInt ((n : ℚ) + epsilon) = n + 17 := by
  have h0 : (0 : ℚ) ≤ (n : ℚ) := by exact_mod_cast hn
  have hnn : (0 : ℚ) ≤ (n : ℚ) + epsilon := by
    unfold epsilon; linarith
  unfold truncToInt
  rw [if_pos hnn, Int.floor_eq_iff]
  unfold epsilon
  constructor
  · push_cast; linarith
  · push_cast; linarith

/-- Subtracting the margin 17.5 from a whole number that is at least 18 and
truncating subtracts 18. -/
theorem truncToInt_sub_epsilon (n : Int) (hn : 18 ≤ n) :
    truncToInt ((n : ℚ) - epsilon) = n - 18 := by
  have h0 : (18 : ℚ) ≤ (n : ℚ) := by exact_mod_cast hn
  have hnn : (0 : ℚ) ≤ (n : ℚ) - epsilon := by
    unfold epsilon; linarith
  unfold truncToInt
  rw [if_pos hnn, Int.floor_eq_iff]
  unfold epsilon
  constructor
  · push_cast; linarith
  · push_cast; linarith

/-- C24: for a platform-adjusted entity, `collided` moves the top edge of the integer
rectangle down by the 17.5 px margin and reduces the height by the same margin, both
truncated to whole pixels: when the unadjusted rectangle has y >= 0 and height
H >= 18, the rectangle used has y + 17 and H - 18, the same left edge and width, and
its bottom edge lies exactly 1 px above the unadjusted bottom edge. -/
theorem collisionRect_platform_truncated (e : Entity) (contraction : ℚ)
    (hp : e.isPlatform = true)
    (hy : 0 ≤ (collisionRect { e with hitboxAdjust := false } contraction).y)
    (hh : 18 ≤ (collisionRect { e with hitboxAdjust := false } contraction).h) :
    collisionRect e contraction =
      { x := (collisionRect { e with hitboxAdjust := false } contraction).x
        y := (collisionRect { e with hitboxAdjust := false } contraction).y + 17
        w := (collisionRect { e with hitboxAdjust := false } contraction).w
        h := (collisionRect { e with hitboxAdjust := false } contraction).h - 18 } ∧
    (collisionRect e contraction).y + (collisionRect e contraction).h
      = (collisionRect { e with hitboxAdjust := false } contraction).y
        + (collisionRect { e with hitboxAdjust := false } contraction).h - 1 := by
  have hp2 : e.hitboxAdjust = true := hp
  have h0 : collisionRect { e with hitboxAdjust := false } contraction =
      { x := truncToInt e.x
        y := truncToInt e.y
        w := truncToInt (e.width * e.size * contraction)
        h := truncToInt (e.height * e.size) } := by
    simp [collisionRect]
  rw [h0] at hy hh ⊢
  have hrect : collisionRect e contraction =
      { x := truncToInt e.x
        y := truncToInt e.y + 17
        w := truncToInt (e.width * e.size * contraction)
        h := truncToInt (e.height * e.size) - 18 } := by
    unfold collisionRect
    simp only [hp2, if_true]
    rw [truncToInt_add_epsilon _ hy, truncToInt_sub_epsilon _ hh]
  rw [hrect]
  refine ⟨rfl, ?_⟩
  show truncToInt e.y + 17 + (truncToInt (e.height * e.size) - 18)
    = truncToInt e.y + truncToInt (e.height * e.size) - 1
  ring

/-- Witness for C24: `platformEntity` (100 by 100 at the origin) is tested with the
rectangle (0, 17, 100, 82). -/
theorem collisionRect_platform_truncated_witness :
    collisionRect platformEntity 1 = { x := 0, y := 17, w := 100, h := 82 } := by
  have h := collisionRect_platform_truncated platformEntity 1 rfl
    (by norm_num [collisionRect, platformEntity, truncToInt])
    (by norm_num [collisionRect, platformEntity, truncToInt])
  rw [h.1]
  norm_num [collisionRect, platformEntity, truncToInt]

/-! ### Classification against overlap -/

/-- C25: for integer rectangles A and B with A's width and height non-negative, a
result of `collisionDetected(A, B)` other than 0 implies that A and B strictly
intersect on both axes. -/
theorem collisionDetected_sound (a b : Rect) (hw : 0 ≤ a.w) (hh : 0 ≤ a.h)
    (hc : collisionDetected a b ≠ 0) :
    a.x < b.x + b.w ∧ b.x < a.x + a.w ∧ a.y < b.y + b.h ∧ b.y < a.y + a.h := by
  have hcand : hCandidate a b ≠ 0 ∧ vCandidate a b ≠ 0 := by
    by_contra hne
    apply hc
    unfold collisionDetected
    dsimp only
    rw [if_pos (by tauto)]
  obtain ⟨h1, h2⟩ := hcand
  have hx : a.x < b.x + b.w ∧ b.x < a.x + a.w := by
    unfold hCandidate at h1
    dsimp only at h1
    split_ifs at h1 <;> omega
  have hy : a.y < b.y + b.h ∧ b.y < a.y + a.h := by
    unfold vCandidate at h2
    dsimp only at h2
    split_ifs at h2 <;> omega
  exact ⟨hx.1, hx.2, hy.1, hy.2⟩

/-- Witness for C25: `tieMover` against `tieTarget`. -/
theorem collisionDetected_sound_witness :
    tieMover.x < tieTarget.x + tieTarget.w ∧ tieTarget.x < tieMover.x + tieMover.w ∧
    tieMover.y < tieTarget.y + tieTarget.h ∧ tieTarget.y < tieMover.y + tieMover.h :=
  collisionDetected_sound tieMover tieTarget (by decide) (by decide) (by decide)

/-- C26: for integer rectangles A and B that strictly intersect on both axes, with A
strictly narrower and strictly shorter than B, `collisionDetected(A, B)` returns a
side: both candidates are found and the result is one of 1, 2, 3, 4. -/
theorem collisionDetected_smaller_mover (a b : Rect)
    (hx1 : a.x < b.x + b.w) (hx2 : b.x < a.x + a.w)
    (hy1 : a.y < b.y + b.h) (hy2 : b.y < a.y + a.h)
    (_hw0 : 0 ≤ a.w) (hw : a.w < b.w) (_hh0 : 0 ≤ a.h) (hh : a.h < b.h) :
    hCandidate a b ≠ 0 ∧ vCandidate a b ≠ 0 ∧ collisionDetected a b ≠ 0 ∧
    (collisionDetected a b = 1 ∨ collisionDetected a b = 2 ∨
      collisionDetected a b = 3 ∨ collisionDetected a b = 4) := by
  have h1 : hCandidate a b ≠ 0 := by
    unfold hCandidate
    dsimp only
    split_ifs <;> first | decide | omega
  have h2 : vCandidate a b ≠ 0 := by
    unfold vCandidate
    dsimp only
    split_ifs <;> first | decide | omega
  have hcd : collisionDetected a b =
      if vOverlap a b < hOverlap a b then vCandidate a b else hCandidate a b := by
    unfold collisionDetected
    simp [h1, h2]
  have hside : collisionDetected a b = 1 ∨ collisionDetected a b = 2 ∨
      collisionDetected a b = 3 ∨ collisionDetected a b = 4 := by
    rcases hCandidate_cases a b with c0 | c1 | c3
    · exact absurd c0 h1
    · rcases vCandidate_cases a b with v0 | v2 | v4
      · exact absurd v0 h2
      · rw [hcd, c1, v2]; split_ifs <;> simp
      · rw [hcd, c1, v4]; split_ifs <;> simp
    · rcases vCandidate_cases a b with v0 | v2 | v4
      · exact absurd v0 h2
      · rw [hcd, c3, v2]; split_ifs <;> simp
      · rw [hcd, c3, v4]; split_ifs <;> simp
  refine ⟨h1, h2, ?_, hside⟩
  rcases hside with h | h | h | h <;> rw [h] <;> decide

/-- Witness for C26: `tieMover` (20 by 20) against `tieTarget` (100 by 100). -/
theorem collisionDetected_smaller_mover_witness :
    collisionDetected tieMover tieTarget ≠ 0 :=
  (collisionDetected_smaller_mover tieMover tieTarget (by decide) (by decide) (by decide)
    (by decide) (by decide) (by decide) (by decide) (by decide)).2.2.1
/-! ### Health below zero, the render queues and vanishing -/

theorem firstMatch_spec {α : Type} (isSprite : α → Bool) :
    ∀ (queue : List α),
      (∀ i, firstMatch isSprite queue = some i →
        i < queue.length ∧ (∃ a, queue.get? i = some a ∧ isSprite a = true) ∧
        ∀ j a, j < i → queue.get? j = some a → isSprite a = false) ∧
      (firstMatch isSprite queue = none ↔ ∀ a ∈ queue, isSprite a = false) := by
  intro queue
  induction queue with
  | nil =>
    constructor
    · intro i h; simp [firstMatch] at h
    · simp [firstMatch]
  | cons a rest ih =>
    obtain ⟨ih1, ih2⟩ := ih
    by_cases ha : isSprite a = true
    · constructor
      · intro i h
        simp only [firstMatch, ha, if_true, Option.some.injEq] at h
        subst h
        refine ⟨by simp, ⟨a, by simp, ha⟩, ?_⟩
        intro j b hj
        exact absurd hj (Nat.not_lt_zero j)
      · simp [firstMatch, ha]
    · have ha2 : isSprite a = false := by simpa using ha
      constructor
      · intro i h
        simp only [firstMatch, ha2, Bool.false_eq_true, if_false, Option.map_eq_some'] at h
        obtain ⟨k, hk, hki⟩ := h
        subst hki
        obtain ⟨hlt, ⟨b, hb, hbs⟩, hfirst⟩ := ih1 k hk
        refine ⟨by simp; omega, ⟨b, by simpa using hb, hbs⟩, ?_⟩
        intro j c hj hc
        cases j with
        | zero =>
          simp at hc
          rw [← hc]; exact ha2
        | succ j =>
          simp at hc
          exact hfirst j c (by omega) (by simpa using hc)
      · simp only [firstMatch, ha2, Bool.false_eq_true, if_false, Option.map_eq_none',
          List.mem_cons, forall_eq_or_imp, true_and]
        exact ih2

theorem firstMatch_of_first {α : Type} (isSprite : α → Bool) :
    ∀ (queue : List α) (i : Nat) (a : α), queue.get? i = some a → isSprite a = true →
      (∀ j b, j < i → queue.get? j = some b → isSprite b = false) →
      firstMatch isSprite queue = some i := by
  intro queue
  induction queue with
  | nil =>
    intro i a h
    simp at h
  | cons c rest ih =>
    intro i a h ha hfirst
    cases i with
    | zero =>
      have hc : c = a := by simpa using h
      simp [firstMatch, hc, ha]
    | succ k =>
      have hc : isSprite c = false := hfirst 0 c (by omega) (by simp)
      have hk : rest.get? k = some a := by simpa using h
      have hrest : firstMatch isSprite rest = some k := by
        apply ih k a hk ha
        intro j b hj hb
        exact hfirst (j + 1) b (by omega) (by simpa using hb)
      simp [firstMatch, hc, hrest]

/-- C29: when the entity queue, the size queue and the animation (or hitbox) queue
have equal length, they still have equal length after `displayEntity`, `removeEntity`
and `clearEntities`. Whenever an entity of the queue equals the argument,
`removeEntity` erases the index of the first such entity, and that index only, from
all three queues, so each becomes one shorter; when no entity equals it, the queues
stay as they are. -/
theorem queues_stay_aligned {α β : Type} (queue : List α) (sizeQueue : List ℚ)
    (animQueue : List β) (h1 : queue.length = sizeQueue.length)
    (h2 : queue.length = animQueue.length) :
    (∀ (s : α) (size : ℚ) (animCode : β),
      (displayEntity queue sizeQueue animQueue s size animCode).1.length
        = (displayEntity queue sizeQueue animQueue s size animCode).2.1.length ∧
      (displayEntity queue sizeQueue animQueue s size animCode).1.length
        = (displayEntity queue sizeQueue animQueue s size animCode).2.2.length ∧
      (displayEntity queue sizeQueue animQueue s size animCode).1.length
        = queue.length + 1) ∧
    ((clearEntities queue sizeQueue animQueue).1.length = 0 ∧
      (clearEntities queue sizeQueue animQueue).2.1.length = 0 ∧
      (clearEntities queue sizeQueue animQueue).2.2.length = 0) ∧
    (∀ isSprite : α → Bool,
      (removeEntity queue sizeQueue animQueue isSprite).1.length
        = (removeEntity queue sizeQueue animQueue isSprite).2.1.length ∧
      (removeEntity queue sizeQueue animQueue isSprite).1.length
        = (removeEntity queue sizeQueue animQueue isSprite).2.2.length ∧
      (∀ i a, queue.get? i = some a → isSprite a = true →
        (∀ j b, j < i → queue.get? j = some b → isSprite b = false) →
        removeEntity queue sizeQueue animQueue isSprite
          = (queue.eraseIdx i, sizeQueue.eraseIdx i, animQueue.eraseIdx i) ∧
        (removeEntity queue sizeQueue animQueue isSprite).1.length + 1 = queue.length ∧
        (removeEntity queue sizeQueue animQueue isSprite).2.1.length + 1 = sizeQueue.length ∧
        (removeEntity queue sizeQueue animQueue isSprite).2.2.length + 1 = animQueue.length) ∧
      ((∃ a ∈ queue, isSprite a = true) →
        ∃ i a, queue.get? i = some a ∧ isSprite a = true ∧
          (∀ j b, j < i → queue.get? j = some b → isSprite b = false) ∧
          removeEntity queue sizeQueue animQueue isSprite
            = (queue.eraseIdx i, sizeQueue.eraseIdx i, animQueue.eraseIdx i) ∧
          (removeEntity queue sizeQueue animQueue isSprite).1.length + 1 = queue.length) ∧
      ((∀ a ∈ queue, isSprite a = false) →
        removeEntity queue sizeQueue animQueue isSprite
          = (queue, sizeQueue, animQueue))) := by
  refine ⟨?_, ⟨rfl, rfl, rfl⟩, ?_⟩
  · intro s size animCode
    refine ⟨?_, ?_, ?_⟩ <;> simp [displayEntity] <;> omega
  · intro isSprite
    obtain ⟨hsome, hnone⟩ := firstMatch_spec isSprite queue
    have hrem : ∀ i, firstMatch isSprite queue = some i →
        removeEntity queue sizeQueue animQueue isSprite
          = (queue.eraseIdx i, sizeQueue.eraseIdx i, animQueue.eraseIdx i) := by
      intro i hi
      unfold removeEntity
      rw [hi]
    have hrem0 : firstMatch isSprite queue = none →
        removeEntity queue sizeQueue animQueue isSprite = (queue, sizeQueue, animQueue) := by
      intro hn
      unfold removeEntity
      rw [hn]
    have hlen : (removeEntity queue sizeQueue animQueue isSprite).1.length
          = (removeEntity queue sizeQueue animQueue isSprite).2.1.length ∧
        (removeEntity queue sizeQueue animQueue isSprite).1.length
          = (removeEntity queue sizeQueue animQueue isSprite).2.2.length := by
      cases hfm : firstMatch isSprite queue with
      | none =>
        rw [hrem0 hfm]
        exact ⟨h1, h2⟩
      | some i =>
        rw [hrem i hfm]
        have hi := (hsome i hfm).1
        simp only [List.length_eraseIdx, hi, ← h1, ← h2, if_true]
        exact ⟨trivial, trivial⟩
    have hdel : ∀ i, firstMatch isSprite queue = some i →
        (removeEntity queue sizeQueue animQueue isSprite).1.length + 1 = queue.length := by
      intro i hi
      have hlt := (hsome i hi).1
      rw [hrem i hi]
      simp only [List.length_eraseIdx, hlt, if_true]
      omega
    refine ⟨hlen.1, hlen.2, ?_, ?_, ?_⟩
    · intro i a hia ha hfirst
      have hfm := firstMatch_of_first isSprite queue i a hia ha hfirst
      have hd := hdel i hfm
      refine ⟨hrem i hfm, hd, ?_, ?_⟩
      · rw [← hlen.1, ← h1]
        exact hd
      · rw [← hlen.2, ← h2]
        exact hd
    · intro hex
      cases hfm : firstMatch isSprite queue with
      | none =>
        obtain ⟨a, hmem, ha⟩ := hex
        have hf := hnone.mp hfm a hmem
        rw [ha] at hf
        exact absurd hf (by decide)
      | some i =>
        obtain ⟨_, ⟨a, hia, ha⟩, hfirst⟩ := hsome i hfm
        exact ⟨i, a, hia, ha, hfirst, hrem i hfm, hdel i hfm⟩
    · intro hall
      exact hrem0 (hnone.mpr hall)

/-- Witness for C29: aligned queues of length 3 from which the first entry equal to
2 (index 1) is removed, and which an argument equal to no entry leaves alone. -/
theorem queues_stay_aligned_witness :
    removeEntity ([1, 2, 2] : List Nat) [1 / 2, 1, 3 / 2] ['a', 'b', 'c'] (fun n : Nat => n == 2)
      = ([1, 2], [1 / 2, 3 / 2], ['a', 'c']) ∧
    removeEntity ([1, 2, 2] : List Nat) [1 / 2, 1, 3 / 2] ['a', 'b', 'c'] (fun n : Nat => n == 5)
      = ([1, 2, 2], [1 / 2, 1, 3 / 2], ['a', 'b', 'c']) := by
  have h := (queues_stay_aligned ([1, 2, 2] : List Nat) [1 / 2, 1, 3 / 2] ['a', 'b', 'c'] rfl rfl).2.2
  have hfirst : ∀ j b : Nat, j < 1 → ([1, 2, 2] : List Nat).get? j = some b →
      (fun n : Nat => n == 2) b = false := by
    intro j b hj hb
    have hj0 : j = 0 := by omega
    subst hj0
    have hb1 : 1 = b := by simpa using hb
    subst hb1
    decide
  have ha := (h (fun n : Nat => n == 2)).2.2.1 1 2 (by decide) (by decide) hfirst
  have hb := (h (fun n : Nat => n == 5)).2.2.2.2 (by decide)
  exact ⟨ha.1, hb⟩

/-- C30: over exact arithmetic, for an entity that is not vanished `vanish` followed
by `unvanish` gives back the entity (its y and its flag); `vanish` shifts y by 9999
and sets the flag, and a second `vanish` changes nothing; `toggleVanished` applied
twice gives back the entity, vanished or not. -/
theorem vanish_roundtrip (e : Entity) :
    (e.vanished = false → e.vanish.unvanish = e) ∧
    (e.vanished = false → e.vanish.y = e.y + 9999 ∧ e.vanish.isVanished = true) ∧
    (e.vanished = true → e.vanish = e) ∧
    e.vanish.vanish = e.vanish ∧
    e.toggleVanished.toggleVanished = e := by
  rcases e with ⟨x, y, size, vanished, hitboxAdjust, width, height⟩
  cases vanished <;>
    simp [Entity.vanish, Entity.unvanish, Entity.toggleVanished, Entity.changeY,
      Entity.isVanished]

/-- Witness for C30: `platformEntity` goes to y = 9999 and back to y = 0. -/
theorem vanish_roundtrip_witness :
    platformEntity.vanish.unvanish = platformEntity ∧ platformEntity.vanish.y = 9999 := by
  have h := vanish_roundtrip platformEntity
  refine ⟨h.1 rfl, ?_⟩
  rw [(h.2.1 rfl).1]
  norm_num [platformEntity]

/-! ### The landing scenario -/

theorem fallY_bounds (n : Nat) (hn : n ≤ 516) : 400 ≤ fallY n ∧ fallY n < 531 := by
  have h1 : (n : ℚ) ≤ 516 := by exact_mod_cast hn
  have h0 : (0 : ℚ) ≤ (n : ℚ) := Nat.cast_nonneg n
  unfold fallY
  constructor
  · have : 0 ≤ (n : ℚ) * ((n : ℚ) + 1) := by positivity
    linarith
  · have : (n : ℚ) * ((n : ℚ) + 1) ≤ 516 * 517 := by nlinarith
    linarith

/-- The floor of the landing scenario does not touch a player of its shape whose y
is in [0, 531). -/
theorem surfaceStep_floor_above (g : Game)
    (hp : g.thePlayer.toEntity = { dropPlayer.toEntity with y := g.thePlayer.y })
    (hy0 : 0 ≤ g.thePlayer.y) (hy : g.thePlayer.y < 531) :
    surfaceStep landingWorld 0 floorSurface g = g := by
  have hd : surfaceDamage floorSurface g = g := by
    simp [surfaceDamage, floorSurface, Surface.getDamage]
  have hfl : ⌊g.thePlayer.y⌋ ≤ 530 := by
    have : ⌊g.thePlayer.y⌋ < 531 := Int.floor_lt.mpr (by exact_mod_cast hy)
    omega
  have hv : vCandidate (collisionRect g.thePlayer.toEntity (playerContraction landingWorld g))
      (collisionRect floorSurface.toEntity
        (obstacleContraction landingWorld floorSurface.xPrime)) = 0 := by
    rw [hp]
    simp only [vCandidate, collisionRect, dropPlayer, floorSurface, truncToInt, if_pos hy0]
    norm_num
    rw [if_neg (by omega), if_neg (by omega)]
  have hc : collided g.thePlayer.toEntity floorSurface.toEntity
      (playerContraction landingWorld g)
      (obstacleContraction landingWorld floorSurface.xPrime) = 0 := by
    unfold collided collisionDetected
    dsimp only
    rw [if_pos (Or.inl hv)]
  unfold surfaceStep
  rw [hd]
  simp only [surfaceResolve, hc]
  simp

theorem beginTick_falling (n : Nat) :
    beginTick dropFrame (fallingGame n)
      = { fallingGame (n + 1) with timer := (n : Int) } := by
  have hy : fallY n + (980665 / 10000000 * (n : ℚ) + 980665 / 100000 * (1 / 100)) * (1 / 100)
      = fallY (n + 1) := by
    unfold fallY
    push_cast
    ring
  simp only [beginTick, dropFrame, fallingGame, Body.move, Body.dt, dropPlayer, Body.g]
  norm_num
  refine ⟨?_, ?_⟩
  · rw [← hy]; ring
  · ring

theorem beforeDeath_falling (n : Nat) (hn : n + 1 ≤ 516) :
    beforeDeath dropFrame (fallingGame n)
      = { fallingGame (n + 1) with timer := (n : Int) } := by
  obtain ⟨hlo, hhi⟩ := fallY_bounds (n + 1) hn
  have hstep : surfaceStep landingWorld 0 floorSurface
      { fallingGame (n + 1) with timer := (n : Int) }
      = { fallingGame (n + 1) with timer := (n : Int) } := by
    apply surfaceStep_floor_above
    · rfl
    · show 0 ≤ fallY (n + 1)
      linarith
    · exact hhi
  unfold beforeDeath
  rw [beginTick_falling]
  have hbody : bodyLoop dropFrame.world { fallingGame (n + 1) with timer := (n : Int) }
      = { fallingGame (n + 1) with timer := (n : Int) } := rfl
  rw [hbody]
  have hsurf : surfaceLoop dropFrame.world { fallingGame (n + 1) with timer := (n : Int) }
      = { fallingGame (n + 1) with timer := (n : Int) } := by
    show surfaceStep landingWorld 0 floorSurface _ = _
    exact hstep
  rw [hsurf]
  simp [refreshBorders, invalidateGrounded, invalidateHorizontal, invalidateVertical,
    fallingGame]

theorem gameTick_falling (n : Nat) (hn : n + 1 ≤ 516) :
    gameTick dropFrame (fallingGame n) = fallingGame (n + 1) := by
  obtain ⟨hlo, hhi⟩ := fallY_bounds (n + 1) hn
  have hy : ¬ fallY (n + 1) > 1000 := by linarith
  have ht : ¬ ((n : Int) = -1) := by omega
  unfold gameTick collisionPhase
  rw [beforeDeath_falling n hn]
  simp [playerDeath, timerHandling, fallingGame, hy, ht]

theorem gameTick_landing : gameTick dropFrame (fallingGame 516) = landedGame 517 := by
  have hb : beforeDeath dropFrame (fallingGame 516) = { landedGame 517 with timer := 516 } := by
    unfold beforeDeath
    rw [beginTick_falling]
    norm_num [fallingGame, fallY, landedGame, restY, dropFrame, landingWorld, bodyLoop,
      bodyLoopFrom, surfaceLoop, surfaceLoopFrom, surfaceStep, surfaceDamage, surfaceResolve,
      Surface.isSolid, Surface.getDamage, floorSurface, dropPlayer, collided, collisionRect,
      collisionDetected, hCandidate, vCandidate, hOverlap, vOverlap, truncToInt,
      playerContraction, obstacleContraction, Body.move, Body.dt, Body.g, Body.stopY,
      Body.setY, refreshBorders, invalidateGrounded, invalidateHorizontal,
      invalidateVertical]
  unfold gameTick collisionPhase
  rw [hb]
  norm_num [playerDeath, timerHandling, landedGame, restY, dropPlayer]

theorem beforeDeath_landed (t : Nat) : beforeDeath dropFrame (landedGame t) = landedGame t := by
  have hbegin : beginTick dropFrame (landedGame t) = landedGame t := by
    simp [beginTick, dropFrame, landedGame, Body.move, dropPlayer]
  have hstep : surfaceStep landingWorld 0 floorSurface (landedGame t) = landedGame t := by
    apply surfaceStep_floor_above
    · rfl
    · show 0 ≤ restY
      norm_num [restY]
    · show restY < 531
      norm_num [restY]
  have hbody : bodyLoop dropFrame.world (landedGame t) = landedGame t := rfl
  have hsurf : surfaceLoop dropFrame.world (landedGame t) = landedGame t := hstep
  have hinv : invalidateGrounded (refreshBorders dropFrame.world (landedGame t))
      = landedGame t := by
    norm_num [refreshBorders, invalidateGrounded, invalidateHorizontal, invalidateVertical,
      landedGame, restY, dropPlayer]
  unfold beforeDeath
  rw [hbegin, hbody, hsurf, hinv]

theorem collisionPhase_landed (t : Nat) :
    collisionPhase dropFrame (landedGame t) = landedGame t := by
  have ht : ¬ ((t : Int) = -1) := by omega
  unfold collisionPhase
  rw [beforeDeath_landed]
  norm_num [playerDeath, timerHandling, landedGame, restY, dropPlayer, ht]

theorem gameTick_landed (t : Nat) : gameTick dropFrame (landedGame t) = landedGame (t + 1) := by
  unfold gameTick
  rw [collisionPhase_landed]
  simp [landedGame]

/-- The run of the landing scenario: free fall for 516 ticks, the landing in tick
517, and the same state, up to the timer, ever after. -/
theorem landing_run :
    (∀ n : Nat, n ≤ 516 → playTicks (fun _ => dropFrame) n dropGame = fallingGame n) ∧
    (∀ n : Nat, 517 ≤ n → playTicks (fun _ => dropFrame) n dropGame = landedGame n) := by
  have hfall : ∀ n : Nat, n ≤ 516 →
      playTicks (fun _ => dropFrame) n dropGame = fallingGame n := by
    intro n
    induction n with
    | zero =>
      intro _
      show dropGame = fallingGame 0
      simp [dropGame, fallingGame, fallY, dropPlayer]
    | succ n ih =>
      intro hn
      show (if (playTicks (fun _ => dropFrame) n dropGame).playerDied = true
        then playTicks (fun _ => dropFrame) n dropGame
        else gameTick dropFrame (playTicks (fun _ => dropFrame) n dropGame)) = _
      rw [ih (by omega)]
      rw [if_neg (by simp [fallingGame])]
      exact gameTick_falling n hn
  refine ⟨hfall, ?_⟩
  intro n hn
  induction n, hn using Nat.le_induction with
  | base =>
    show (if (playTicks (fun _ => dropFrame) 516 dropGame).playerDied = true
      then playTicks (fun _ => dropFrame) 516 dropGame
      else gameTick dropFrame (playTicks (fun _ => dropFrame) 516 dropGame)) = _
    rw [hfall 516 (le_refl _)]
    rw [if_neg (by simp [fallingGame])]
    exact gameTick_landing
  | succ n hn ih =>
    show (if (playTicks (fun _ => dropFrame) n dropGame).playerDied = true
      then playTicks (fun _ => dropFrame) n dropGame
      else gameTick dropFrame (playTicks (fun _ => dropFrame) n dropGame)) = _
    rw [ih]
    rw [if_neg (by simp [landedGame])]
    exact gameTick_landed n

/-- C21, as stated, fails: in the landing scenario the player is above y = 529 from
tick 517 on (its y is below 529), so no tick is followed only by states with
y = 530. -/
theorem landing_not_at_530 :
    (∀ n : Nat, 517 ≤ n →
      (playTicks (fun _ => dropFrame) n dropGame).thePlayer.y < 529) ∧
    ¬ ∃ N : Nat, ∀ n : Nat, N ≤ n →
      (playTicks (fun _ => dropFrame) n dropGame).thePlayer.y = 580 - 50 ∧
      (playTicks (fun _ => dropFrame) n dropGame).thePlayer.yPrime = 0 ∧
      (playTicks (fun _ => dropFrame) n dropGame).grounded = true ∧
      (playTicks (fun _ => dropFrame) n dropGame).landedIndex = -1 := by
  have hy : ∀ n : Nat, 517 ≤ n →
      (playTicks (fun _ => dropFrame) n dropGame).thePlayer.y < 529 := by
    intro n hn
    rw [landing_run.2 n hn]
    show restY < 529
    norm_num [restY]
  refine ⟨hy, ?_⟩
  rintro ⟨N, hN⟩
  have h1 := (hN (N + 517) (by omega)).1
  have h2 := hy (N + 517) (by omega)
  rw [h1] at h2
  norm_num at h2

/-- C21, amended: in the landing scenario (a player 50 high released from rest at
y = 400 above a stationary, fully solid 100 by 20 surface with its top at y = 580)
the player falls freely for 516 ticks, still not grounded after tick 516 with y
between 530.8 and 530.81, and lands in tick 517. On that and every later tick its y
is the y it had after tick 516 moved up by the nudge of 2 px (the reverse integration
of the landing takes back the step of tick 517), a value between 528.8 and 528.81 and
so not 530, with vy = 0, grounded = true and landedIndex = -1. -/
theorem landing_settles (n : Nat) (hn : 517 ≤ n) :
    5288 / 10 < (playTicks (fun _ => dropFrame) n dropGame).thePlayer.y ∧
    (playTicks (fun _ => dropFrame) n dropGame).thePlayer.y < 52881 / 100 ∧
    (playTicks (fun _ => dropFrame) n dropGame).thePlayer.y
      = (playTicks (fun _ => dropFrame) 516 dropGame).thePlayer.y - 2 ∧
    (playTicks (fun _ => dropFrame) n dropGame).thePlayer.y ≠ 580 - 50 ∧
    (playTicks (fun _ => dropFrame) n dropGame).thePlayer.yPrime = 0 ∧
    (playTicks (fun _ => dropFrame) n dropGame).grounded = true ∧
    (playTicks (fun _ => dropFrame) n dropGame).landedIndex = -1 ∧
    (playTicks (fun _ => dropFrame) n dropGame).thePlayer.x = 40 ∧
    (playTicks (fun _ => dropFrame) 516 dropGame).grounded = false ∧
    5308 / 10 < (playTicks (fun _ => dropFrame) 516 dropGame).thePlayer.y ∧
    (playTicks (fun _ => dropFrame) 516 dropGame).thePlayer.y < 53081 / 100 := by
  rw [landing_run.2 n hn, landing_run.1 516 (le_refl _)]
  refine ⟨?_, ?_, ?_, ?_, rfl, rfl, rfl, rfl, rfl, ?_, ?_⟩
  · show 5288 / 10 < restY
    norm_num [restY]
  · show restY < 52881 / 100
    norm_num [restY]
  · show restY = fallY 516 - 2
    norm_num [restY, fallY]
  · show restY ≠ 580 - 50
    norm_num [restY]
  · show 5308 / 10 < fallY 516
    norm_num [fallY]
  · show fallY 516 < 53081 / 100
    norm_num [fallY]

/-- Witness for C21, amended: the state after 1000 ticks. -/
theorem landing_settles_witness :
    5288 / 10 < (playTicks (fun _ => dropFrame) 1000 dropGame).thePlayer.y ∧
    (playTicks (fun _ => dropFrame) 1000 dropGame).thePlayer.y < 52881 / 100 ∧
    (playTicks (fun _ => dropFrame) 1000 dropGame).grounded = true ∧
    (playTicks (fun _ => dropFrame) 1000 dropGame).landedIndex = -1 := by
  have h := landing_settles 1000 (by norm_num)
  exact ⟨h.1, h.2.1, h.2.2.2.2.2.1, h.2.2.2.2.2.2.1⟩

/-! ### Reverse integrations in one pass -/

end URG
